import Mathlib

/-! # Display resource configuration and DRM device helpers

A shallow embedding of

* `displayengine/libs/core/res_config.cpp` (namespace `sde`): the geometry engine of the
  resource manager (`IsValidDimension`, `CalculateCut`, `CalculateCropRects`, `SplitRect`,
  `ValidateScaling`, `SetDecimationFactor`, `RotationConfig`, `SrcSplitConfig`,
  `DisplaySplitConfig`, `Config`);
* `sdm/libs/core/drm/hw_device_drm.cpp` (namespace `sdm`): `HWDeviceDRM::SetRotation`,
  `HWDeviceDRM::SetRefreshRate`, the refresh-rate switch of `HWDeviceDRM::AtomicCommit`, the
  framebuffer registry `HWDeviceDRM::Registry`, and of `HWDeviceDRM::SetupAtomic` the
  partial-update regions and the security level (namespace `sdm.atomic`, with
  `HWDeviceDRM::SetSecureConfig`).

Conventions of the embedding.

* A C `float` is a rational number: the model covers finite values and computes exactly
  (no rounding, no NaN, no infinity).  Statements that divide carry the hypothesis that the
  divisor is not zero wherever the quotient matters.
* Where the rounding of single precision decides a result, the `float` operations are a
  parameter (`FloatOps`, and `CMath` for `log2f`, `ceilf`, `powf`): `SetDecimationFactor`
  and the second embedding of `CalculateCropRects` in namespace `sde.single` compute with
  them.  `exactOps` is the exact arithmetic, `binary32Ops` rounds every result to the
  nearest binary32 value.
* `uint32_t` and `uint8_t` values are natural numbers, reduced modulo `2^32` / `2^8` where the
  source can wrap.
* Output parameters (`LayerRect *crop`, `HWPipeInfo *pipe`, ...) become returned values.
* Logging (`DLOGV_IF`, `DLOGE`, `LogRectVerbose`) has no effect on the results and is left out.
-/

namespace sde

/-! ## Data model -/

/-- The C `float` type: finite values with exact arithmetic. -/
abbrev CFloat := ℚ

/-- The `LayerRect` of `layer_stack.h`; its default constructor zeroes the four members. -/
structure LayerRect where
  left : CFloat := 0
  top : CFloat := 0
  right : CFloat := 0
  bottom : CFloat := 0
deriving DecidableEq

/-- The `LayerTransform` of `layer_stack.h`; the default constructor is the identity. -/
structure LayerTransform where
  rotation : CFloat := 0
  flip_horizontal : Bool := false
  flip_vertical : Bool := false
deriving DecidableEq

/-- The `LayerBuffer` of `layer_buffer.h`, with the members a format test can read. -/
structure LayerBuffer where
  width : ℕ
  height : ℕ
  format : ℕ
deriving DecidableEq

/-- The `Layer` of `layer_stack.h`, with the members read by `res_config.cpp`. -/
structure Layer where
  input_buffer : LayerBuffer
  src_rect : LayerRect
  dst_rect : LayerRect
  transform : LayerTransform
deriving DecidableEq

/-- Modelled from the spec: the `DisplayError` enumeration, which is declared outside the
sources.  Its values are success and the error taxonomy of the specification: `Undefined`,
`NotSupported`, `Parameters`, `FileDescriptor`, `Resources`, `Hardware`. -/
inductive DisplayError where
  | kErrorNone
  | kErrorUndefined
  | kErrorNotSupported
  | kErrorParameters
  | kErrorFileDescriptor
  | kErrorResources
  | kErrorHardware
deriving DecidableEq

/-- The `HWResourceInfo` members read by `res_config.cpp` (all `uint32_t` or `bool`). -/
structure HWResourceInfo where
  max_scale_up : ℕ
  max_scale_down : ℕ
  has_rotator_downscale : Bool
  has_decimation : Bool
  is_src_split : Bool
  always_src_split : Bool
deriving DecidableEq

/-- The `HWDisplayAttributes` members read by `res_config.cpp` (all `uint32_t`). -/
structure HWDisplayAttributes where
  x_pixels : ℕ
  y_pixels : ℕ
  split_left : ℕ
deriving DecidableEq

/-- The `DisplayResourceContext` of `res_manager.h`. -/
structure DisplayResourceContext where
  display_attributes : HWDisplayAttributes
  hw_block_id : ℕ
deriving DecidableEq

/-- The `HWPipeInfo` of `hw_info_types.h`: `decimation` is a `uint8_t`. -/
structure HWPipeInfo where
  pipe_id : ℕ
  src_roi : LayerRect
  dst_roi : LayerRect
  decimation : ℕ
deriving DecidableEq

/-- The `HWRotateInfo` of `hw_info_types.h`. -/
structure HWRotateInfo where
  pipe_id : ℕ
  src_roi : LayerRect
  dst_roi : LayerRect
  downscale_ratio_x : CFloat
  downscale_ratio_y : CFloat
deriving DecidableEq

/-- The `HWLayerConfig` of `hw_info_types.h`. -/
structure HWLayerConfig where
  is_right_pipe : Bool
  left_pipe : HWPipeInfo
  right_pipe : HWPipeInfo
  left_rotate : HWRotateInfo
  right_rotate : HWRotateInfo
deriving DecidableEq

/-- The `HWLayersInfo` of `hw_info_types.h`: `stack` holds `stack->layers`, `index[i]` is the
position in the stack of the `i`-th hardware layer and `count` the number of hardware layers. -/
structure HWLayersInfo where
  stack : List Layer
  index : List ℕ
  count : ℕ
deriving DecidableEq

/-- The `HWLayers` of `hw_info_types.h`. -/
structure HWLayers where
  info : HWLayersInfo
  config : List HWLayerConfig
deriving DecidableEq

/-- The resource manager: its member `hw_res_info_`, together with the declarations of
`res_manager.h`, `constants.h` and `hw_info_types.h` that `res_config.cpp` uses and that are
declared outside the file.  They are parameters of the model. -/
structure ResManager where
  hw_res_info_ : HWResourceInfo
  kMaxSourcePipeWidth : ℕ
  kMaxInterfaceWidth : ℕ
  kMaxRotateDownScaleRatio : ℕ
  kPipeIdNeedsAssignment : ℕ
  IsRotationNeeded : CFloat → Bool
  IsMacroTileFormat : LayerBuffer → Bool
  pipe_reset : HWPipeInfo
  rotate_reset : HWRotateInfo

/-! ## Conversions -/

/-- The C library `roundf`: nearest integer, halves away from zero. -/
def roundf (x : CFloat) : CFloat :=
  if 0 ≤ x then ((⌊x + 1 / 2⌋ : ℤ) : ℚ) else ((⌈x - 1 / 2⌉ : ℤ) : ℚ)

/-- The `UINT32(exp)` cast of a float: truncation toward zero; values outside the range of
`uint32_t` saturate (the behaviour of the conversion instruction of the target). -/
def UINT32 (x : CFloat) : ℕ := min (Int.toNat ⌊x⌋) (2 ^ 32 - 1)

/-- The `UINT8(exp)` cast of a float: converted as for `UINT32`, then the low eight bits. -/
def UINT8 (x : CFloat) : ℕ := UINT32 x % 2 ^ 8

/-- The `FLOAT(exp)` cast of an unsigned integer. -/
def FLOAT (n : ℕ) : CFloat := (n : ℚ)

/-! ## Rectangle validation -/

/-- `ResManager::IsValidDimension`: the four source coordinates are integral and neither
rectangle is inverted. -/
def ResManager.IsValidDimension (src dst : LayerRect) : Bool :=
  if src.left - roundf src.left ≠ 0 ∨ src.top - roundf src.top ≠ 0 ∨
      src.right - roundf src.right ≠ 0 ∨ src.bottom - roundf src.bottom ≠ 0 then
    false
  else if src.left > src.right ∨ src.top > src.bottom ∨ dst.left > dst.right ∨
      dst.top > dst.bottom then
    false
  else
    true

/-! ## Splitting a rectangle pair -/

/-- Result of `ResManager::SplitRect`: the four output rectangles. -/
structure SplitResult where
  src_left : LayerRect
  dst_left : LayerRect
  src_right : LayerRect
  dst_right : LayerRect
deriving DecidableEq

/-- `ResManager::SplitRect`: split source and destination horizontally and evenly in two. -/
def ResManager.SplitRect (flip_horizontal : Bool) (src_rect dst_rect : LayerRect) :
    SplitResult :=
  let src_width := src_rect.right - src_rect.left
  let dst_width := dst_rect.right - dst_rect.left
  if flip_horizontal then
    let src_left : LayerRect :=
      { top := src_rect.top, left := src_rect.left,
        right := src_rect.left + src_width / 2, bottom := src_rect.bottom }
    let dst_left : LayerRect :=
      { top := dst_rect.top, left := dst_rect.left + dst_width / 2,
        right := dst_rect.right, bottom := dst_rect.bottom }
    let src_right : LayerRect :=
      { top := src_rect.top, left := src_left.right,
        right := src_rect.right, bottom := src_rect.bottom }
    let dst_right : LayerRect :=
      { top := dst_rect.top, left := dst_rect.left,
        right := dst_left.left, bottom := dst_rect.bottom }
    ⟨src_left, dst_left, src_right, dst_right⟩
  else
    let src_left : LayerRect :=
      { top := src_rect.top, left := src_rect.left,
        right := src_rect.left + src_width / 2, bottom := src_rect.bottom }
    let dst_left : LayerRect :=
      { top := dst_rect.top, left := dst_rect.left,
        right := dst_rect.left + dst_width / 2, bottom := dst_rect.bottom }
    let src_right : LayerRect :=
      { top := src_rect.top, left := src_left.right,
        right := src_rect.right, bottom := src_rect.bottom }
    let dst_right : LayerRect :=
      { top := dst_rect.top, left := dst_left.right,
        right := dst_rect.right, bottom := dst_rect.bottom }
    ⟨src_left, dst_left, src_right, dst_right⟩

/-! ## Cropping against a scissor -/

/-- The four cut ratios handled by `ResManager::CalculateCut`. -/
structure CutRatios where
  left : CFloat := 0
  top : CFloat := 0
  right : CFloat := 0
  bottom : CFloat := 0
deriving DecidableEq

/-- `ResManager::CalculateCut`: move the destination cut ratios to the source sides they
fall on under the flips and the rotation of the transform. -/
def ResManager.CalculateCut (rm : ResManager) (transform : LayerTransform) (c : CutRatios) :
    CutRatios :=
  let c1 : CutRatios :=
    if transform.flip_horizontal then { c with left := c.right, right := c.left } else c
  let c2 : CutRatios :=
    if transform.flip_vertical then { c1 with top := c1.bottom, bottom := c1.top } else c1
  if rm.IsRotationNeeded transform.rotation then
    let tmp_cut_ratio := c2.left
    { left := c2.top, top := c2.right, right := c2.bottom, bottom := tmp_cut_ratio }
  else
    c2

/-- `ResManager::CalculateCropRects`: clip `dst` to `scissor` and cut the same fractions off
`crop`.  Returns the new `(crop, dst)`. -/
def ResManager.CalculateCropRects (rm : ResManager) (scissor : LayerRect)
    (transform : LayerTransform) (crop dst : LayerRect) : LayerRect × LayerRect :=
  let crop_width := crop.right - crop.left
  let crop_height := crop.bottom - crop.top
  let dst_width := dst.right - dst.left
  let dst_height := dst.bottom - dst.top
  let cut0 : CutRatios := {}
  let need_cut0 := false
  -- if (dst_left < sci_left)
  let s1 : CutRatios × LayerRect × Bool :=
    if dst.left < scissor.left then
      ({ cut0 with left := (scissor.left - dst.left) / dst_width },
        { dst with left := scissor.left }, true)
    else (cut0, dst, need_cut0)
  -- if (dst_right > sci_right)
  let s2 : CutRatios × LayerRect × Bool :=
    if s1.2.1.right > scissor.right then
      ({ s1.1 with right := (s1.2.1.right - scissor.right) / dst_width },
        { s1.2.1 with right := scissor.right }, true)
    else s1
  -- if (dst_top < sci_top)
  let s3 : CutRatios × LayerRect × Bool :=
    if s2.2.1.top < scissor.top then
      ({ s2.1 with top := (scissor.top - s2.2.1.top) / dst_height },
        { s2.2.1 with top := scissor.top }, true)
    else s2
  -- if (dst_bottom > sci_bottom)
  let s4 : CutRatios × LayerRect × Bool :=
    if s3.2.1.bottom > scissor.bottom then
      ({ s3.1 with bottom := (s3.2.1.bottom - scissor.bottom) / dst_height },
        { s3.2.1 with bottom := scissor.bottom }, true)
    else s3
  if !s4.2.2 then
    (crop, s4.2.1)
  else
    let cut := rm.CalculateCut transform s4.1
    ({ left := crop.left + crop_width * cut.left,
       top := crop.top + crop_height * cut.top,
       right := crop.right - crop_width * cut.right,
       bottom := crop.bottom - crop_height * cut.bottom }, s4.2.1)

/-! ## Scaling limits -/

/-- Iteration bound of the model for the two halving loops of `ValidateScaling`. -/
def kScaleLoopBound : ℕ := 64

/-- The loop `while (scale > max_scale_down) { scale /= 2; rot_scale *= 2; }` of
`ValidateScaling`, run for at most the given number of tests of its condition.  The result
is the final `rot_scale`, or `none` when the loop has not ended by then. -/
def rotScaleLoop (max_scale_down : ℕ) : ℕ → CFloat → CFloat → Option CFloat
  | 0, _, _ => none
  | n + 1, scale, rot_scale =>
    if scale > (max_scale_down : ℚ) then
      rotScaleLoop max_scale_down n (scale / 2) (rot_scale * 2)
    else
      some rot_scale

/-- `ResManager::ValidateScaling`.  The outputs `*rot_scale_x`, `*rot_scale_y` are returned
next to the error code (unchanged when the function returns early).  The result is `none`
when a halving loop exceeds `kScaleLoopBound`. -/
def ResManager.ValidateScaling (rm : ResManager) (layer : Layer) (crop dst : LayerRect)
    (rot_scale_x rot_scale_y : CFloat) : Option (DisplayError × CFloat × CFloat) :=
  let rotated90 := rm.IsRotationNeeded layer.transform.rotation
  let crop_width := if rotated90 then crop.bottom - crop.top else crop.right - crop.left
  let crop_height := if rotated90 then crop.right - crop.left else crop.bottom - crop.top
  let dst_width := dst.right - dst.left
  let dst_height := dst.bottom - dst.top
  if dst_width < 1 ∨ dst_height < 1 then
    some (DisplayError.kErrorNotSupported, rot_scale_x, rot_scale_y)
  else if crop_width < 1 ∨ crop_height < 1 then
    some (DisplayError.kErrorNotSupported, rot_scale_x, rot_scale_y)
  else
    let scale_x := crop_width / dst_width
    let scale_y := crop_height / dst_height
    let max_scale_down := rm.hw_res_info_.max_scale_down
    let max_downscale_with_rotator :=
      if rm.hw_res_info_.has_rotator_downscale then
        (max_scale_down * rm.kMaxRotateDownScaleRatio) % 2 ^ 32
      else max_scale_down
    let downscale_rejected : Bool :=
      if UINT32 scale_x > 1 ∨ UINT32 scale_y > 1 then
        if (!rm.hw_res_info_.has_decimation || rm.IsMacroTileFormat layer.input_buffer) ∧
            (scale_x > (max_scale_down : ℚ) ∨ scale_y > (max_scale_down : ℚ)) then
          true
        else if scale_x > (max_downscale_with_rotator : ℚ) ∨
            scale_y > (max_downscale_with_rotator : ℚ) then
          true
        else false
      else false
    if downscale_rejected then
      some (DisplayError.kErrorNotSupported, rot_scale_x, rot_scale_y)
    else
      let max_scale_up := rm.hw_res_info_.max_scale_up
      if UINT32 scale_x < 1 ∧ scale_x > 0 ∧ 1 / scale_x > (max_scale_up : ℚ) then
        some (DisplayError.kErrorNotSupported, rot_scale_x, rot_scale_y)
      else if UINT32 scale_y < 1 ∧ scale_y > 0 ∧ 1 / scale_y > (max_scale_up : ℚ) then
        some (DisplayError.kErrorNotSupported, rot_scale_x, rot_scale_y)
      else
        match rotScaleLoop max_scale_down kScaleLoopBound scale_x 1 with
        | none => none
        | some rot_x =>
          match rotScaleLoop max_scale_down kScaleLoopBound scale_y 1 with
          | none => none
          | some rot_y => some (DisplayError.kErrorNone, rot_x, rot_y)

/-! ## Decimation -/

/-- The arithmetic of single-precision `float` values, which rounds: the four operations
are taken from the platform, like the functions of `CMath`.  `SetDecimationFactor` and
`single.ResManager.CalculateCropRects` compute with them; `exactOps` is the exact
arithmetic of the other definitions and `binary32Ops` the rounding one. -/
structure FloatOps where
  add : CFloat → CFloat → CFloat
  sub : CFloat → CFloat → CFloat
  mul : CFloat → CFloat → CFloat
  div : CFloat → CFloat → CFloat

/-- The functions of `<cmath>` that `SetDecimationFactor` calls. -/
structure CMath where
  log2f : CFloat → CFloat
  ceilf : CFloat → CFloat
  powf : CFloat → CFloat → CFloat

/-- `ResManager::SetDecimationFactor`, with the `float` operations of `fl` and the library
functions of `lib`. -/
def ResManager.SetDecimationFactor (rm : ResManager) (fl : FloatOps) (lib : CMath)
    (pipe : HWPipeInfo) : HWPipeInfo :=
  let max_down_scale := FLOAT rm.hw_res_info_.max_scale_down
  let src_h := fl.sub pipe.src_roi.bottom pipe.src_roi.top
  let dst_h := fl.sub pipe.dst_roi.bottom pipe.dst_roi.top
  let down_scale := fl.div src_h dst_h
  let pipe1 := { pipe with decimation := 1 }
  if !rm.hw_res_info_.has_decimation ∨ down_scale ≤ max_down_scale then
    pipe1
  else
    let decimation_factor :=
      lib.ceilf (fl.sub (lib.log2f down_scale) (lib.log2f max_down_scale))
    { pipe1 with decimation := UINT8 (lib.powf 2 decimation_factor) }

/-! ## Rotator and pipe configuration -/

/-- `ResManager::RotationConfig`.  Returns the new `*src_rect`, `*left_rotate`,
`*right_rotate` and `*rotate_count`. -/
def ResManager.RotationConfig (rm : ResManager) (_transform : LayerTransform)
    (src_rect : LayerRect) (left_rotate _right_rotate : HWRotateInfo) (rotate_count : ℕ) :
    LayerRect × HWRotateInfo × HWRotateInfo × ℕ :=
  let src_width := src_rect.right - src_rect.left
  let src_height := src_rect.bottom - src_rect.top
  let dst_rect : LayerRect :=
    { top := 0, left := 0,
      right := src_height / left_rotate.downscale_ratio_x,
      bottom := src_width / left_rotate.downscale_ratio_y }
  let left_rotate1 : HWRotateInfo :=
    { left_rotate with
      src_roi := src_rect, pipe_id := rm.kPipeIdNeedsAssignment, dst_roi := dst_rect }
  (dst_rect, left_rotate1, rm.rotate_reset, (rotate_count + 1) % 2 ^ 32)

/-- `ResManager::SrcSplitConfig`.  Returns the error code and the new `*layer_config`. -/
def ResManager.SrcSplitConfig (rm : ResManager) (_ctx : DisplayResourceContext)
    (transform : LayerTransform) (src_rect dst_rect : LayerRect)
    (layer_config : HWLayerConfig) : DisplayError × HWLayerConfig :=
  let cfg := { layer_config with is_right_pipe := false }
  if src_rect.right - src_rect.left ≥ (rm.kMaxSourcePipeWidth : ℚ) ∨
      dst_rect.right - dst_rect.left ≥ (rm.kMaxInterfaceWidth : ℚ) ∨
      rm.hw_res_info_.always_src_split = true then
    let s := ResManager.SplitRect transform.flip_horizontal src_rect dst_rect
    (DisplayError.kErrorNone,
      { cfg with
        left_pipe := { cfg.left_pipe with
          src_roi := s.src_left, dst_roi := s.dst_left,
          pipe_id := rm.kPipeIdNeedsAssignment }
        right_pipe := { cfg.right_pipe with
          src_roi := s.src_right, dst_roi := s.dst_right,
          pipe_id := rm.kPipeIdNeedsAssignment }
        is_right_pipe := true })
  else
    (DisplayError.kErrorNone,
      { cfg with
        left_pipe := { cfg.left_pipe with
          src_roi := src_rect, dst_roi := dst_rect, pipe_id := rm.kPipeIdNeedsAssignment }
        right_pipe := rm.pipe_reset })

/-- The tail of `ResManager::DisplaySplitConfig` from `// assign right pipe if needed` on. -/
def ResManager.assignRightPipe (rm : ResManager) (crop_right dst_right : LayerRect)
    (cfg : HWLayerConfig) : HWLayerConfig :=
  if UINT32 dst_right.right > UINT32 dst_right.left then
    if cfg.left_pipe.pipe_id ≠ 0 then
      { cfg with
        right_pipe := { cfg.right_pipe with
          src_roi := crop_right, dst_roi := dst_right, pipe_id := rm.kPipeIdNeedsAssignment }
        is_right_pipe := true }
    else
      { cfg with
        left_pipe := { cfg.left_pipe with
          src_roi := crop_right, dst_roi := dst_right, pipe_id := rm.kPipeIdNeedsAssignment }
        right_pipe := rm.pipe_reset }
  else
    { cfg with right_pipe := rm.pipe_reset }

/-- `ResManager::DisplaySplitConfig`.  Returns the error code and the new `*layer_config`. -/
def ResManager.DisplaySplitConfig (rm : ResManager) (ctx : DisplayResourceContext)
    (transform : LayerTransform) (src_rect dst_rect : LayerRect)
    (layer_config : HWLayerConfig) : DisplayError × HWLayerConfig :=
  let display_attributes := ctx.display_attributes
  let cfg := { layer_config with is_right_pipe := false }
  let scissor_l : LayerRect :=
    { right := FLOAT display_attributes.split_left, bottom := FLOAT display_attributes.y_pixels }
  let cl := rm.CalculateCropRects scissor_l transform src_rect dst_rect
  let crop_left := cl.1
  let dst_left := cl.2
  let scissor_r : LayerRect :=
    { left := FLOAT display_attributes.split_left, top := 0,
      right := FLOAT display_attributes.x_pixels, bottom := FLOAT display_attributes.y_pixels }
  let cr := rm.CalculateCropRects scissor_r transform src_rect dst_rect
  let crop_right := cr.1
  let dst_right := cr.2
  if crop_left.right - crop_left.left ≥ (rm.kMaxSourcePipeWidth : ℚ) then
    if crop_right.right ≠ crop_right.left then
      (DisplayError.kErrorNotSupported, cfg)
    else
      -- 2 pipes both are on the left
      let s := ResManager.SplitRect transform.flip_horizontal crop_left dst_left
      let cfg1 : HWLayerConfig :=
        { cfg with
          left_pipe := { cfg.left_pipe with
            src_roi := s.src_left, dst_roi := s.dst_left,
            pipe_id := rm.kPipeIdNeedsAssignment }
          right_pipe := { cfg.right_pipe with
            src_roi := s.src_right, dst_roi := s.dst_right,
            pipe_id := rm.kPipeIdNeedsAssignment }
          is_right_pipe := true }
      (DisplayError.kErrorNone, rm.assignRightPipe crop_right dst_right cfg1)
  else if crop_right.right - crop_right.left ≥ (rm.kMaxSourcePipeWidth : ℚ) then
    if crop_left.right ≠ crop_left.left then
      (DisplayError.kErrorNotSupported, cfg)
    else
      -- 2 pipes both are on the right
      let s := ResManager.SplitRect transform.flip_horizontal crop_right dst_right
      let cfg1 : HWLayerConfig :=
        { cfg with
          left_pipe := { cfg.left_pipe with
            src_roi := s.src_left, dst_roi := s.dst_left,
            pipe_id := rm.kPipeIdNeedsAssignment }
          right_pipe := { cfg.right_pipe with
            src_roi := s.src_right, dst_roi := s.dst_right,
            pipe_id := rm.kPipeIdNeedsAssignment }
          is_right_pipe := true }
      (DisplayError.kErrorNone, rm.assignRightPipe crop_right dst_right cfg1)
  else if UINT32 dst_left.right > UINT32 dst_left.left then
    -- assign left pipe
    let cfg1 : HWLayerConfig :=
      { cfg with
        left_pipe := { cfg.left_pipe with
          src_roi := crop_left, dst_roi := dst_left, pipe_id := rm.kPipeIdNeedsAssignment } }
    (DisplayError.kErrorNone, rm.assignRightPipe crop_right dst_right cfg1)
  else
    -- left_pipe is not needed
    let cfg1 : HWLayerConfig := { cfg with left_pipe := rm.pipe_reset }
    (DisplayError.kErrorNone, rm.assignRightPipe crop_right dst_right cfg1)

/-- The scissor of `ResManager::Config`: a default `LayerRect` whose `right` and `bottom`
are set to the size of the display. -/
def displayScissor (ctx : DisplayResourceContext) : LayerRect :=
  { right := FLOAT ctx.display_attributes.x_pixels,
    bottom := FLOAT ctx.display_attributes.y_pixels }

/-- The second half of the body of the layer loop of `ResManager::Config`, from
`// config rotator first` on: rotator configuration, then the split configuration of the
mode.  Returns the error code of the split configuration, the new `config[i]` and the new
`*rotate_count`. -/
def ResManager.ConfigRotateAndSplit (rm : ResManager) (ctx : DisplayResourceContext)
    (layer : Layer) (src_rect dst_rect : LayerRect) (rot_scale_x rot_scale_y : CFloat)
    (cfg : HWLayerConfig) (rotate_count : ℕ) : DisplayError × HWLayerConfig × ℕ :=
  let rot : LayerRect × HWRotateInfo × HWRotateInfo × ℕ × LayerTransform :=
    if rm.IsRotationNeeded layer.transform.rotation = true ∨
        UINT32 rot_scale_x ≠ 1 ∨ UINT32 rot_scale_y ≠ 1 then
      let left_rotate : HWRotateInfo :=
        { cfg.left_rotate with
          downscale_ratio_x := rot_scale_x, downscale_ratio_y := rot_scale_y }
      let right_rotate : HWRotateInfo :=
        { cfg.right_rotate with
          downscale_ratio_x := rot_scale_x, downscale_ratio_y := rot_scale_y }
      let r := rm.RotationConfig layer.transform src_rect left_rotate right_rotate
        rotate_count
      -- rotator will take care of flipping, reset tranform
      (r.1, r.2.1, r.2.2.1, r.2.2.2, ({} : LayerTransform))
    else
      (src_rect, rm.rotate_reset, rm.rotate_reset, rotate_count, layer.transform)
  let cfg1 : HWLayerConfig :=
    { cfg with left_rotate := rot.2.1, right_rotate := rot.2.2.1 }
  let split : DisplayError × HWLayerConfig :=
    if rm.hw_res_info_.is_src_split then
      rm.SrcSplitConfig ctx rot.2.2.2.2 rot.1 dst_rect cfg1
    else
      rm.DisplaySplitConfig ctx rot.2.2.2.2 rot.1 dst_rect cfg1
  (split.1, split.2, rot.2.2.2.1)

/-- The body of the layer loop of `ResManager::Config` for the hardware layer `i`.  Returns
the error code of the layer with the new `*hw_layers` and `*rotate_count`; the loop goes on
to the next layer exactly when the code is `kErrorNone`.  The result is `none` when `i`
or `index[i]` lies outside its array, or when `ValidateScaling` gives `none`. -/
def ResManager.ConfigLayer (rm : ResManager) (ctx : DisplayResourceContext) (i : ℕ)
    (hw_layers : HWLayers) (rotate_count : ℕ) : Option (DisplayError × HWLayers × ℕ) :=
  match hw_layers.info.index[i]? with
  | none => none
  | some idx =>
  match hw_layers.info.stack[idx]?, hw_layers.config[i]? with
  | some layer, some cfg =>
    if ResManager.IsValidDimension layer.src_rect layer.dst_rect = false then
      some (DisplayError.kErrorNotSupported, hw_layers, rotate_count)
    else
      let scissor := displayScissor ctx
      let cropped := rm.CalculateCropRects scissor layer.transform layer.src_rect layer.dst_rect
      match rm.ValidateScaling layer cropped.1 cropped.2 1 1 with
      | none => none
      | some (verr, rot_scale_x, rot_scale_y) =>
        if verr ≠ DisplayError.kErrorNone then
          some (DisplayError.kErrorNotSupported, hw_layers, rotate_count)
        else
          let r := rm.ConfigRotateAndSplit ctx layer cropped.1 cropped.2
            rot_scale_x rot_scale_y cfg rotate_count
          some (r.1, { hw_layers with config := hw_layers.config.set i r.2.1 }, r.2.2)
  | _, _ => none

/-- The layer loop of `ResManager::Config`: `n` layers remain, starting at `i`. -/
def ResManager.ConfigLoop (rm : ResManager) (ctx : DisplayResourceContext) :
    ℕ → ℕ → HWLayers → ℕ → Option (DisplayError × HWLayers × ℕ)
  | 0, _, hw_layers, rotate_count => some (DisplayError.kErrorNone, hw_layers, rotate_count)
  | n + 1, i, hw_layers, rotate_count =>
    match rm.ConfigLayer ctx i hw_layers rotate_count with
    | none => none
    | some (error, hw_layers1, rotate_count1) =>
      if error ≠ DisplayError.kErrorNone then
        some (error, hw_layers1, rotate_count1)
      else
        ResManager.ConfigLoop rm ctx n (i + 1) hw_layers1 rotate_count1

/-- `ResManager::Config`.  Returns the error code with the new `*hw_layers` and
`*rotate_count`. -/
def ResManager.Config (rm : ResManager) (ctx : DisplayResourceContext) (hw_layers : HWLayers)
    (rotate_count : ℕ) : Option (DisplayError × HWLayers × ℕ) :=
  ResManager.ConfigLoop rm ctx hw_layers.info.count 0 hw_layers rotate_count

/-! ## Properties of frames -/

/-- Both rectangles of a pair extend over at least one pixel on both axes. -/
def ExtentsAtLeastOne (p : LayerRect × LayerRect) : Prop :=
  1 ≤ p.1.right - p.1.left ∧ 1 ≤ p.1.bottom - p.1.top ∧
    1 ≤ p.2.right - p.2.left ∧ 1 ≤ p.2.bottom - p.2.top

/-- The hardware layer `i` of the frame has a layer whose rectangles, cropped to the display,
extend over at least one pixel on both axes. -/
def LayerExtentsOk (rm : ResManager) (ctx : DisplayResourceContext) (info : HWLayersInfo)
    (i : ℕ) : Prop :=
  ∃ idx layer, info.index[i]? = some idx ∧ info.stack[idx]? = some layer ∧
    ExtentsAtLeastOne
      (rm.CalculateCropRects (displayScissor ctx) layer.transform layer.src_rect layer.dst_rect)

/-! ## Clipping, stated directly -/

/-- The area `width x height` of a rectangle. -/
def LayerRect.area (r : LayerRect) : CFloat := (r.right - r.left) * (r.bottom - r.top)

/-- The destination clipped to the scissor, side by side. -/
def clipDst (scissor dst : LayerRect) : LayerRect :=
  { left := if dst.left < scissor.left then scissor.left else dst.left
    top := if dst.top < scissor.top then scissor.top else dst.top
    right := if dst.right > scissor.right then scissor.right else dst.right
    bottom := if dst.bottom > scissor.bottom then scissor.bottom else dst.bottom }

/-- The fraction of the destination extent that the scissor removes on each side. -/
def clipCuts (scissor dst : LayerRect) : CutRatios :=
  { left :=
      if dst.left < scissor.left then (scissor.left - dst.left) / (dst.right - dst.left) else 0
    top :=
      if dst.top < scissor.top then (scissor.top - dst.top) / (dst.bottom - dst.top) else 0
    right :=
      if dst.right > scissor.right then (dst.right - scissor.right) / (dst.right - dst.left)
      else 0
    bottom :=
      if dst.bottom > scissor.bottom then (dst.bottom - scissor.bottom) / (dst.bottom - dst.top)
      else 0 }

/-- The crop rectangle with the given fractions of its extent removed on each side. -/
def applyCuts (crop : LayerRect) (cut : CutRatios) : LayerRect :=
  { left := crop.left + (crop.right - crop.left) * cut.left
    top := crop.top + (crop.bottom - crop.top) * cut.top
    right := crop.right - (crop.right - crop.left) * cut.right
    bottom := crop.bottom - (crop.bottom - crop.top) * cut.bottom }

/-! ## Sample values

The declarations that `res_config.cpp` takes from its headers are parameters of `ResManager`;
the sample manager below gives them definite values, for the concrete instances of the
theorems. -/

/-- A resource manager in source-split mode with decimation and rotator downscale: single
pipe width limit 2560, hardware downscale limit 4, `IsRotationNeeded` true for 90 and 270
degrees, no macro-tile buffers. -/
def sampleResManager : ResManager :=
  { hw_res_info_ :=
      { max_scale_up := 20, max_scale_down := 4, has_rotator_downscale := true,
        has_decimation := true, is_src_split := true, always_src_split := false }
    kMaxSourcePipeWidth := 2560
    kMaxInterfaceWidth := 2560
    kMaxRotateDownScaleRatio := 8
    kPipeIdNeedsAssignment := 2147483648
    IsRotationNeeded := fun r => UINT32 r == 90 || UINT32 r == 270
    IsMacroTileFormat := fun _ => false
    pipe_reset := { pipe_id := 0, src_roi := {}, dst_roi := {}, decimation := 0 }
    rotate_reset :=
      { pipe_id := 0, src_roi := {}, dst_roi := {}, downscale_ratio_x := 0,
        downscale_ratio_y := 0 } }

/-- A 1080 x 1920 display split at column 540. -/
def sampleCtx : DisplayResourceContext :=
  { display_attributes := { x_pixels := 1080, y_pixels := 1920, split_left := 540 },
    hw_block_id := 0 }

/-- A layer showing the source `[0, 0, 100, 50]` at `[0, 0, 200, 100]`, no transform. -/
def sampleLayer : Layer :=
  { input_buffer := { width := 100, height := 50, format := 0 }
    src_rect := { left := 0, top := 0, right := 100, bottom := 50 }
    dst_rect := { left := 0, top := 0, right := 200, bottom := 100 }
    transform := {} }

/-- A layer configuration with every pipe and rotator reset. -/
def sampleConfig : HWLayerConfig :=
  { is_right_pipe := false
    left_pipe := sampleResManager.pipe_reset
    right_pipe := sampleResManager.pipe_reset
    left_rotate := sampleResManager.rotate_reset
    right_rotate := sampleResManager.rotate_reset }

/-- A frame with `sampleLayer` as its only layer. -/
def sampleFrame : HWLayers :=
  { info := { stack := [sampleLayer], index := [0], count := 1 }, config := [sampleConfig] }

/-- The frame `sampleFrame` after `Config`: one pipe carries the whole layer. -/
def sampleFrameConfigured : HWLayers :=
  { sampleFrame with
    config := [{ sampleConfig with
      left_pipe :=
        { pipe_id := 2147483648
          src_roi := { left := 0, top := 0, right := 100, bottom := 50 }
          dst_roi := { left := 0, top := 0, right := 200, bottom := 100 }
          decimation := 0 } }] }

/-- The vertical downscale `src_h / dst_h` of a pipe, as `SetDecimationFactor` computes it
with the `float` operations of `fl`. -/
def HWPipeInfo.downScale (pipe : HWPipeInfo) (fl : FloatOps) : CFloat :=
  fl.div (fl.sub pipe.src_roi.bottom pipe.src_roi.top)
    (fl.sub pipe.dst_roi.bottom pipe.dst_roi.top)

/-- The exponent that `SetDecimationFactor` computes for a pipe:
`ceilf(log2f(down_scale) - log2f(max_down_scale))`. -/
def HWPipeInfo.decimationFactor (pipe : HWPipeInfo) (rm : ResManager) (fl : FloatOps)
    (lib : CMath) : CFloat :=
  lib.ceilf (fl.sub (lib.log2f (pipe.downScale fl))
    (lib.log2f (FLOAT rm.hw_res_info_.max_scale_down)))

/-- Two to an integer power. -/
def pow2 (e : ℤ) : ℚ := if 0 ≤ e then 2 ^ e.toNat else 1 / 2 ^ (-e).toNat

/-- Floor of the binary logarithm of a positive natural number, by at most `fuel`
halvings. -/
def natLog2 : ℕ → ℕ → ℕ
  | 0, _ => 0
  | fuel + 1, n => if n < 2 then 0 else natLog2 fuel (n / 2) + 1

/-- The binary exponent `e` of a non-zero rational `x` of at most 256 bits in numerator and
denominator: `2 ^ e ≤ |x| < 2 ^ (e + 1)`. -/
def binaryExponent (x : ℚ) : ℤ :=
  let e0 : ℤ := (natLog2 256 x.num.natAbs : ℤ) - (natLog2 256 x.den : ℤ)
  if pow2 e0 ≤ (if x < 0 then -x else x) then e0 else e0 - 1

/-- Rounding to the nearest integer, halves to the even one. -/
def roundHalfEven (q : ℚ) : ℤ :=
  if q - ⌊q⌋ < 1 / 2 then ⌊q⌋
  else if 1 / 2 < q - ⌊q⌋ then ⌊q⌋ + 1
  else if ⌊q⌋ % 2 = 0 then ⌊q⌋ else ⌊q⌋ + 1

/-- Rounding to the nearest binary32 value (24 significant bits, halves to even), the
rounding of IEEE 754 single precision for values in the normal range. -/
def round32 (x : ℚ) : ℚ :=
  if x = 0 then 0
  else (roundHalfEven (x / pow2 (binaryExponent x - 23)) : ℚ) * pow2 (binaryExponent x - 23)

/-- Single-precision arithmetic: each operation gives the binary32 value nearest to the
exact result. -/
def binary32Ops : FloatOps :=
  { add := fun x y => round32 (x + y), sub := fun x y => round32 (x - y),
    mul := fun x y => round32 (x * y), div := fun x y => round32 (x / y) }

/-- A single-precision `log2f` at the arguments used below: exact at the powers of two, the
binary32 values nearest to `log2 3` and `log2 6` at 3 and 6 (elsewhere, the exponent). -/
def sampleLog2f (x : CFloat) : CFloat :=
  if x = 3 then 13295629 / 8388608
  else if x = 6 then 10842119 / 4194304
  else (binaryExponent x : ℚ)

/-- A `<cmath>` library: `sampleLog2f`, the exact `ceilf`, and `powf` exact at integer
exponents. -/
def sampleCMath : CMath :=
  { log2f := sampleLog2f
    ceilf := fun x => ((⌈x⌉ : ℤ) : ℚ)
    powf := fun b e => if 0 ≤ ⌊e⌋ then b ^ ⌊e⌋.toNat else 1 / b ^ (-⌊e⌋).toNat }

/-- The sample manager with `max_scale_down = 3`. -/
def sampleResManagerDown3 : ResManager :=
  { sampleResManager with
    hw_res_info_ := { sampleResManager.hw_res_info_ with max_scale_down := 3 } }

/-- A pipe reading 600 source rows into 100 destination rows: vertical downscale 6. -/
def samplePipe6 : HWPipeInfo :=
  { pipe_id := 0
    src_roi := { left := 0, top := 0, right := 100, bottom := 600 }
    dst_roi := { left := 0, top := 0, right := 100, bottom := 100 }
    decimation := 0 }

end sde

namespace sdm

/-! ## `HWDeviceDRM::SetRotation` -/

/-- The `LayerTransform` of `layer_stack.h`: `rotation` is a `float`. -/
structure LayerTransform where
  rotation : ℚ := 0
  flip_horizontal : Bool := false
  flip_vertical : Bool := false
deriving DecidableEq

/-- The `HWRotatorMode` of `hw_info_types.h`. -/
inductive HWRotatorMode where
  | kRotatorNone
  | kRotatorOffline
  | kRotatorInline
deriving DecidableEq

/-- The enumerators of `sde_drm::DRMRotation` that `SetRotation` converts with `UINT32`.  The
enumeration is declared in `drm_interface.h`, outside the sources; its values are parameters
of the model. -/
structure DRMRotation where
  ROT_90 : ℕ
  FLIP_H : ℕ
  FLIP_V : ℕ
deriving DecidableEq

/-- `HWDeviceDRM::SetRotation`.  The in-out parameter `*rot_bit_mask` is the last argument
and the result. -/
def HWDeviceDRM.SetRotation (rot : DRMRotation) (transform : LayerTransform)
    (mode : HWRotatorMode) (rot_bit_mask : ℕ) : ℕ :=
  -- In offline rotation case, rotator will handle flips set via offline rotator interface.
  if mode = HWRotatorMode.kRotatorOffline then
    0
  else
    let s : LayerTransform × ℕ :=
      if mode = HWRotatorMode.kRotatorInline ∧ transform.rotation = 90 then
        ({ transform with
            flip_horizontal := !transform.flip_horizontal
            flip_vertical := !transform.flip_vertical },
          rot.ROT_90)
      else
        (transform, rot_bit_mask)
    let mask1 := if s.1.flip_horizontal then s.2 ||| rot.FLIP_H else s.2
    let mask2 := if s.1.flip_vertical then mask1 ||| rot.FLIP_V else mask1
    mask2

/-- Sample values of the `DRMRotation` enumerators: one bit each. -/
def sampleRotation : DRMRotation := { ROT_90 := 4, FLIP_H := 1, FLIP_V := 2 }

/-! ## `HWDeviceDRM::Registry` -/

/-- The `LayerBuffer` members read by the registry; `fd` stands for `planes[0].fd`. -/
structure LayerBuffer where
  fd : ℤ
  width : ℕ
  height : ℕ
  format : ℕ
deriving DecidableEq

/-- The `DRMBuffer` layout handed to `DRMMaster::CreateFbId`. -/
structure DRMBuffer where
  fd : ℤ
  width : ℕ
  height : ℕ
  drm_format : ℕ
  drm_format_modifier : ℕ
  stride : List ℕ
  offset : List ℕ
  num_planes : ℕ
deriving DecidableEq

/-- The collaborators of the registry, as parameters of the model.
* `master`: whether `DRMMaster::GetInstance` yields an instance.
* `IsRmFbRefCounted`: the answer of `DRMMaster::IsRmFbRefCounted`.
* `GetDRMFormat`: the format and modifier that the `switch` of `GetDRMFormat` assigns to a
  buffer format (`none` where it assigns nothing); the `DRM_FORMAT_*` values come from
  `drm_fourcc.h`.
* `GetBufferLayout`: stride, offset and number of planes from the buffer allocator, given
  fd, aligned width, aligned height and format.
* `CreateFbId n layout`: return code and framebuffer id of the driver for the call number
  `n` (counted from 0) of `DRMMaster::CreateFbId`. -/
structure RegistryEnv where
  master : Bool
  IsRmFbRefCounted : Bool
  GetDRMFormat : ℕ → Option (ℕ × ℕ)
  GetBufferLayout : ℤ → ℕ → ℕ → ℕ → List ℕ × List ℕ × ℕ
  CreateFbId : ℕ → DRMBuffer → ℤ × ℕ

/-- The driver as the registry sees it: the layouts passed to `CreateFbId` and the ids
passed to `RemoveFbId`, oldest call first. -/
structure DRMMaster where
  created : List DRMBuffer
  removed : List ℕ
deriving DecidableEq

/-- The members of `HWDeviceDRM::Registry`: `hashmap_` is an array of `rmfb_delay_` maps
from fd to framebuffer id, a map being the list of its pairs in insertion order. -/
structure Registry where
  rmfb_delay_ : ℕ
  current_index_ : ℕ
  hashmap_ : List (List (ℤ × ℕ))
deriving DecidableEq

/-- The `find` of `std::unordered_map<int, uint32_t>`. -/
def mapFind (m : List (ℤ × ℕ)) (fd : ℤ) : Option ℕ :=
  (m.find? (fun p => p.1 == fd)).map Prod.snd

/-- The map `hashmap_[current_index_]`. -/
def Registry.currMap (reg : Registry) : List (ℤ × ℕ) :=
  reg.hashmap_.getD reg.current_index_ []

/-- The constructor `Registry::Registry`: `none` when there is no DRM master. -/
def Registry.init (env : RegistryEnv) : Option Registry :=
  if !env.master then
    none
  else
    let rmfb_delay := if env.IsRmFbRefCounted then 1 else 3
    some { rmfb_delay_ := rmfb_delay, current_index_ := 0,
           hashmap_ := List.replicate rmfb_delay [] }

/-- The layout that `MapBufferToFbId` builds for a buffer. -/
def bufferLayout (env : RegistryEnv) (buffer : LayerBuffer) : DRMBuffer :=
  let fmt := (env.GetDRMFormat buffer.format).getD (0, 0)
  let lay := env.GetBufferLayout buffer.fd buffer.width buffer.height buffer.format
  { fd := buffer.fd, width := buffer.width, height := buffer.height,
    drm_format := fmt.1, drm_format_modifier := fmt.2,
    stride := lay.1, offset := lay.2.1, num_planes := lay.2.2 }

/-- `HWDeviceDRM::Registry::MapBufferToFbId`. -/
def Registry.MapBufferToFbId (env : RegistryEnv) (st : Registry × DRMMaster)
    (buffer : LayerBuffer) : Registry × DRMMaster :=
  let fd := buffer.fd
  if !env.master then
    st
  else if fd ≥ 0 ∧ mapFind st.1.currMap fd = none then
    let layout := bufferLayout env buffer
    let r := env.CreateFbId st.2.created.length layout
    let drm : DRMMaster := { st.2 with created := st.2.created ++ [layout] }
    if r.1 < 0 then
      (st.1, drm)
    else
      ({ st.1 with
          hashmap_ := st.1.hashmap_.set st.1.current_index_ (st.1.currMap ++ [(fd, r.2)]) },
        drm)
  else
    st

/-- The `HWRotatorSession` members read by `Registry::Register`; `valid` stands for
`hw_rotate_info[0].valid`. -/
structure HWRotatorSession where
  mode : HWRotatorMode
  valid : Bool
  output_buffer : LayerBuffer
deriving DecidableEq

/-- The `HWLayers` members read by `Registry::Register`: `hw_layers` stands for
`info.hw_layers` and `config` for the rotator sessions of the array `config`. -/
structure HWLayers where
  hw_layers : List LayerBuffer
  config : List HWRotatorSession
deriving DecidableEq

/-- The body of the loop of `Registry::Register` for one layer: its input buffer and its
rotator session. -/
def Registry.RegisterLayer (env : RegistryEnv) (st : Registry × DRMMaster)
    (layer_input_buffer : LayerBuffer) (hw_rotator_session : HWRotatorSession) :
    Registry × DRMMaster :=
  let input_buffer :=
    if hw_rotator_session.mode = HWRotatorMode.kRotatorOffline ∧
        hw_rotator_session.valid = true then
      hw_rotator_session.output_buffer
    else layer_input_buffer
  let st1 := Registry.MapBufferToFbId env st input_buffer
  if hw_rotator_session.mode = HWRotatorMode.kRotatorInline ∧
      hw_rotator_session.valid = true ∧ hw_rotator_session.output_buffer.fd ≥ 0 then
    Registry.MapBufferToFbId env st1 hw_rotator_session.output_buffer
  else
    st1

/-- The loop of `Registry::Register` over the layers from index `i` on; `none` when a layer
has no entry in `config`. -/
def Registry.RegisterLoop (env : RegistryEnv) (config : List HWRotatorSession) :
    List LayerBuffer → ℕ → Registry × DRMMaster → Option (Registry × DRMMaster)
  | [], _, st => some st
  | layer :: rest, i, st =>
    match config[i]? with
    | none => none
    | some session =>
      Registry.RegisterLoop env config rest (i + 1) (Registry.RegisterLayer env st layer session)

/-- `HWDeviceDRM::Registry::Register`. -/
def Registry.Register (env : RegistryEnv) (st : Registry × DRMMaster) (hw_layers : HWLayers) :
    Option (Registry × DRMMaster) :=
  Registry.RegisterLoop env hw_layers.config hw_layers.hw_layers 0 st

/-- `HWDeviceDRM::Registry::Next`. -/
def Registry.Next (reg : Registry) : Registry :=
  { reg with current_index_ := (reg.current_index_ + 1) % reg.rmfb_delay_ }

/-- `HWDeviceDRM::Registry::Unregister`.  The ids go to `RemoveFbId` in the order of the
pairs of the map. -/
def Registry.Unregister (env : RegistryEnv) (st : Registry × DRMMaster) :
    Registry × DRMMaster :=
  if !env.master then
    st
  else
    ({ st.1 with hashmap_ := st.1.hashmap_.set st.1.current_index_ [] },
      { st.2 with removed := st.2.removed ++ st.1.currMap.map Prod.snd })

/-- The loop of `Registry::Clear`, with `n` rounds left. -/
def Registry.ClearLoop (env : RegistryEnv) : ℕ → Registry × DRMMaster → Registry × DRMMaster
  | 0, st => st
  | n + 1, st =>
    let st1 := Registry.Unregister env st
    Registry.ClearLoop env n (Registry.Next st1.1, st1.2)

/-- `HWDeviceDRM::Registry::Clear`. -/
def Registry.Clear (env : RegistryEnv) (st : Registry × DRMMaster) : Registry × DRMMaster :=
  let st1 := Registry.ClearLoop env st.1.rmfb_delay_ st
  ({ st1.1 with current_index_ := 0 }, st1.2)

/-- `HWDeviceDRM::Registry::GetFbId`. -/
def Registry.GetFbId (reg : Registry) (fd : ℤ) : ℕ :=
  match mapFind reg.currMap fd with
  | none => 0
  | some fb_id => fb_id

/-- A driver that refuses the first `CreateFbId` call and accepts the later ones, giving the
call number `n` the framebuffer id `100 + n`. -/
def sampleEnvFailFirst : RegistryEnv :=
  { master := true
    IsRmFbRefCounted := false
    GetDRMFormat := fun _ => none
    GetBufferLayout := fun _ w _ _ => ([4 * w], [0], 1)
    CreateFbId := fun n _ => if n = 0 then (-1, 0) else (0, 100 + n) }

/-- A driver that accepts every `CreateFbId` call, giving the call number `n` the
framebuffer id `100 + n`. -/
def sampleEnv : RegistryEnv :=
  { sampleEnvFailFirst with CreateFbId := fun n _ => (0, 100 + n) }

/-- A freshly constructed registry of three generations, and a driver without calls. -/
def sampleState : Registry × DRMMaster :=
  ({ rmfb_delay_ := 3, current_index_ := 0, hashmap_ := [[], [], []] },
    { created := [], removed := [] })

/-- A buffer with fd 5. -/
def sampleBuffer : LayerBuffer := { fd := 5, width := 64, height := 32, format := 0 }

/-- The fd needs no `CreateFbId` call in the state: it is negative, or the current
generation has a framebuffer id for it. -/
def Mapped (st : Registry × DRMMaster) (fd : ℤ) : Prop :=
  fd < 0 ∨ mapFind st.1.currMap fd ≠ none

/-- The buffer that `Register` maps first for a layer. -/
def firstBuffer (layer_input_buffer : LayerBuffer) (session : HWRotatorSession) :
    LayerBuffer :=
  if session.mode = HWRotatorMode.kRotatorOffline ∧ session.valid = true then
    session.output_buffer
  else layer_input_buffer

/-- A frame of two layers that both read the buffer with fd 5, without rotator. -/
def sampleHWLayers : HWLayers :=
  { hw_layers := [sampleBuffer, sampleBuffer]
    config :=
      [{ mode := HWRotatorMode.kRotatorNone, valid := false, output_buffer := sampleBuffer },
       { mode := HWRotatorMode.kRotatorNone, valid := false, output_buffer := sampleBuffer }] }

/-- The state `sampleState` after fd 5 has been mapped with the driver of `sampleEnv`. -/
def sampleStateRegistered : Registry × DRMMaster :=
  ({ rmfb_delay_ := 3, current_index_ := 0, hashmap_ := [[(5, 100)], [], []] },
    { created := [bufferLayout sampleEnv sampleBuffer], removed := [] })

end sdm

namespace sdm

/-! ## Generations of the registry -/

/-- The map of generation `g` (empty outside the array). -/
def Registry.genMap (reg : Registry) (g : ℕ) : List (ℤ × ℕ) := reg.hashmap_.getD g []

/-- The framebuffer ids held by generation `g`, in the order of its pairs. -/
def Registry.genIds (reg : Registry) (g : ℕ) : List ℕ := (reg.genMap g).map Prod.snd

/-- The registry is as its constructor and `Next` keep it: `hashmap_` has `rmfb_delay_`
maps and `current_index_` is the index of one of them. -/
def Registry.WF (reg : Registry) : Prop :=
  reg.hashmap_.length = reg.rmfb_delay_ ∧ reg.current_index_ < reg.rmfb_delay_

/-- A registry of three generations at generation 1, with two ids in generation 0, one in
generation 1 and one in generation 2, and a driver without calls. -/
def sampleStateFull : Registry × DRMMaster :=
  ({ rmfb_delay_ := 3, current_index_ := 1,
     hashmap_ := [[(5, 100), (6, 101)], [(7, 102)], [(5, 103)]] },
    { created := [], removed := [] })

/-- One round of the loop of `Registry::Clear`: `Unregister`, then `Next`. -/
def Registry.ClearRound (env : RegistryEnv) (st : Registry × DRMMaster) :
    Registry × DRMMaster :=
  (Registry.Next (Registry.Unregister env st).1, (Registry.Unregister env st).2)

/-- The environment `sampleEnv` without a DRM master. -/
def sampleEnvNoMaster : RegistryEnv := { sampleEnv with master := false }

end sdm

namespace sdm

/-! ## Commit cycles of the registry -/

/-- The part of `HWDeviceDRM::Commit` after the commit proper: `registry_.Next()`, then
`registry_.Unregister()`. -/
def Registry.CommitTail (env : RegistryEnv) (st : Registry × DRMMaster) :
    Registry × DRMMaster :=
  Registry.Unregister env (Registry.Next st.1, st.2)

/-- The registry calls of `HWDeviceDRM::Commit`: `Register`, then (after `DefaultCommit` or
`AtomicCommit`, which only read the registry through `GetFbId`) `Next` and `Unregister`. -/
def Registry.CommitCycle (env : RegistryEnv) (st : Registry × DRMMaster)
    (hw_layers : HWLayers) : Option (Registry × DRMMaster) :=
  match Registry.Register env st hw_layers with
  | none => none
  | some st1 => some (Registry.CommitTail env st1)

/-- A run of commit cycles, one for each frame of the list. -/
def Registry.CommitRun (env : RegistryEnv) :
    List HWLayers → Registry × DRMMaster → Option (Registry × DRMMaster)
  | [], st => some st
  | hw_layers :: rest, st =>
    match Registry.CommitCycle env st hw_layers with
    | none => none
    | some st1 => Registry.CommitRun env rest st1

/-- A frame with one layer that reads the buffer with fd 5. -/
def sampleHWLayers5 : HWLayers :=
  { hw_layers := [sampleBuffer]
    config :=
      [{ mode := HWRotatorMode.kRotatorNone, valid := false, output_buffer := sampleBuffer }] }

/-- A frame with one layer that reads a buffer with fd 6. -/
def sampleHWLayers6 : HWLayers :=
  { hw_layers := [{ fd := 6, width := 64, height := 32, format := 0 }]
    config :=
      [{ mode := HWRotatorMode.kRotatorNone, valid := false, output_buffer := sampleBuffer }] }

end sdm

namespace sdm

/-- The state `u` of a registry of `N` generations at the end of commit `k + i`, told from
the state `r` that the `Register` call of commit `k` reached in generation `g`: the current
generation is `g + i + 1` (circularly) and is empty, the ids passed to `RemoveFbId` since
`r` are those that `r` held in the generations `g + 1`, ..., `g + i + 1`, and the later
generations `g + i + 2`, ..., `g + N` are as in `r`. -/
def Registry.AfterCommits (N g : ℕ) (r : Registry × DRMMaster) (i : ℕ)
    (u : Registry × DRMMaster) : Prop :=
  u.1.rmfb_delay_ = N ∧ u.1.hashmap_.length = N ∧
  u.1.current_index_ = (g + (i + 1)) % N ∧
  u.1.genMap u.1.current_index_ = [] ∧
  u.2.removed =
    r.2.removed ++ (List.range (i + 1)).flatMap (fun j => r.1.genIds ((g + (j + 1)) % N)) ∧
  ∀ j, i < j → j < N → u.1.genMap ((g + (j + 1)) % N) = r.1.genMap ((g + (j + 1)) % N)

end sdm

namespace sdm

/-- A buffer with fd 6. -/
def sampleBuffer6 : LayerBuffer := { fd := 6, width := 64, height := 32, format := 0 }

/-- The state two commits after `sampleState`: the first commit registered fd 5, the second
fd 6. -/
def sampleAfterCommit1 : Registry × DRMMaster :=
  ({ rmfb_delay_ := 3, current_index_ := 2, hashmap_ := [[(5, 100)], [(6, 101)], []] },
    { created := [bufferLayout sampleEnv sampleBuffer, bufferLayout sampleEnv sampleBuffer6],
      removed := [] })

/-- The state three commits after `sampleState`: the third commit registered fd 6 again and
removed the id of the first commit. -/
def sampleAfterCommit2 : Registry × DRMMaster :=
  ({ rmfb_delay_ := 3, current_index_ := 0, hashmap_ := [[], [(6, 101)], [(6, 102)]] },
    { created := [bufferLayout sampleEnv sampleBuffer, bufferLayout sampleEnv sampleBuffer6,
        bufferLayout sampleEnv sampleBuffer6],
      removed := [100] })

end sdm

namespace sde

/-! ## Split configuration, stated directly -/

/-- The width `right - left` of a rectangle. -/
def LayerRect.width (r : LayerRect) : CFloat := r.right - r.left

/-- The pipe `pipe` after the assignments `src_roi = src`, `dst_roi = dst`,
`pipe_id = kPipeIdNeedsAssignment`. -/
def ResManager.assignPipe (rm : ResManager) (pipe : HWPipeInfo) (src dst : LayerRect) :
    HWPipeInfo :=
  { pipe with src_roi := src, dst_roi := dst, pipe_id := rm.kPipeIdNeedsAssignment }

/-- The first scissor of `DisplaySplitConfig`: the left half of the display. -/
def leftScissor (ctx : DisplayResourceContext) : LayerRect :=
  { right := FLOAT ctx.display_attributes.split_left,
    bottom := FLOAT ctx.display_attributes.y_pixels }

/-- The second scissor of `DisplaySplitConfig`: the right half of the display. -/
def rightScissor (ctx : DisplayResourceContext) : LayerRect :=
  { left := FLOAT ctx.display_attributes.split_left, top := 0,
    right := FLOAT ctx.display_attributes.x_pixels,
    bottom := FLOAT ctx.display_attributes.y_pixels }

/-- The pair `(crop_left, dst_left)` of `DisplaySplitConfig`. -/
def ResManager.leftHalf (rm : ResManager) (ctx : DisplayResourceContext)
    (transform : LayerTransform) (src_rect dst_rect : LayerRect) : LayerRect × LayerRect :=
  rm.CalculateCropRects (leftScissor ctx) transform src_rect dst_rect

/-- The pair `(crop_right, dst_right)` of `DisplaySplitConfig`. -/
def ResManager.rightHalf (rm : ResManager) (ctx : DisplayResourceContext)
    (transform : LayerTransform) (src_rect dst_rect : LayerRect) : LayerRect × LayerRect :=
  rm.CalculateCropRects (rightScissor ctx) transform src_rect dst_rect

/-- The layer configuration after the two-pipe assignment of `SrcSplitConfig` and of the
first two cases of `DisplaySplitConfig`: the halves of `SplitRect`, both pipes needing
assignment, `is_right_pipe` set. -/
def ResManager.twoPipes (rm : ResManager) (flip_horizontal : Bool) (src dst : LayerRect)
    (cfg : HWLayerConfig) : HWLayerConfig :=
  { cfg with
    left_pipe := rm.assignPipe cfg.left_pipe
      (ResManager.SplitRect flip_horizontal src dst).src_left
      (ResManager.SplitRect flip_horizontal src dst).dst_left
    right_pipe := rm.assignPipe cfg.right_pipe
      (ResManager.SplitRect flip_horizontal src dst).src_right
      (ResManager.SplitRect flip_horizontal src dst).dst_right
    is_right_pipe := true }

/-- A 3840 x 2160 display split at column 1920. -/
def sampleCtx4K : DisplayResourceContext :=
  { display_attributes := { x_pixels := 3840, y_pixels := 2160, split_left := 1920 },
    hw_block_id := 0 }

/-- A 7680 x 2160 display split at column 3840. -/
def sampleCtx8K : DisplayResourceContext :=
  { display_attributes := { x_pixels := 7680, y_pixels := 2160, split_left := 3840 },
    hw_block_id := 0 }

/-- The resource manager `sampleResManager` in display-split mode. -/
def sampleResManagerDS : ResManager :=
  { sampleResManager with
    hw_res_info_ := { sampleResManager.hw_res_info_ with is_src_split := false } }

/-- The full 4K rectangle `[0, 0, 3840, 2160]`. -/
def sampleRect4K : LayerRect := { left := 0, top := 0, right := 3840, bottom := 2160 }

end sde

namespace sde

/-- A layer configuration after `DisplaySplitConfig` or `SrcSplitConfig` put the whole
rectangles `src`, `dst` on the left pipe of `sampleConfig` and reset the right pipe. -/
def sampleOnePipe (src dst : LayerRect) : HWLayerConfig :=
  { sampleConfig with
    is_right_pipe := false
    left_pipe := sampleResManager.assignPipe sampleConfig.left_pipe src dst
    right_pipe := sampleResManager.pipe_reset }

/-- A source 1024 wide and 100 high. -/
def sampleSrc1024 : LayerRect := { left := 0, top := 0, right := 1024, bottom := 100 }

/-- A destination 512 wide that ends half a pixel to the right of column 540. -/
def sampleDstHalfPixel : LayerRect :=
  { left := 57 / 2, top := 0, right := 1081 / 2, bottom := 100 }

/-- A source 3000 wide and 100 high. -/
def sampleSrc3000 : LayerRect := { left := 0, top := 0, right := 3000, bottom := 100 }

/-- A source 6000 wide and 100 high. -/
def sampleSrc6000 : LayerRect := { left := 0, top := 0, right := 6000, bottom := 100 }

/-- A destination 3000 wide that ends at column 3840. -/
def sampleDstLeftOfSplit : LayerRect :=
  { left := 840, top := 0, right := 3840, bottom := 100 }

/-- A destination 3000 wide that starts at column 3840. -/
def sampleDstRightOfSplit : LayerRect :=
  { left := 3840, top := 0, right := 6840, bottom := 100 }

/-- A destination 3000 wide that starts at column 0. -/
def sampleDstFarLeft : LayerRect := { left := 0, top := 0, right := 3000, bottom := 100 }

/-- A destination 3000 wide that starts at column 4000. -/
def sampleDstFarRight : LayerRect := { left := 4000, top := 0, right := 7000, bottom := 100 }

end sde

namespace sde

/-! ## The layer loop of `Config`, layer by layer -/

/-- The test of `Config` before the rotator configuration: rotation is needed or a rotator
downscale factor differs from 1. -/
def ResManager.NeedsRotator (rm : ResManager) (layer : Layer)
    (rot_scale_x rot_scale_y : CFloat) : Prop :=
  rm.IsRotationNeeded layer.transform.rotation = true ∨
    UINT32 rot_scale_x ≠ 1 ∨ UINT32 rot_scale_y ≠ 1

instance (rm : ResManager) (layer : Layer) (a b : CFloat) :
    Decidable (rm.NeedsRotator layer a b) := by
  unfold ResManager.NeedsRotator
  infer_instance

/-- The source rectangle that `Config` hands to the split configuration of a layer: the
cropped source, or the output rectangle of the rotator. -/
def ResManager.SplitSource (rm : ResManager) (layer : Layer) (src_rect : LayerRect)
    (rot_scale_x rot_scale_y : CFloat) : LayerRect :=
  if rm.NeedsRotator layer rot_scale_x rot_scale_y then
    { top := 0, left := 0,
      right := (src_rect.bottom - src_rect.top) / rot_scale_x,
      bottom := (src_rect.right - src_rect.left) / rot_scale_y }
  else src_rect

/-- The transform that `Config` hands to the split configuration of a layer: the identity
after a rotator stage, the transform of the layer otherwise. -/
def ResManager.SplitTransform (rm : ResManager) (layer : Layer)
    (rot_scale_x rot_scale_y : CFloat) : LayerTransform :=
  if rm.NeedsRotator layer rot_scale_x rot_scale_y then {} else layer.transform

/-- The layer configuration that `Config` hands to the split configuration of a layer: the
rotators are configured or reset. -/
def ResManager.RotatedConfig (rm : ResManager) (layer : Layer) (src_rect : LayerRect)
    (rot_scale_x rot_scale_y : CFloat) (cfg : HWLayerConfig) : HWLayerConfig :=
  if rm.NeedsRotator layer rot_scale_x rot_scale_y then
    { cfg with
      left_rotate :=
        { cfg.left_rotate with
          downscale_ratio_x := rot_scale_x, downscale_ratio_y := rot_scale_y
          src_roi := src_rect, pipe_id := rm.kPipeIdNeedsAssignment
          dst_roi := rm.SplitSource layer src_rect rot_scale_x rot_scale_y }
      right_rotate := rm.rotate_reset }
  else
    { cfg with left_rotate := rm.rotate_reset, right_rotate := rm.rotate_reset }

/-- The effect of the body of the layer loop of `Config` on the configuration `cfg` of a
layer and on `*rotate_count`, with the error code of the layer. -/
def ResManager.LayerResult (rm : ResManager) (ctx : DisplayResourceContext) (layer : Layer)
    (cfg : HWLayerConfig) (rotate_count : ℕ) : Option (DisplayError × HWLayerConfig × ℕ) :=
  if ResManager.IsValidDimension layer.src_rect layer.dst_rect = false then
    some (DisplayError.kErrorNotSupported, cfg, rotate_count)
  else
    match rm.ValidateScaling layer
      (rm.CalculateCropRects (displayScissor ctx) layer.transform layer.src_rect
        layer.dst_rect).1
      (rm.CalculateCropRects (displayScissor ctx) layer.transform layer.src_rect
        layer.dst_rect).2 1 1 with
    | none => none
    | some (verr, rot_scale_x, rot_scale_y) =>
      if verr ≠ DisplayError.kErrorNone then
        some (DisplayError.kErrorNotSupported, cfg, rotate_count)
      else
        some (rm.ConfigRotateAndSplit ctx layer
          (rm.CalculateCropRects (displayScissor ctx) layer.transform layer.src_rect
            layer.dst_rect).1
          (rm.CalculateCropRects (displayScissor ctx) layer.transform layer.src_rect
            layer.dst_rect).2 rot_scale_x rot_scale_y cfg rotate_count)

/-- The hardware layer `j` of the frame fails `IsValidDimension`, `ValidateScaling` or its
split configuration. -/
def LayerFails (rm : ResManager) (ctx : DisplayResourceContext) (hw_layers : HWLayers)
    (j : ℕ) : Prop :=
  ∃ idx layer cfg, hw_layers.info.index[j]? = some idx ∧
    hw_layers.info.stack[idx]? = some layer ∧ hw_layers.config[j]? = some cfg ∧
    (ResManager.IsValidDimension layer.src_rect layer.dst_rect = false ∨
      (∃ e a b, rm.ValidateScaling layer
          (rm.CalculateCropRects (displayScissor ctx) layer.transform layer.src_rect
            layer.dst_rect).1
          (rm.CalculateCropRects (displayScissor ctx) layer.transform layer.src_rect
            layer.dst_rect).2 1 1 = some (e, a, b) ∧ e ≠ DisplayError.kErrorNone) ∨
      (∃ a b, rm.ValidateScaling layer
          (rm.CalculateCropRects (displayScissor ctx) layer.transform layer.src_rect
            layer.dst_rect).1
          (rm.CalculateCropRects (displayScissor ctx) layer.transform layer.src_rect
            layer.dst_rect).2 1 1 = some (DisplayError.kErrorNone, a, b) ∧
        (rm.ConfigRotateAndSplit ctx layer
          (rm.CalculateCropRects (displayScissor ctx) layer.transform layer.src_rect
            layer.dst_rect).1
          (rm.CalculateCropRects (displayScissor ctx) layer.transform layer.src_rect
            layer.dst_rect).2 a b cfg 0).1 ≠ DisplayError.kErrorNone))

end sde

namespace sde

/-- The loop body has run on the hardware layer `j` of the frame `hw`, with the error code
`err`, and its layer configuration stands in `hw1`. -/
def LayerDone (rm : ResManager) (ctx : DisplayResourceContext) (hw hw1 : HWLayers) (j : ℕ)
    (err : DisplayError) : Prop :=
  ∃ idx layer cfg rcj r, hw.info.index[j]? = some idx ∧ hw.info.stack[idx]? = some layer ∧
    hw.config[j]? = some cfg ∧ rm.LayerResult ctx layer cfg rcj = some r ∧
    hw1.config[j]? = some r.2.1 ∧ r.1 = err

end sde

namespace sde

/-- Every hardware layer of the frame below `count` has its entry of `index`, the layer of
the stack it names, and its entry of `config`. -/
def HWLayers.WF (hw_layers : HWLayers) : Prop :=
  ∀ i, i < hw_layers.info.count →
    (hw_layers.info.index[i]?.bind (fun idx => hw_layers.info.stack[idx]?)).isSome = true ∧
      i < hw_layers.config.length

/-- A frame of three layers: the second one has a source of width zero. -/
def sampleFrame3 : HWLayers :=
  { info :=
      { stack := [sampleLayer,
          { sampleLayer with src_rect := { left := 0, top := 0, right := 0, bottom := 50 } },
          sampleLayer],
        index := [0, 1, 2], count := 3 },
    config := [sampleConfig, sampleConfig, sampleConfig] }

end sde

namespace sde

/-- The frame `sampleFrame3` after `Config`: the first layer is configured as in
`sampleFrameConfigured`, the other two keep their configuration. -/
def sampleFrame3Done : HWLayers :=
  { sampleFrame3 with
    config := [{ sampleConfig with
      left_pipe :=
        { pipe_id := 2147483648
          src_roi := { left := 0, top := 0, right := 100, bottom := 50 }
          dst_roi := { left := 0, top := 0, right := 200, bottom := 100 }
          decimation := 0 } }, sampleConfig, sampleConfig] }

end sde

namespace sde

/-! ## Pipe widths after `Config` -/

/-- The pipes of a layer configuration that are assigned read a source no wider than
`kMaxSourcePipeWidth`: the left pipe when it is marked `kPipeIdNeedsAssignment`, the right
pipe when `is_right_pipe` is set. -/
def PipeWidthsOk (rm : ResManager) (cfg : HWLayerConfig) : Prop :=
  (cfg.left_pipe.pipe_id = rm.kPipeIdNeedsAssignment →
      cfg.left_pipe.src_roi.width ≤ (rm.kMaxSourcePipeWidth : ℚ)) ∧
    (cfg.is_right_pipe = true →
      cfg.right_pipe.src_roi.width ≤ (rm.kMaxSourcePipeWidth : ℚ))

/-- The source handed to the split configuration is within the reach of two pipes: in
source-split mode it is no wider than twice `kMaxSourcePipeWidth`; in display-split mode
each of its two half crops is narrower than `kMaxSourcePipeWidth`. -/
def ResManager.SplitFits (rm : ResManager) (ctx : DisplayResourceContext)
    (transform : LayerTransform) (src_rect dst_rect : LayerRect) : Prop :=
  if rm.hw_res_info_.is_src_split = true then
    src_rect.width ≤ 2 * (rm.kMaxSourcePipeWidth : ℚ)
  else
    (rm.leftHalf ctx transform src_rect dst_rect).1.width < (rm.kMaxSourcePipeWidth : ℚ) ∧
      (rm.rightHalf ctx transform src_rect dst_rect).1.width < (rm.kMaxSourcePipeWidth : ℚ)

instance (rm : ResManager) (ctx : DisplayResourceContext) (t : LayerTransform)
    (s d : LayerRect) : Decidable (rm.SplitFits ctx t s d) := by
  unfold ResManager.SplitFits
  infer_instance

/-- A layer 6000 source columns wide, shown 3000 columns wide. -/
def sampleLayerWide : Layer :=
  { input_buffer := { width := 6000, height := 100, format := 0 }
    src_rect := { left := 0, top := 0, right := 6000, bottom := 100 }
    dst_rect := { left := 0, top := 0, right := 3000, bottom := 100 }
    transform := {} }

/-- A frame of the one layer `sampleLayerWide`. -/
def sampleFrameWide : HWLayers :=
  { info := { stack := [sampleLayerWide], index := [0], count := 1 },
    config := [sampleConfig] }

end sde

namespace sde

instance (rm : ResManager) (cfg : HWLayerConfig) : Decidable (PipeWidthsOk rm cfg) := by
  unfold PipeWidthsOk
  infer_instance

/-- The layer configuration of `sampleFrameWide` after `Config` in source-split mode: each
pipe reads one half, 3000 columns, of the source. -/
def sampleConfigWideDone : HWLayerConfig :=
  { sampleConfig with
    is_right_pipe := true
    left_pipe :=
      { pipe_id := 2147483648
        src_roi := { left := 0, top := 0, right := 3000, bottom := 100 }
        dst_roi := { left := 0, top := 0, right := 1500, bottom := 100 }
        decimation := 0 }
    right_pipe :=
      { pipe_id := 2147483648
        src_roi := { left := 3000, top := 0, right := 6000, bottom := 100 }
        dst_roi := { left := 1500, top := 0, right := 3000, bottom := 100 }
        decimation := 0 } }

/-- A frame of one layer 3000 source columns wide, shown at `sampleDstRightOfSplit`. -/
def sampleFrameRightOfSplit : HWLayers :=
  { info :=
      { stack := [{ sampleLayerWide with
          src_rect := sampleSrc3000, dst_rect := sampleDstRightOfSplit }],
        index := [0], count := 1 },
    config := [sampleConfig] }

/-- The layer configuration of `sampleFrameRightOfSplit` after `Config` in display-split
mode: the right pipe reads the whole source, 3000 columns. -/
def sampleConfigRightOfSplitDone : HWLayerConfig :=
  { sampleConfig with
    is_right_pipe := true
    left_pipe :=
      { pipe_id := 2147483648
        src_roi := { left := 0, top := 0, right := 1500, bottom := 100 }
        dst_roi := { left := 3840, top := 0, right := 5340, bottom := 100 }
        decimation := 0 }
    right_pipe :=
      { pipe_id := 2147483648
        src_roi := { left := 0, top := 0, right := 3000, bottom := 100 }
        dst_roi := { left := 3840, top := 0, right := 6840, bottom := 100 }
        decimation := 0 } }

end sde

namespace sdm

/-! ## `HWDeviceDRM::SetRefreshRate` -/

/-- Modelled from the spec: the `DisplayError` enumeration of the sdm library, which is
declared outside the sources.  Its values are success and the error codes that
`hw_device_drm.cpp` names. -/
inductive DisplayError where
  | kErrorNone
  | kErrorUndefined
  | kErrorNotSupported
  | kErrorPermission
  | kErrorParameters
  | kErrorFileDescriptor
  | kErrorResources
  | kErrorHardware
deriving DecidableEq

/-- The members of `drmModeModeInfo` that the mode search reads (unsigned integers). -/
structure drmModeModeInfo where
  hdisplay : ℕ
  vdisplay : ℕ
  vrefresh : ℕ
deriving DecidableEq

/-- An element of `connector_info_.modes`: its member `mode`. -/
structure DRMModeItem where
  mode : drmModeModeInfo
deriving DecidableEq

/-- The member `modes` of `connector_info_`. -/
structure DRMConnectorInfo where
  modes : List DRMModeItem
deriving DecidableEq

/-- The members of `HWDeviceDRM` that the refresh-rate switch reads and writes. -/
structure HWDeviceDRM where
  connector_info_ : DRMConnectorInfo
  current_mode_index_ : ℕ
  vrefresh_ : ℕ
deriving DecidableEq

/-- The test of the mode search of `SetRefreshRate`: same `vdisplay`, same `hdisplay`, and
the requested `vrefresh`. -/
def modeMatches (current_mode : drmModeModeInfo) (refresh_rate : ℕ) (item : DRMModeItem) :
    Bool :=
  current_mode.vdisplay == item.mode.vdisplay &&
    current_mode.hdisplay == item.mode.hdisplay &&
    refresh_rate == item.mode.vrefresh

/-- The `for` loop of `SetRefreshRate` over the modes from `mode_index` on, given as the
list of the modes still to visit: `true` when the loop returns from its body. -/
def refreshRateLoop (current_mode : drmModeModeInfo) (refresh_rate : ℕ) :
    List DRMModeItem → Bool
  | [] => false
  | item :: rest =>
    if modeMatches current_mode refresh_rate item then true
    else refreshRateLoop current_mode refresh_rate rest

/-- `HWDeviceDRM::SetRefreshRate`.  Returns the error code and the new device state; the
result is `none` when `current_mode_index_` lies outside `connector_info_.modes`. -/
def HWDeviceDRM.SetRefreshRate (dev : HWDeviceDRM) (refresh_rate : ℕ) :
    Option (DisplayError × HWDeviceDRM) :=
  match dev.connector_info_.modes[dev.current_mode_index_]? with
  | none => none
  | some current =>
    -- Check if requested refresh rate is valid
    if refreshRateLoop current.mode refresh_rate dev.connector_info_.modes then
      some (DisplayError.kErrorNone, { dev with vrefresh_ := refresh_rate })
    else
      some (DisplayError.kErrorNotSupported, dev)

/-- A device with three modes, 1080 x 2340 at 60 and at 90 and 720 x 1560 at 60, running the
first one, with no refresh rate pending. -/
def sampleDevice : HWDeviceDRM :=
  { connector_info_ :=
      { modes := [⟨{ hdisplay := 1080, vdisplay := 2340, vrefresh := 60 }⟩,
          ⟨{ hdisplay := 1080, vdisplay := 2340, vrefresh := 90 }⟩,
          ⟨{ hdisplay := 720, vdisplay := 1560, vrefresh := 60 }⟩] },
    current_mode_index_ := 0,
    vrefresh_ := 0 }

end sdm

namespace sde

/-! ## Cut fractions and scale factors, stated directly -/

/-- The height `bottom - top` of a rectangle. -/
def LayerRect.height (r : LayerRect) : CFloat := r.bottom - r.top

/-- The cut fractions with left and right exchanged. -/
def CutRatios.swapLeftRight (c : CutRatios) : CutRatios :=
  { left := c.right, top := c.top, right := c.left, bottom := c.bottom }

/-- The cut fractions with top and bottom exchanged. -/
def CutRatios.swapTopBottom (c : CutRatios) : CutRatios :=
  { left := c.left, top := c.bottom, right := c.right, bottom := c.top }

/-- The cyclic reassignment left <- top, top <- right, right <- bottom, bottom <- left. -/
def CutRatios.cycle (c : CutRatios) : CutRatios :=
  { left := c.top, top := c.right, right := c.bottom, bottom := c.left }

/-- The four fractions of a `CutRatios` as the list `[left, top, right, bottom]`. -/
def CutRatios.toList (c : CutRatios) : List CFloat := [c.left, c.top, c.right, c.bottom]

end sde

namespace sde

end sde

namespace sde

/-! ## The stages of `ValidateScaling` -/

/-- The `crop_width` of `ValidateScaling`: the crop extent that meets the destination width,
the crop height when the layer is rotated by 90 degrees. -/
def ResManager.cropWidth (rm : ResManager) (layer : Layer) (crop : LayerRect) : CFloat :=
  if rm.IsRotationNeeded layer.transform.rotation then crop.bottom - crop.top
  else crop.right - crop.left

/-- The `crop_height` of `ValidateScaling`. -/
def ResManager.cropHeight (rm : ResManager) (layer : Layer) (crop : LayerRect) : CFloat :=
  if rm.IsRotationNeeded layer.transform.rotation then crop.right - crop.left
  else crop.bottom - crop.top

/-- The `scale_x` of `ValidateScaling`. -/
def ResManager.scaleX (rm : ResManager) (layer : Layer) (crop dst : LayerRect) : CFloat :=
  rm.cropWidth layer crop / (dst.right - dst.left)

/-- The `scale_y` of `ValidateScaling`. -/
def ResManager.scaleY (rm : ResManager) (layer : Layer) (crop dst : LayerRect) : CFloat :=
  rm.cropHeight layer crop / (dst.bottom - dst.top)

/-- The `max_downscale_with_rotator` of `ValidateScaling`, a `uint32_t`. -/
def ResManager.maxDownscaleWithRotator (rm : ResManager) : ℕ :=
  if rm.hw_res_info_.has_rotator_downscale then
    (rm.hw_res_info_.max_scale_down * rm.kMaxRotateDownScaleRatio) % 2 ^ 32
  else rm.hw_res_info_.max_scale_down

/-- The downscale test of `ValidateScaling`: `true` when it returns `kErrorNotSupported`
from inside `if ((UINT32(scale_x) > 1) || (UINT32(scale_y) > 1))`. -/
def ResManager.downscaleRejected (rm : ResManager) (layer : Layer) (scale_x scale_y : CFloat) :
    Bool :=
  if UINT32 scale_x > 1 ∨ UINT32 scale_y > 1 then
    if (!rm.hw_res_info_.has_decimation || rm.IsMacroTileFormat layer.input_buffer) ∧
        (scale_x > (rm.hw_res_info_.max_scale_down : ℚ) ∨
          scale_y > (rm.hw_res_info_.max_scale_down : ℚ)) then
      true
    else if scale_x > (rm.maxDownscaleWithRotator : ℚ) ∨
        scale_y > (rm.maxDownscaleWithRotator : ℚ) then
      true
    else false
  else false

/-- The upscale test of `ValidateScaling` on one axis: true when it returns
`kErrorNotSupported` for the scale of that axis. -/
def ResManager.upscaleRejected (rm : ResManager) (scale : CFloat) : Prop :=
  UINT32 scale < 1 ∧ scale > 0 ∧ 1 / scale > (rm.hw_res_info_.max_scale_up : ℚ)

instance (rm : ResManager) (scale : CFloat) : Decidable (rm.upscaleRejected scale) := by
  unfold ResManager.upscaleRejected
  infer_instance

end sde

namespace sde

/-- A layer showing a source 1000 wide and 100 high in a destination 100 wide and 100 high:
horizontal downscale 10. -/
def sampleLayerDown10 : Layer :=
  { input_buffer := { width := 1000, height := 100, format := 0 }
    src_rect := { left := 0, top := 0, right := 1000, bottom := 100 }
    dst_rect := { left := 0, top := 0, right := 100, bottom := 100 }
    transform := {} }

end sde

namespace sde

/-- A layer showing a source 10 wide and 100 high in a destination 300 wide and 100 high:
horizontal upscale 30. -/
def sampleLayerUp30 : Layer :=
  { input_buffer := { width := 10, height := 100, format := 0 }
    src_rect := { left := 0, top := 0, right := 10, bottom := 100 }
    dst_rect := { left := 0, top := 0, right := 300, bottom := 100 }
    transform := {} }

end sde

namespace sde

/-! ## The downscale limit -/

/-- The downscale test of `ValidateScaling` rejects: the truncated scale exceeds 1 on some
axis, and the scale on some axis exceeds `max_scale_down` with the buffer macro-tiled or
the hardware lacking decimation, or exceeds `max_downscale_with_rotator`. -/
def ResManager.DownscaleOverLimit (rm : ResManager) (layer : Layer)
    (scale_x scale_y : CFloat) : Prop :=
  (UINT32 scale_x > 1 ∨ UINT32 scale_y > 1) ∧
    (((rm.hw_res_info_.has_decimation = false ∨
          rm.IsMacroTileFormat layer.input_buffer = true) ∧
        (scale_x > (rm.hw_res_info_.max_scale_down : ℚ) ∨
          scale_y > (rm.hw_res_info_.max_scale_down : ℚ))) ∨
      (scale_x > (rm.maxDownscaleWithRotator : ℚ) ∨
        scale_y > (rm.maxDownscaleWithRotator : ℚ)))

/-- The applicable downscale limit in the words of the specification: the hardware-only
`max_scale_down` when the buffer is macro-tiled and the hardware lacks decimation, and
otherwise `max_scale_down x kMaxRotateDownScaleRatio`. -/
def ResManager.specDownscaleLimit (rm : ResManager) (layer : Layer) : CFloat :=
  if rm.IsMacroTileFormat layer.input_buffer = true ∧ rm.hw_res_info_.has_decimation = false
  then (rm.hw_res_info_.max_scale_down : ℚ)
  else (rm.hw_res_info_.max_scale_down : ℚ) * (rm.kMaxRotateDownScaleRatio : ℚ)

/-- The downscale rejection in the words of the specification: the scale on some axis is
greater than 1 and exceeds the applicable limit. -/
def ResManager.specDownscaleOverLimit (rm : ResManager) (layer : Layer)
    (scale_x scale_y : CFloat) : Prop :=
  (scale_x > 1 ∧ scale_x > rm.specDownscaleLimit layer) ∨
    (scale_y > 1 ∧ scale_y > rm.specDownscaleLimit layer)

instance (rm : ResManager) (layer : Layer) (sx sy : CFloat) :
    Decidable (rm.DownscaleOverLimit layer sx sy) := by
  unfold ResManager.DownscaleOverLimit
  infer_instance

instance (rm : ResManager) (layer : Layer) (sx sy : CFloat) :
    Decidable (rm.specDownscaleOverLimit layer sx sy) := by
  unfold ResManager.specDownscaleOverLimit
  infer_instance

/-- The sample manager without decimation. -/
def sampleResManagerNoDecimation : ResManager :=
  { sampleResManager with
    hw_res_info_ := { sampleResManager.hw_res_info_ with has_decimation := false } }

/-- The sample manager without rotator downscale. -/
def sampleResManagerNoRotatorDownscale : ResManager :=
  { sampleResManager with
    hw_res_info_ := { sampleResManager.hw_res_info_ with has_rotator_downscale := false } }

/-- A layer showing a source 500 wide and 100 high in a destination 100 wide and 100 high:
horizontal downscale 5. -/
def sampleLayerDown5 : Layer :=
  { input_buffer := { width := 500, height := 100, format := 0 }
    src_rect := { left := 0, top := 0, right := 500, bottom := 100 }
    dst_rect := { left := 0, top := 0, right := 100, bottom := 100 }
    transform := {} }

end sde

namespace sde

/-! ## The rotator stage of `Config`, stated directly -/

/-- The rotators of the layer configuration `cfg1` are as the rotator stage of `Config`
leaves them for a layer with the cropped source `src_rect` and the rotator downscale
factors `a`, `b`: with rotation needed or a factor other than 1, the left rotator reads
`src_rect` and writes the zero-origin rectangle `[0, 0, height / a, width / b]`, marked
`kPipeIdNeedsAssignment`, and the right rotator is reset; otherwise both are reset. -/
def RotatorStageOk (rm : ResManager) (layer : Layer) (src_rect : LayerRect) (a b : CFloat)
    (cfg1 : HWLayerConfig) : Prop :=
  ((rm.IsRotationNeeded layer.transform.rotation = true ∨ a ≠ 1 ∨ b ≠ 1) →
    cfg1.left_rotate.src_roi = src_rect ∧
    cfg1.left_rotate.dst_roi =
      { left := 0, top := 0, right := (src_rect.bottom - src_rect.top) / a,
        bottom := (src_rect.right - src_rect.left) / b } ∧
    cfg1.left_rotate.pipe_id = rm.kPipeIdNeedsAssignment ∧
    cfg1.right_rotate = rm.rotate_reset) ∧
  (¬ (rm.IsRotationNeeded layer.transform.rotation = true ∨ a ≠ 1 ∨ b ≠ 1) →
    cfg1.left_rotate = rm.rotate_reset ∧ cfg1.right_rotate = rm.rotate_reset)

/-- A layer showing the source `[0, 0, 100, 50]` rotated by 90 degrees at
`[0, 0, 50, 100]`. -/
def sampleLayerRot90 : Layer :=
  { input_buffer := { width := 100, height := 50, format := 0 }
    src_rect := { left := 0, top := 0, right := 100, bottom := 50 }
    dst_rect := { left := 0, top := 0, right := 50, bottom := 100 }
    transform := { rotation := 90 } }

/-- A frame of the two layers `sampleLayerRot90` and `sampleLayer`. -/
def sampleFrameRot : HWLayers :=
  { info := { stack := [sampleLayerRot90, sampleLayer], index := [0, 1], count := 2 },
    config := [sampleConfig, sampleConfig] }

end sde

namespace sde

/-- The frame `sampleFrameRot` after `Config`: the first layer goes through the left
rotator, whose output `[0, 0, 50, 100]` is the source of its pipe; the second layer has both
rotators reset. -/
def sampleFrameRotDone : HWLayers :=
  { sampleFrameRot with
    config :=
      [{ sampleConfig with
          left_pipe :=
            { pipe_id := 2147483648
              src_roi := { left := 0, top := 0, right := 50, bottom := 100 }
              dst_roi := { left := 0, top := 0, right := 50, bottom := 100 }
              decimation := 0 }
          left_rotate :=
            { pipe_id := 2147483648
              src_roi := { left := 0, top := 0, right := 100, bottom := 50 }
              dst_roi := { left := 0, top := 0, right := 50, bottom := 100 }
              downscale_ratio_x := 1
              downscale_ratio_y := 1 } },
        { sampleConfig with
          left_pipe :=
            { pipe_id := 2147483648
              src_roi := { left := 0, top := 0, right := 100, bottom := 50 }
              dst_roi := { left := 0, top := 0, right := 200, bottom := 100 }
              decimation := 0 } }] }

end sde

namespace sdm

/-! ## The refresh-rate switch at commit -/

/-- The mode search of `SetupAtomic` and `AtomicCommit`: the loop
`for (mode_index = 0; mode_index < modes.size(); mode_index++)` whose body, on the first
mode that has the resolution of `current_mode` and the pending refresh rate, records the
mode and leaves with `break`.  The list holds the modes from `mode_index` on; the result is
the index and the mode recorded, or `none` when the loop runs out. -/
def modeSearch (current_mode : drmModeModeInfo) (vrefresh_ : ℕ) :
    List DRMModeItem → ℕ → Option (ℕ × DRMModeItem)
  | [], _ => none
  | item :: rest, mode_index =>
    if modeMatches current_mode vrefresh_ item then some (mode_index, item)
    else modeSearch current_mode vrefresh_ rest (mode_index + 1)

/-- The mode that `SetupAtomic` hands to `CRTC_SET_MODE`: the current mode, replaced under
`// Set refresh rate` by the first mode of the same resolution with the pending rate.  The
result is `none` when `current_mode_index_` lies outside `connector_info_.modes`. -/
def HWDeviceDRM.SetupAtomicMode (dev : HWDeviceDRM) : Option drmModeModeInfo :=
  match dev.connector_info_.modes[dev.current_mode_index_]? with
  | none => none
  | some current =>
    if dev.vrefresh_ ≠ 0 then
      match modeSearch current.mode dev.vrefresh_ dev.connector_info_.modes 0 with
      | some found => some found.2.mode
      | none => some current.mode
    else some current.mode

/-- `HWDeviceDRM::AtomicCommit` on the members of the refresh-rate switch.  `default_mode_`
is the member that makes `SetupAtomic` return at once; `ret` is the return value of the
driver's `Commit`.  The fences and `first_cycle_` are outside the model.  Returns the error
code and the new device state; the result is `none` when `current_mode_index_` is read
outside `connector_info_.modes`. -/
def HWDeviceDRM.AtomicCommit (dev : HWDeviceDRM) (default_mode_ : Bool) (ret : ℤ) :
    Option (DisplayError × HWDeviceDRM) :=
  -- SetupAtomic(hw_layers, false /* validate */)
  if default_mode_ = false ∧ dev.SetupAtomicMode = none then none
  else if ret ≠ 0 then
    some (DisplayError.kErrorHardware, { dev with vrefresh_ := 0 })
  else if dev.vrefresh_ ≠ 0 then
    -- Update current mode index if refresh rate is changed
    match dev.connector_info_.modes[dev.current_mode_index_]? with
    | none => none
    | some current =>
      match modeSearch current.mode dev.vrefresh_ dev.connector_info_.modes 0 with
      | some found =>
        some (DisplayError.kErrorNone,
          { dev with current_mode_index_ := found.1, vrefresh_ := 0 })
      | none => some (DisplayError.kErrorNone, { dev with vrefresh_ := 0 })
  else
    some (DisplayError.kErrorNone, dev)

/-- The mode `item` has the resolution of the mode `current` and the refresh rate
`rate`. -/
def IsModeFor (current : DRMModeItem) (rate : ℕ) (item : DRMModeItem) : Prop :=
  item.mode.hdisplay = current.mode.hdisplay ∧ item.mode.vdisplay = current.mode.vdisplay ∧
    item.mode.vrefresh = rate

/-- The index `i` is the lowest index of a mode of `modes` with the resolution of `current`
and the refresh rate `rate`. -/
def IsLowestModeFor (modes : List DRMModeItem) (current : DRMModeItem) (rate : ℕ)
    (i : ℕ) : Prop :=
  (∃ item, modes[i]? = some item ∧ IsModeFor current rate item) ∧
    ∀ j item, j < i → modes[j]? = some item → ¬ IsModeFor current rate item

/-- The device `sampleDevice` with the refresh rate 90 pending. -/
def sampleDevicePending : HWDeviceDRM := { sampleDevice with vrefresh_ := 90 }

end sdm

namespace sdm

/-! ## `SetupAtomic`: the partial-update regions -/

/-- The `LayerRect` of `layer_stack.h`: four `float` coordinates. -/
structure LayerRect where
  left : ℚ := 0
  top : ℚ := 0
  right : ℚ := 0
  bottom : ℚ := 0
deriving DecidableEq

/-- The `UINT32(exp)` cast of a float: truncation toward zero; values outside the range of
`uint32_t` saturate (the behaviour of the conversion instruction of the target). -/
def UINT32 (x : ℚ) : ℕ := min (Int.toNat ⌊x⌋) (2 ^ 32 - 1)

/-- The `DRMRect` of `drm_interface.h`, declared outside the sources: four `uint32_t`, in
the order `left`, `top`, `right`, `bottom` that the initialisers of `SetupAtomic` rely
on. -/
structure DRMRect where
  left : ℕ := 0
  top : ℕ := 0
  right : ℕ := 0
  bottom : ℕ := 0
deriving DecidableEq

/-- The constant `kNumMaxROIs` of `SetupAtomic`: the length of `crtc_rects` and of
`conn_rects`. -/
def kNumMaxROIs : ℕ := 4

/-- The four assignments `rects[i].left = UINT32(roi.left)`, ... of the region loop. -/
def roiRect (roi : LayerRect) : DRMRect :=
  { left := UINT32 roi.left, right := UINT32 roi.right, top := UINT32 roi.top,
    bottom := UINT32 roi.bottom }

/-- The loop `for (i = 0; i < left_frame_roi.size(); i++)` of `SetupAtomic` from `i` on, over
the regions still to visit: it writes element `i` of `crtc_rects` and of `conn_rects`.  The
result is `none` when an element outside the arrays is written. -/
def roiLoop : List LayerRect → ℕ → List DRMRect × List DRMRect →
    Option (List DRMRect × List DRMRect)
  | [], _, rects => some rects
  | roi :: rest, i, rects =>
    if i < rects.1.length ∧ i < rects.2.length then
      roiLoop rest (i + 1) (rects.1.set i (roiRect roi), rects.2.set i (roiRect roi))
    else none

/-- The arguments of the two `Perform` calls `CRTC_SET_ROI` and `CONNECTOR_SET_ROI`. -/
structure ROIProgram where
  num_rects : ℕ
  crtc_rects : List DRMRect
  conn_rects : List DRMRect
deriving DecidableEq

/-- The regions that the driver reads from a `Perform` call: the first `num_rects` elements
of the array. -/
def ROIProgram.crtc (p : ROIProgram) : List DRMRect := p.crtc_rects.take p.num_rects

/-- The connector regions that the driver reads. -/
def ROIProgram.conn (p : ROIProgram) : List DRMRect := p.conn_rects.take p.num_rects

/-- The block `if (hw_panel_info_.partial_update)` of `HWDeviceDRM::SetupAtomic`, given
`hw_panel_info_.partial_update`, the mixer width and height, `x_pixels` and `y_pixels` of
the current display attributes and `left_frame_roi`.  The result is `none` when the loop
writes outside the arrays, `some none` when nothing is programmed. -/
def HWDeviceDRM.SetupAtomicROI (partial_update : Bool)
    (mixer_width mixer_height x_pixels y_pixels : ℕ) (left_frame_roi : List LayerRect) :
    Option (Option ROIProgram) :=
  if partial_update then
    let crtc_rects : List DRMRect :=
      { left := 0, top := 0, right := mixer_width, bottom := mixer_height } ::
        List.replicate (kNumMaxROIs - 1) {}
    let conn_rects : List DRMRect :=
      { left := 0, top := 0, right := x_pixels, bottom := y_pixels } ::
        List.replicate (kNumMaxROIs - 1) {}
    match roiLoop left_frame_roi 0 (crtc_rects, conn_rects) with
    | none => none
    | some rects =>
      let num_rects := max 1 (left_frame_roi.length % 2 ^ 32)
      some (some { num_rects := num_rects, crtc_rects := rects.1, conn_rects := rects.2 })
  else
    some none

/-- A frame with two dirty regions. -/
def sampleROIs2 : List LayerRect :=
  [{ left := 0, top := 0, right := 1080, bottom := 100 },
    { left := 0, top := 200, right := 1080, bottom := 300 }]

/-- A frame with five dirty regions. -/
def sampleROIs5 : List LayerRect :=
  [{ left := 0, top := 0, right := 1080, bottom := 100 },
    { left := 0, top := 200, right := 1080, bottom := 300 },
    { left := 0, top := 400, right := 1080, bottom := 500 },
    { left := 0, top := 600, right := 1080, bottom := 700 },
    { left := 0, top := 800, right := 1080, bottom := 900 }]

end sdm

namespace sdm.atomic

/-! ## `SetupAtomic`: the security level

The members of the frame that the plane loop of `HWDeviceDRM::SetupAtomic` reads on its way
to `SetSecureConfig`. -/

/-- The flags of a `LayerBuffer` that `SetSecureConfig` reads. -/
structure LayerBufferFlags where
  secure : Bool := false
  secure_camera : Bool := false
  secure_display : Bool := false
deriving DecidableEq

/-- The `LayerBuffer`: `fd` stands for `planes[0].fd`. -/
structure LayerBuffer where
  fd : ℤ
  flags : LayerBufferFlags := {}
deriving DecidableEq

/-- The `Layer`: its input buffer. -/
structure Layer where
  input_buffer : LayerBuffer
deriving DecidableEq

/-- The `HWPipeInfo`: its member `valid`. -/
structure HWPipeInfo where
  valid : Bool
deriving DecidableEq

/-- The `HWRotateInfo`: its member `valid`. -/
structure HWRotateInfo where
  valid : Bool
deriving DecidableEq

/-- The `HWRotatorSession`: the two elements of `hw_rotate_info`, the mode and the output
buffer. -/
structure HWRotatorSession where
  hw_rotate_info : HWRotateInfo × HWRotateInfo
  mode : HWRotatorMode
  output_buffer : LayerBuffer
deriving DecidableEq

/-- The `HWLayerConfig`. -/
structure HWLayerConfig where
  left_pipe : HWPipeInfo
  right_pipe : HWPipeInfo
  hw_rotator_session : HWRotatorSession
  use_solidfill_stage : Bool := false
deriving DecidableEq

/-- The `HWLayersInfo`: its vector `hw_layers`. -/
structure HWLayersInfo where
  hw_layers : List Layer
deriving DecidableEq

/-- The `HWLayers`. -/
structure HWLayers where
  info : HWLayersInfo
  config : List HWLayerConfig
deriving DecidableEq

/-- The `sde_drm::DRMSecureMode` of `drm_interface.h`: the enumerators that
`SetSecureConfig` assigns. -/
inductive DRMSecureMode where
  | NON_SECURE
  | SECURE
  | SECURE_DIR_TRANSLATION
deriving DecidableEq

/-- The enumerators of `sde_drm::DRMSecurityLevel` that `SetupAtomic` compares with `>`.
The enumeration is declared in `drm_interface.h`, outside the sources; its values are
parameters of the model. -/
structure DRMSecurityLevel where
  SECURE_NON_SECURE : ℕ
  SECURE_ONLY : ℕ
deriving DecidableEq

/-- `HWDeviceDRM::SetSecureConfig`.  Returns `(*fb_secure_mode, *security_level)`. -/
def HWDeviceDRM.SetSecureConfig (lv : DRMSecurityLevel) (input_buffer : LayerBuffer) :
    DRMSecureMode × ℕ :=
  if input_buffer.flags.secure then
    if input_buffer.flags.secure_camera then
      -- Secure and non-secure planes can be attached to this CRTC.
      (DRMSecureMode.SECURE_DIR_TRANSLATION, lv.SECURE_NON_SECURE)
    else if input_buffer.flags.secure_display then
      -- Only secure planes can be attached to this CRTC.
      (DRMSecureMode.SECURE_DIR_TRANSLATION, lv.SECURE_ONLY)
    else
      -- Secure and non-secure planes can be attached to this CRTC.
      (DRMSecureMode.SECURE, lv.SECURE_NON_SECURE)
  else
    (DRMSecureMode.NON_SECURE, lv.SECURE_NON_SECURE)

/-- One round of the loop `for (count = 0; count < 2; count++)` of `SetupAtomic`, on the
pointer `input_buffer` and on `crtc_security_level`. -/
def pipeStep (lv : DRMSecurityLevel) (reg : Registry) (layer : Layer)
    (hw_rotator_session : HWRotatorSession) (pipe_info : HWPipeInfo)
    (hw_rotate_info : HWRotateInfo) (st : LayerBuffer × ℕ) : LayerBuffer × ℕ :=
  let input_buffer :=
    if hw_rotator_session.mode = HWRotatorMode.kRotatorOffline ∧ hw_rotate_info.valid = true
    then hw_rotator_session.output_buffer
    else st.1
  let fb_id := reg.GetFbId input_buffer.fd
  if pipe_info.valid = true ∧ fb_id ≠ 0 then
    let security_level := (HWDeviceDRM.SetSecureConfig lv layer.input_buffer).2
    (input_buffer, if security_level > st.2 then security_level else st.2)
  else
    (input_buffer, st.2)

/-- The body of the layer loop of `SetupAtomic` on `crtc_security_level`: nothing for a
solid-fill layer, else the left pipe and then the right pipe. -/
def layerStep (lv : DRMSecurityLevel) (reg : Registry) (layer : Layer) (cfg : HWLayerConfig)
    (crtc_security_level : ℕ) : ℕ :=
  if cfg.use_solidfill_stage then crtc_security_level
  else
    (pipeStep lv reg layer cfg.hw_rotator_session cfg.right_pipe
      cfg.hw_rotator_session.hw_rotate_info.2
      (pipeStep lv reg layer cfg.hw_rotator_session cfg.left_pipe
        cfg.hw_rotator_session.hw_rotate_info.1
        (layer.input_buffer, crtc_security_level))).2

/-- The layer loop of `SetupAtomic` on `crtc_security_level`, over the layers and the
configurations from `i` on.  The result is `none` when `config` has no element `i`. -/
def securityLoop (lv : DRMSecurityLevel) (reg : Registry) :
    List Layer → List HWLayerConfig → ℕ → Option ℕ
  | [], _, crtc_security_level => some crtc_security_level
  | _ :: _, [], _ => none
  | layer :: layers, cfg :: cfgs, crtc_security_level =>
    securityLoop lv reg layers cfgs (layerStep lv reg layer cfg crtc_security_level)

/-- The security level that `HWDeviceDRM::SetupAtomic` hands to `CRTC_SET_SECURITY_LEVEL`
(`default_mode_` not set). -/
def HWDeviceDRM.SetupAtomicSecurityLevel (lv : DRMSecurityLevel) (reg : Registry)
    (hw_layers : HWLayers) : Option ℕ :=
  securityLoop lv reg hw_layers.info.hw_layers hw_layers.config lv.SECURE_NON_SECURE

/-! ### The wired pipes, stated directly -/

/-- The left pipe of the layer is wired: the layer is no solid fill, the pipe is valid and
the registry has a framebuffer id for the buffer the pipe reads (the rotator output in
offline mode with a valid first rotator, else the input buffer). -/
def LeftWired (reg : Registry) (layer : Layer) (cfg : HWLayerConfig) : Prop :=
  cfg.use_solidfill_stage = false ∧ cfg.left_pipe.valid = true ∧
    reg.GetFbId
      (if cfg.hw_rotator_session.mode = HWRotatorMode.kRotatorOffline ∧
          cfg.hw_rotator_session.hw_rotate_info.1.valid = true
        then cfg.hw_rotator_session.output_buffer else layer.input_buffer).fd ≠ 0

/-- The right pipe of the layer is wired; it reads the rotator output in offline mode when
either rotator is valid. -/
def RightWired (reg : Registry) (layer : Layer) (cfg : HWLayerConfig) : Prop :=
  cfg.use_solidfill_stage = false ∧ cfg.right_pipe.valid = true ∧
    reg.GetFbId
      (if cfg.hw_rotator_session.mode = HWRotatorMode.kRotatorOffline ∧
          (cfg.hw_rotator_session.hw_rotate_info.1.valid = true ∨
            cfg.hw_rotator_session.hw_rotate_info.2.valid = true)
        then cfg.hw_rotator_session.output_buffer else layer.input_buffer).fd ≠ 0

instance (reg : Registry) (layer : Layer) (cfg : HWLayerConfig) :
    Decidable (LeftWired reg layer cfg) := by
  unfold LeftWired
  infer_instance

instance (reg : Registry) (layer : Layer) (cfg : HWLayerConfig) :
    Decidable (RightWired reg layer cfg) := by
  unfold RightWired
  infer_instance

/-- The security levels of the wired pipes of one layer. -/
def layerLevels (lv : DRMSecurityLevel) (reg : Registry) (layer : Layer)
    (cfg : HWLayerConfig) : List ℕ :=
  (if LeftWired reg layer cfg then [(HWDeviceDRM.SetSecureConfig lv layer.input_buffer).2]
    else []) ++
  (if RightWired reg layer cfg then [(HWDeviceDRM.SetSecureConfig lv layer.input_buffer).2]
    else [])

/-- The security levels of the wired pipes of the frame. -/
def wiredLevels (lv : DRMSecurityLevel) (reg : Registry) (hw_layers : HWLayers) : List ℕ :=
  (hw_layers.info.hw_layers.zip hw_layers.config).flatMap
    (fun p => layerLevels lv reg p.1 p.2)

/-- The buffer has the flags `secure` and `secure_display` set and `secure_camera`
clear. -/
def SecureDisplayOnly (buffer : LayerBuffer) : Prop :=
  buffer.flags.secure = true ∧ buffer.flags.secure_display = true ∧
    buffer.flags.secure_camera = false

end sdm.atomic

namespace sdm.atomic

instance (buffer : LayerBuffer) : Decidable (SecureDisplayOnly buffer) := by
  unfold SecureDisplayOnly
  infer_instance

end sdm.atomic

namespace sdm.atomic

/-- Sample values of the `DRMSecurityLevel` enumerators, in the order of declaration. -/
def sampleLevels : DRMSecurityLevel := { SECURE_NON_SECURE := 0, SECURE_ONLY := 1 }

/-- A registry whose current generation maps the fds 5, 6 and 7. -/
def sampleRegistry : Registry :=
  { rmfb_delay_ := 1, current_index_ := 0, hashmap_ := [[(5, 100), (6, 101), (7, 102)]] }

/-- A rotator session that is not in use. -/
def sampleSession : HWRotatorSession :=
  { hw_rotate_info := (⟨false⟩, ⟨false⟩), mode := HWRotatorMode.kRotatorNone,
    output_buffer := { fd := -1 } }

/-- A frame of three layers on one valid pipe each: a plain buffer (fd 5), a secure camera
buffer with `secure_display` set as well (fd 6), and a secure display buffer (fd 8) that the
registry does not hold. -/
def sampleSecureFrame : HWLayers :=
  { info :=
      { hw_layers :=
          [{ input_buffer := { fd := 5 } },
            { input_buffer :=
                { fd := 6,
                  flags := { secure := true, secure_camera := true, secure_display := true } } },
            { input_buffer :=
                { fd := 8, flags := { secure := true, secure_display := true } } }] },
    config :=
      [{ left_pipe := ⟨true⟩, right_pipe := ⟨false⟩, hw_rotator_session := sampleSession },
        { left_pipe := ⟨true⟩, right_pipe := ⟨false⟩, hw_rotator_session := sampleSession },
        { left_pipe := ⟨true⟩, right_pipe := ⟨false⟩, hw_rotator_session := sampleSession }] }

/-- The frame `sampleSecureFrame` with a fourth layer, a secure display buffer (fd 7) on a
valid pipe. -/
def sampleSecureOnlyFrame : HWLayers :=
  { info :=
      { hw_layers := sampleSecureFrame.info.hw_layers ++
          [{ input_buffer :=
              { fd := 7, flags := { secure := true, secure_display := true } } }] },
    config := sampleSecureFrame.config ++
      [{ left_pipe := ⟨true⟩, right_pipe := ⟨false⟩, hw_rotator_session := sampleSession }] }

end sdm.atomic

namespace sdm

/-- A buffer with fd 7. -/
def sampleBuffer7 : LayerBuffer := { fd := 7, width := 64, height := 32, format := 0 }

/-- A frame with one layer that reads the buffer with fd 7. -/
def sampleHWLayers7 : HWLayers :=
  { hw_layers := [sampleBuffer7]
    config :=
      [{ mode := HWRotatorMode.kRotatorNone, valid := false, output_buffer := sampleBuffer }] }

/-- The state `sampleAfterCommit1` after the `Register` call of a third commit has mapped
fd 7: the driver of `sampleEnv` gave it the id 102, which no generation held. -/
def sampleCommit3Registered : Registry × DRMMaster :=
  ({ rmfb_delay_ := 3, current_index_ := 2,
     hashmap_ := [[(5, 100)], [(6, 101)], [(7, 102)]] },
    { created := [bufferLayout sampleEnv sampleBuffer, bufferLayout sampleEnv sampleBuffer6,
        bufferLayout sampleEnv sampleBuffer7],
      removed := [] })

/-- The state at the end of the commit after the one of `sampleCommit3Registered` (that
commit registered fd 6 again, as id 103): the two commits removed the ids 100 and 101 of
the two other generations, and the pair of fd 7 is still held. -/
def sampleAfterCommit4 : Registry × DRMMaster :=
  ({ rmfb_delay_ := 3, current_index_ := 1,
     hashmap_ := [[(6, 103)], [], [(7, 102)]] },
    { created := [bufferLayout sampleEnv sampleBuffer, bufferLayout sampleEnv sampleBuffer6,
        bufferLayout sampleEnv sampleBuffer7, bufferLayout sampleEnv sampleBuffer6],
      removed := [100, 101] })

end sdm

namespace sde.single

/-! ## Cropping against a scissor in single precision -/

/-- `ResManager::CalculateCropRects` with the `float` operations of `fl`: every `-`, `/`,
`*`, `+=` and `-=` of the source is an operation of `fl`; the comparisons and `CalculateCut`
do no arithmetic.  Returns the new `(crop, dst)`. -/
def ResManager.CalculateCropRects (rm : ResManager) (fl : FloatOps) (scissor : LayerRect)
    (transform : LayerTransform) (crop dst : LayerRect) : LayerRect × LayerRect :=
  let crop_width := fl.sub crop.right crop.left
  let crop_height := fl.sub crop.bottom crop.top
  let dst_width := fl.sub dst.right dst.left
  let dst_height := fl.sub dst.bottom dst.top
  let cut0 : CutRatios := {}
  let need_cut0 := false
  -- if (dst_left < sci_left)
  let s1 : CutRatios × LayerRect × Bool :=
    if dst.left < scissor.left then
      ({ cut0 with left := fl.div (fl.sub scissor.left dst.left) dst_width },
        { dst with left := scissor.left }, true)
    else (cut0, dst, need_cut0)
  -- if (dst_right > sci_right)
  let s2 : CutRatios × LayerRect × Bool :=
    if s1.2.1.right > scissor.right then
      ({ s1.1 with right := fl.div (fl.sub s1.2.1.right scissor.right) dst_width },
        { s1.2.1 with right := scissor.right }, true)
    else s1
  -- if (dst_top < sci_top)
  let s3 : CutRatios × LayerRect × Bool :=
    if s2.2.1.top < scissor.top then
      ({ s2.1 with top := fl.div (fl.sub scissor.top s2.2.1.top) dst_height },
        { s2.2.1 with top := scissor.top }, true)
    else s2
  -- if (dst_bottom > sci_bottom)
  let s4 : CutRatios × LayerRect × Bool :=
    if s3.2.1.bottom > scissor.bottom then
      ({ s3.1 with bottom := fl.div (fl.sub s3.2.1.bottom scissor.bottom) dst_height },
        { s3.2.1 with bottom := scissor.bottom }, true)
    else s3
  if !s4.2.2 then
    (crop, s4.2.1)
  else
    let cut := rm.CalculateCut transform s4.1
    ({ left := fl.add crop.left (fl.mul crop_width cut.left),
       top := fl.add crop.top (fl.mul crop_height cut.top),
       right := fl.sub crop.right (fl.mul crop_width cut.right),
       bottom := fl.sub crop.bottom (fl.mul crop_height cut.bottom) }, s4.2.1)

end sde.single

namespace sde

end sde

namespace sde

end sde

/-! # Theorems -/

namespace sde

theorem roundf_sub_eq_zero_iff (x : ℚ) : x - roundf x = 0 ↔ ∃ n : ℤ, x = (n : ℚ) := by
  constructor
  · intro h
    unfold roundf at h
    split_ifs at h
    · exact ⟨_, sub_eq_zero.mp h⟩
    · exact ⟨_, sub_eq_zero.mp h⟩
  · rintro ⟨n, rfl⟩
    unfold roundf
    split_ifs with h0
    · have : ⌊(n : ℚ) + 1 / 2⌋ = n := by
        rw [Int.floor_eq_iff]; constructor <;> norm_num
      rw [this]; simp
    · have : ⌈(n : ℚ) - 1 / 2⌉ = n := by
        rw [Int.ceil_eq_iff]; constructor <;> norm_num
      rw [this]; simp

/-- C1: `IsValidDimension src dst` returns true exactly when the four source coordinates are
integral and `left ≤ right`, `top ≤ bottom` hold on both rectangles; so a non-integral source
coordinate or an inverted rectangle makes it return false. -/
theorem IsValidDimension_iff (src dst : LayerRect) :
    ResManager.IsValidDimension src dst = true ↔
      ((∃ n : ℤ, src.left = (n : ℚ)) ∧ (∃ n : ℤ, src.top = (n : ℚ)) ∧
        (∃ n : ℤ, src.right = (n : ℚ)) ∧ (∃ n : ℤ, src.bottom = (n : ℚ))) ∧
      src.left ≤ src.right ∧ src.top ≤ src.bottom ∧
      dst.left ≤ dst.right ∧ dst.top ≤ dst.bottom := by
  unfold ResManager.IsValidDimension
  simp only [← roundf_sub_eq_zero_iff]
  split_ifs with h1 h2
  · simp only [Bool.false_eq_true, false_iff]
    rintro ⟨⟨a, b, c, d⟩, -⟩
    rcases h1 with h | h | h | h
    · exact h a
    · exact h b
    · exact h c
    · exact h d
  · simp only [Bool.false_eq_true, false_iff]
    rintro ⟨-, a, b, c, d⟩
    rcases h2 with h | h | h | h
    · exact absurd a (not_le.mpr h)
    · exact absurd b (not_le.mpr h)
    · exact absurd c (not_le.mpr h)
    · exact absurd d (not_le.mpr h)
  · simp only [true_iff]
    simp only [not_or, not_not, not_lt, gt_iff_lt] at h1 h2
    exact ⟨h1, h2⟩

/-! ## Extents accepted by `ValidateScaling` and `Config` -/

theorem ValidateScaling_small (rm : ResManager) (layer : Layer) (crop dst : LayerRect)
    (rx ry : ℚ)
    (h : dst.right - dst.left < 1 ∨ dst.bottom - dst.top < 1 ∨
      crop.right - crop.left < 1 ∨ crop.bottom - crop.top < 1) :
    rm.ValidateScaling layer crop dst rx ry = some (DisplayError.kErrorNotSupported, rx, ry) := by
  unfold ResManager.ValidateScaling
  by_cases hd : dst.right - dst.left < 1 ∨ dst.bottom - dst.top < 1
  · simp only [hd, if_true]
  · simp only [hd, if_false]
    have hc : crop.right - crop.left < 1 ∨ crop.bottom - crop.top < 1 := by tauto
    have hc2 : (if rm.IsRotationNeeded layer.transform.rotation = true then
          crop.bottom - crop.top else crop.right - crop.left) < 1 ∨
        (if rm.IsRotationNeeded layer.transform.rotation = true then
          crop.right - crop.left else crop.bottom - crop.top) < 1 := by
      cases rm.IsRotationNeeded layer.transform.rotation <;> simp <;> tauto
    simp only [hc2, if_true]

theorem ValidateScaling_ok_extents (rm : ResManager) (layer : Layer) (crop dst : LayerRect)
    (rx ry a b : ℚ)
    (h : rm.ValidateScaling layer crop dst rx ry = some (DisplayError.kErrorNone, a, b)) :
    1 ≤ crop.right - crop.left ∧ 1 ≤ crop.bottom - crop.top ∧
      1 ≤ dst.right - dst.left ∧ 1 ≤ dst.bottom - dst.top := by
  by_contra hn
  have hs : dst.right - dst.left < 1 ∨ dst.bottom - dst.top < 1 ∨
      crop.right - crop.left < 1 ∨ crop.bottom - crop.top < 1 := by
    simp only [not_and_or, not_le] at hn
    tauto
  rw [ValidateScaling_small rm layer crop dst rx ry hs] at h
  simp at h

theorem ConfigLayer_ok (rm : ResManager) (ctx : DisplayResourceContext) (i : ℕ)
    (hw hw1 : HWLayers) (rc rc1 : ℕ)
    (h : rm.ConfigLayer ctx i hw rc = some (DisplayError.kErrorNone, hw1, rc1)) :
    hw1.info = hw.info ∧ LayerExtentsOk rm ctx hw.info i := by
  unfold ResManager.ConfigLayer at h
  split at h
  · simp at h
  · rename_i idx hidx
    split at h
    · rename_i layer cfg hlayer hcfg
      by_cases hvalid : ResManager.IsValidDimension layer.src_rect layer.dst_rect = false
      · simp [hvalid] at h
      · simp only [hvalid, if_false] at h
        revert h
        cases hvs : rm.ValidateScaling layer
          (rm.CalculateCropRects (displayScissor ctx) layer.transform layer.src_rect
            layer.dst_rect).1
          (rm.CalculateCropRects (displayScissor ctx) layer.transform layer.src_rect
            layer.dst_rect).2 1 1 with
        | none => simp
        | some r =>
          obtain ⟨verr, rsx, rsy⟩ := r
          intro h
          by_cases hverr : verr = DisplayError.kErrorNone
          · subst hverr
            simp only [Bool.true_eq_false, if_false, ne_eq, not_true_eq_false,
              Option.some.injEq, Prod.mk.injEq] at h
            refine ⟨?_, idx, layer, hidx, hlayer, ?_⟩
            · rw [← h.2.1]
            · exact ValidateScaling_ok_extents rm layer _ _ 1 1 rsx rsy hvs
          · simp [hverr] at h
    · simp at h

theorem ConfigLoop_ok (rm : ResManager) (ctx : DisplayResourceContext) (n : ℕ) :
    ∀ (i : ℕ) (hw hw1 : HWLayers) (rc rc1 : ℕ),
      ResManager.ConfigLoop rm ctx n i hw rc = some (DisplayError.kErrorNone, hw1, rc1) →
      hw1.info = hw.info ∧ ∀ j, i ≤ j → j < i + n → LayerExtentsOk rm ctx hw.info j := by
  induction n with
  | zero =>
    intro i hw hw1 rc rc1 h
    simp only [ResManager.ConfigLoop, Option.some.injEq, Prod.mk.injEq, true_and] at h
    refine ⟨by rw [← h.1], ?_⟩
    intro j h1 h2
    omega
  | succ n ih =>
    intro i hw hw1 rc rc1 h
    simp only [ResManager.ConfigLoop] at h
    split at h
    · simp at h
    · rename_i err hw2 rc2 hlayer
      split_ifs at h with herr
      · simp only [Option.some.injEq, Prod.mk.injEq] at h
        exact absurd h.1 herr
      · simp only [ne_eq, not_not] at herr
        subst herr
        obtain ⟨hinfo2, hext⟩ := ConfigLayer_ok rm ctx i hw hw2 rc rc2 hlayer
        obtain ⟨hinfo1, hrest⟩ := ih (i + 1) hw2 hw1 rc2 rc1 h
        refine ⟨hinfo1.trans hinfo2, ?_⟩
        intro j h1 h2
        rcases Nat.eq_or_lt_of_le h1 with heq | hlt
        · subst heq; exact hext
        · rw [← hinfo2]
          exact hrest j hlt (by omega)

/-- C2: `ValidateScaling` returns `kErrorNotSupported` whenever the destination width or
height is below 1 or the crop width or height is below 1, whatever the layer, the transform
and the hardware capabilities; hence when `Config` accepts a frame, the source and the
destination of every layer of the frame, cropped to the display, extend over at least one
pixel on both axes. -/
theorem ValidateScaling_rejects_small_extents (rm : ResManager) :
    (∀ (layer : Layer) (crop dst : LayerRect) (rx ry : ℚ),
      (dst.right - dst.left < 1 ∨ dst.bottom - dst.top < 1 ∨
        crop.right - crop.left < 1 ∨ crop.bottom - crop.top < 1) →
      rm.ValidateScaling layer crop dst rx ry =
        some (DisplayError.kErrorNotSupported, rx, ry)) ∧
    (∀ (ctx : DisplayResourceContext) (hw hw1 : HWLayers) (rc rc1 : ℕ),
      rm.Config ctx hw rc = some (DisplayError.kErrorNone, hw1, rc1) →
      ∀ i, i < hw.info.count → LayerExtentsOk rm ctx hw.info i) := by
  refine ⟨fun layer crop dst rx ry h => ValidateScaling_small rm layer crop dst rx ry h, ?_⟩
  intro ctx hw hw1 rc rc1 h i hi
  exact (ConfigLoop_ok rm ctx hw.info.count 0 hw hw1 rc rc1 h).2 i (Nat.zero_le i) (by omega)

theorem ValidateScaling_rejects_small_extents_witness :
    sampleResManager.ValidateScaling sampleLayer
        { left := 0, top := 0, right := 100, bottom := 50 }
        { left := 0, top := 0, right := 1 / 2, bottom := 100 } 1 1 =
      some (DisplayError.kErrorNotSupported, 1, 1) ∧
    sampleResManager.Config sampleCtx sampleFrame 0 =
      some (DisplayError.kErrorNone, sampleFrameConfigured, 0) ∧
    LayerExtentsOk sampleResManager sampleCtx sampleFrame.info 0 :=
  ⟨(ValidateScaling_rejects_small_extents sampleResManager).1 sampleLayer _ _ 1 1
      (Or.inl (by norm_num)),
    by decide!,
    (ValidateScaling_rejects_small_extents sampleResManager).2 sampleCtx sampleFrame
      sampleFrameConfigured 0 0 (by decide!) 0 (by decide)⟩

/-! ## `SplitRect` -/

/-- C3: without horizontal flip `SplitRect` cuts source and destination at their horizontal
midpoints `mid_s = (src.left + src.right) / 2` and `mid_d = (dst.left + dst.right) / 2`: the
left pipe gets `[left, top, mid, bottom]` and the right pipe `[mid, top, right, bottom]` of
both rectangles.  The two halves share the edge at the midpoint, keep the outer edges, and
their widths add up to the width of the original, for the destination and for the source.
For source `[0,0,100,50]` and destination `[0,0,200,100]` the halves are source
`[0,0,50,50]`, destination `[0,0,100,100]` and source `[50,0,100,50]`, destination
`[100,0,200,100]`. -/
theorem SplitRect_no_flip :
    (∀ src dst : LayerRect,
      ResManager.SplitRect false src dst =
        { src_left :=
            { left := src.left, top := src.top, right := (src.left + src.right) / 2,
              bottom := src.bottom }
          dst_left :=
            { left := dst.left, top := dst.top, right := (dst.left + dst.right) / 2,
              bottom := dst.bottom }
          src_right :=
            { left := (src.left + src.right) / 2, top := src.top, right := src.right,
              bottom := src.bottom }
          dst_right :=
            { left := (dst.left + dst.right) / 2, top := dst.top, right := dst.right,
              bottom := dst.bottom } }) ∧
    (∀ src dst : LayerRect,
      (ResManager.SplitRect false src dst).dst_left.right =
          (ResManager.SplitRect false src dst).dst_right.left ∧
        (ResManager.SplitRect false src dst).dst_left.left = dst.left ∧
        (ResManager.SplitRect false src dst).dst_right.right = dst.right ∧
        ((ResManager.SplitRect false src dst).dst_left.right -
            (ResManager.SplitRect false src dst).dst_left.left) +
          ((ResManager.SplitRect false src dst).dst_right.right -
            (ResManager.SplitRect false src dst).dst_right.left) = dst.right - dst.left ∧
        (ResManager.SplitRect false src dst).src_left.right =
          (ResManager.SplitRect false src dst).src_right.left ∧
        (ResManager.SplitRect false src dst).src_left.left = src.left ∧
        (ResManager.SplitRect false src dst).src_right.right = src.right ∧
        ((ResManager.SplitRect false src dst).src_left.right -
            (ResManager.SplitRect false src dst).src_left.left) +
          ((ResManager.SplitRect false src dst).src_right.right -
            (ResManager.SplitRect false src dst).src_right.left) = src.right - src.left) ∧
    ResManager.SplitRect false { left := 0, top := 0, right := 100, bottom := 50 }
        { left := 0, top := 0, right := 200, bottom := 100 } =
      { src_left := { left := 0, top := 0, right := 50, bottom := 50 }
        dst_left := { left := 0, top := 0, right := 100, bottom := 100 }
        src_right := { left := 50, top := 0, right := 100, bottom := 50 }
        dst_right := { left := 100, top := 0, right := 200, bottom := 100 } } := by
  refine ⟨?_, ?_, ?_⟩
  · intro src dst
    simp only [ResManager.SplitRect, Bool.false_eq_true, if_false, SplitResult.mk.injEq,
      LayerRect.mk.injEq, true_and, and_true]
    refine ⟨?_, ?_, ?_, ?_⟩ <;> ring
  · intro src dst
    simp only [ResManager.SplitRect, Bool.false_eq_true, if_false, true_and]
    refine ⟨?_, ?_⟩ <;> ring
  · simp only [ResManager.SplitRect, Bool.false_eq_true, if_false, SplitResult.mk.injEq,
      LayerRect.mk.injEq, true_and, and_true]
    norm_num

/-- C4: with horizontal flip `SplitRect` returns the same two source halves as without, and
the two destination halves exchanged: the left pipe gets the right half of the destination,
the right pipe the left half.  For source `[0,0,100,50]` and destination `[0,0,200,100]`
the left destination is `[100,0,200,100]` and the right destination `[0,0,100,100]`. -/
theorem SplitRect_flip :
    (∀ src dst : LayerRect,
      (ResManager.SplitRect true src dst).src_left =
          (ResManager.SplitRect false src dst).src_left ∧
        (ResManager.SplitRect true src dst).src_right =
          (ResManager.SplitRect false src dst).src_right ∧
        (ResManager.SplitRect true src dst).dst_left =
          (ResManager.SplitRect false src dst).dst_right ∧
        (ResManager.SplitRect true src dst).dst_right =
          (ResManager.SplitRect false src dst).dst_left) ∧
    (ResManager.SplitRect true { left := 0, top := 0, right := 100, bottom := 50 }
        { left := 0, top := 0, right := 200, bottom := 100 }).dst_left =
      { left := 100, top := 0, right := 200, bottom := 100 } ∧
    (ResManager.SplitRect true { left := 0, top := 0, right := 100, bottom := 50 }
        { left := 0, top := 0, right := 200, bottom := 100 }).dst_right =
      { left := 0, top := 0, right := 100, bottom := 100 } := by
  refine ⟨?_, ?_, ?_⟩
  · intro src dst
    simp [ResManager.SplitRect]
  · simp only [ResManager.SplitRect, if_true, LayerRect.mk.injEq, true_and, and_true]
    norm_num
  · simp only [ResManager.SplitRect, if_true, LayerRect.mk.injEq, true_and, and_true]
    norm_num

/-! ## `CalculateCropRects` -/

/-- C5: when the destination lies inside the scissor on all four sides, `CalculateCropRects`
leaves the crop rectangle and the destination rectangle unchanged, for every transform. -/
theorem CalculateCropRects_inside (rm : ResManager) (scissor : LayerRect)
    (transform : LayerTransform) (crop dst : LayerRect)
    (hl : dst.left ≥ scissor.left) (hr : dst.right ≤ scissor.right)
    (ht : dst.top ≥ scissor.top) (hb : dst.bottom ≤ scissor.bottom) :
    rm.CalculateCropRects scissor transform crop dst = (crop, dst) := by
  unfold ResManager.CalculateCropRects
  simp only [not_lt.mpr hl, not_lt.mpr hr, not_lt.mpr ht, not_lt.mpr hb, gt_iff_lt, if_false,
    Bool.not_false, if_true]

theorem CalculateCropRects_inside_witness :
    (10 : ℚ) ≥ 0 ∧ (200 : ℚ) ≤ 1080 ∧ (20 : ℚ) ≥ 0 ∧ (100 : ℚ) ≤ 1920 ∧
    sampleResManager.CalculateCropRects
        { left := 0, top := 0, right := 1080, bottom := 1920 }
        { rotation := 90, flip_horizontal := true, flip_vertical := false }
        { left := 0, top := 0, right := 100, bottom := 50 }
        { left := 10, top := 20, right := 200, bottom := 100 } =
      ({ left := 0, top := 0, right := 100, bottom := 50 },
        { left := 10, top := 20, right := 200, bottom := 100 }) :=
  ⟨by norm_num, by norm_num, by norm_num, by norm_num,
    CalculateCropRects_inside sampleResManager _ _ _ _
      (by norm_num) (by norm_num) (by norm_num) (by norm_num)⟩

theorem CalculateCut_zero (rm : ResManager) (transform : LayerTransform) :
    rm.CalculateCut transform {} = {} := by
  unfold ResManager.CalculateCut
  split_ifs <;> rfl

theorem applyCuts_zero (crop : LayerRect) : applyCuts crop {} = crop := by
  simp [applyCuts]

/-- `CalculateCropRects` clips the destination and removes from the crop rectangle the cut
fractions, moved to the source sides by `CalculateCut`. -/
theorem CalculateCropRects_eq (rm : ResManager) (scissor : LayerRect)
    (transform : LayerTransform) (crop dst : LayerRect) :
    rm.CalculateCropRects scissor transform crop dst =
      (applyCuts crop (rm.CalculateCut transform (clipCuts scissor dst)),
        clipDst scissor dst) := by
  by_cases hcut : dst.left < scissor.left ∨ dst.right > scissor.right ∨
      dst.top < scissor.top ∨ dst.bottom > scissor.bottom
  · unfold ResManager.CalculateCropRects clipCuts clipDst applyCuts
    by_cases h1 : dst.left < scissor.left <;> by_cases h2 : dst.right > scissor.right <;>
      by_cases h3 : dst.top < scissor.top <;> by_cases h4 : dst.bottom > scissor.bottom <;>
      first
        | (exfalso; tauto)
        | simp [h1, h2, h3, h4]
  · simp only [not_or, not_lt, gt_iff_lt] at hcut
    obtain ⟨h1, h2, h3, h4⟩ := hcut
    have hc : clipCuts scissor dst = {} := by
      simp [clipCuts, not_lt.mpr h1, not_lt.mpr h2, not_lt.mpr h3, not_lt.mpr h4]
    have hd : clipDst scissor dst = dst := by
      simp [clipDst, not_lt.mpr h1, not_lt.mpr h2, not_lt.mpr h3, not_lt.mpr h4]
    rw [hc, hd, CalculateCut_zero, applyCuts_zero]
    unfold ResManager.CalculateCropRects
    simp only [not_lt.mpr h1, not_lt.mpr h2, not_lt.mpr h3, not_lt.mpr h4, gt_iff_lt,
      if_false, Bool.not_false, if_true]

/-- `CalculateCut` keeps the two per-axis sums of cut fractions, possibly exchanged. -/
theorem CalculateCut_sums (rm : ResManager) (transform : LayerTransform) (c : CutRatios) :
    ((rm.CalculateCut transform c).left + (rm.CalculateCut transform c).right =
        c.left + c.right ∧
      (rm.CalculateCut transform c).top + (rm.CalculateCut transform c).bottom =
        c.top + c.bottom) ∨
    ((rm.CalculateCut transform c).left + (rm.CalculateCut transform c).right =
        c.top + c.bottom ∧
      (rm.CalculateCut transform c).top + (rm.CalculateCut transform c).bottom =
        c.left + c.right) := by
  unfold ResManager.CalculateCut
  split_ifs <;>
    first
      | (left; refine ⟨?_, ?_⟩ <;> ((try dsimp only) <;> ring1))
      | (right; refine ⟨?_, ?_⟩ <;> ((try dsimp only) <;> ring1))

theorem clip_width_fraction (scissor dst : LayerRect) (hw : 0 < dst.right - dst.left) :
    1 - ((clipCuts scissor dst).left + (clipCuts scissor dst).right) =
      ((clipDst scissor dst).right - (clipDst scissor dst).left) / (dst.right - dst.left) := by
  have hne : dst.right - dst.left ≠ 0 := ne_of_gt hw
  unfold clipCuts clipDst
  simp only
  split_ifs <;> first | (field_simp; ring1) | field_simp

theorem clip_height_fraction (scissor dst : LayerRect) (hh : 0 < dst.bottom - dst.top) :
    1 - ((clipCuts scissor dst).top + (clipCuts scissor dst).bottom) =
      ((clipDst scissor dst).bottom - (clipDst scissor dst).top) / (dst.bottom - dst.top) := by
  have hne : dst.bottom - dst.top ≠ 0 := ne_of_gt hh
  unfold clipCuts clipDst
  simp only
  split_ifs <;> first | (field_simp; ring1) | field_simp

theorem clipDst_width_le (scissor dst : LayerRect) :
    (clipDst scissor dst).right - (clipDst scissor dst).left ≤ dst.right - dst.left := by
  unfold clipDst
  simp only
  split_ifs <;> linarith

theorem clipDst_height_le (scissor dst : LayerRect) :
    (clipDst scissor dst).bottom - (clipDst scissor dst).top ≤ dst.bottom - dst.top := by
  unfold clipDst
  simp only
  split_ifs <;> linarith

theorem mul_le_one_of_le_one (x y : ℚ) (hx : x ≤ 1) (hy : y ≤ 1) (h : 0 ≤ x ∨ 0 ≤ y) :
    x * y ≤ 1 := by
  rcases h with h | h
  · rcases le_or_lt 0 y with hy0 | hy0
    · nlinarith
    · nlinarith
  · rcases le_or_lt 0 x with hx0 | hx0
    · nlinarith
    · nlinarith

theorem applyCuts_area (crop : LayerRect) (c : CutRatios) :
    (applyCuts crop c).area =
      crop.area * ((1 - (c.left + c.right)) * (1 - (c.top + c.bottom))) := by
  simp only [applyCuts, LayerRect.area]
  ring

theorem CalculateCropRects_area_le_aux (rm : ResManager) (scissor : LayerRect)
    (transform : LayerTransform) (crop dst : LayerRect)
    (hcl : crop.left ≤ crop.right) (hct : crop.top ≤ crop.bottom)
    (hw : 0 < dst.right - dst.left) (hh : 0 < dst.bottom - dst.top)
    (hclip : (rm.CalculateCropRects scissor transform crop dst).2.left ≤
        (rm.CalculateCropRects scissor transform crop dst).2.right ∨
      (rm.CalculateCropRects scissor transform crop dst).2.top ≤
        (rm.CalculateCropRects scissor transform crop dst).2.bottom) :
    (rm.CalculateCropRects scissor transform crop dst).1.area ≤ crop.area := by
  rw [CalculateCropRects_eq] at hclip ⊢
  simp only at hclip ⊢
  rw [applyCuts_area]
  have harea : 0 ≤ crop.area := by
    unfold LayerRect.area
    exact mul_nonneg (by linarith) (by linarith)
  have hX := clip_width_fraction scissor dst hw
  have hY := clip_height_fraction scissor dst hh
  have hX1 : 1 - ((clipCuts scissor dst).left + (clipCuts scissor dst).right) ≤ 1 := by
    rw [hX, div_le_one hw]
    exact clipDst_width_le scissor dst
  have hY1 : 1 - ((clipCuts scissor dst).top + (clipCuts scissor dst).bottom) ≤ 1 := by
    rw [hY, div_le_one hh]
    exact clipDst_height_le scissor dst
  have hXY : 0 ≤ 1 - ((clipCuts scissor dst).left + (clipCuts scissor dst).right) ∨
      0 ≤ 1 - ((clipCuts scissor dst).top + (clipCuts scissor dst).bottom) := by
    rcases hclip with h | h
    · left
      rw [hX]
      exact div_nonneg (by linarith) hw.le
    · right
      rw [hY]
      exact div_nonneg (by linarith) hh.le
  have hprod : (1 - ((rm.CalculateCut transform (clipCuts scissor dst)).left +
        (rm.CalculateCut transform (clipCuts scissor dst)).right)) *
      (1 - ((rm.CalculateCut transform (clipCuts scissor dst)).top +
        (rm.CalculateCut transform (clipCuts scissor dst)).bottom)) ≤ 1 := by
    rcases CalculateCut_sums rm transform (clipCuts scissor dst) with ⟨h1, h2⟩ | ⟨h1, h2⟩
    · rw [h1, h2]
      exact mul_le_one_of_le_one _ _ hX1 hY1 hXY
    · rw [h1, h2]
      exact mul_le_one_of_le_one _ _ hY1 hX1 hXY.symm
  exact mul_le_of_le_one_right harea hprod

/-- C6 (as amended): for every scissor and transform, and every crop and destination
rectangle with `left ≤ right`, `top ≤ bottom` and positive destination width and height, the
area of the crop rectangle returned by `CalculateCropRects` is at most the area of the input
crop rectangle, provided the clipped destination is not inverted on both axes at once (as
when the destination overlaps the scissor). -/
theorem CalculateCropRects_area_le (rm : ResManager) (scissor : LayerRect)
    (transform : LayerTransform) (crop dst : LayerRect)
    (hcl : crop.left ≤ crop.right) (hct : crop.top ≤ crop.bottom)
    (hw : 0 < dst.right - dst.left) (hh : 0 < dst.bottom - dst.top)
    (hclip : (rm.CalculateCropRects scissor transform crop dst).2.left ≤
        (rm.CalculateCropRects scissor transform crop dst).2.right ∨
      (rm.CalculateCropRects scissor transform crop dst).2.top ≤
        (rm.CalculateCropRects scissor transform crop dst).2.bottom) :
    (rm.CalculateCropRects scissor transform crop dst).1.area ≤ crop.area :=
  CalculateCropRects_area_le_aux rm scissor transform crop dst hcl hct hw hh hclip

theorem CalculateCropRects_area_le_witness :
    (0 : ℚ) ≤ 100 ∧ (0 : ℚ) ≤ 50 ∧ (0 : ℚ) < 100 - (-100) ∧ (0 : ℚ) < 100 - 0 ∧
    sampleResManager.CalculateCropRects (displayScissor sampleCtx) {}
        { left := 0, top := 0, right := 100, bottom := 50 }
        { left := -100, top := 0, right := 100, bottom := 100 } =
      ({ left := 50, top := 0, right := 100, bottom := 50 },
        { left := 0, top := 0, right := 100, bottom := 100 }) ∧
    (sampleResManager.CalculateCropRects (displayScissor sampleCtx) {}
        { left := 0, top := 0, right := 100, bottom := 50 }
        { left := -100, top := 0, right := 100, bottom := 100 }).1.area ≤
      LayerRect.area { left := 0, top := 0, right := 100, bottom := 50 } :=
  ⟨by norm_num, by norm_num, by norm_num, by norm_num, by decide!,
    CalculateCropRects_area_le sampleResManager (displayScissor sampleCtx) {}
      { left := 0, top := 0, right := 100, bottom := 50 }
      { left := -100, top := 0, right := 100, bottom := 100 }
      (by norm_num) (by norm_num) (by norm_num) (by norm_num) (Or.inl (by decide!))⟩

/-- C6 fails as stated: a 10 x 10 layer shown at `[-30, -30, -20, -20]`, above and to the
left of the 1080 x 1920 display, has crop `[0, 0, 10, 10]`, of area 100, turned into
`[30, 30, 10, 10]`, whose width and height are both -20 and whose area is 400. -/
theorem CalculateCropRects_area_counterexample :
    (0 : ℚ) ≤ 10 ∧ (-30 : ℚ) ≤ -20 ∧ (0 : ℚ) < -20 - (-30) ∧
    sampleResManager.CalculateCropRects (displayScissor sampleCtx) {}
        { left := 0, top := 0, right := 10, bottom := 10 }
        { left := -30, top := -30, right := -20, bottom := -20 } =
      ({ left := 30, top := 30, right := 10, bottom := 10 },
        { left := 0, top := 0, right := -20, bottom := -20 }) ∧
    LayerRect.area { left := 0, top := 0, right := 10, bottom := 10 } = 100 ∧
    (sampleResManager.CalculateCropRects (displayScissor sampleCtx) {}
        { left := 0, top := 0, right := 10, bottom := 10 }
        { left := -30, top := -30, right := -20, bottom := -20 }).1.area = 400 ∧
    ¬ (sampleResManager.CalculateCropRects (displayScissor sampleCtx) {}
        { left := 0, top := 0, right := 10, bottom := 10 }
        { left := -30, top := -30, right := -20, bottom := -20 }).1.area ≤
      LayerRect.area { left := 0, top := 0, right := 10, bottom := 10 } := by
  refine ⟨by norm_num, by norm_num, by norm_num, by decide!, by decide!, by decide!,
    by decide!⟩

/-! ## `SetDecimationFactor` -/

/-- With a `log2f` that rounds, the exponent of `SetDecimationFactor` can exceed the exact
one: for `max_scale_down = 3` and a vertical downscale of 6 the two binary32 logarithms
differ by `1 + 2 ^ (-23)`, so the decimation is 4, although `6 / 2 ≤ 3`. -/
theorem SetDecimationFactor_rounding_eval :
    sampleResManagerDown3.hw_res_info_.max_scale_down = 3 ∧
    samplePipe6.downScale binary32Ops = 6 ∧
    binary32Ops.sub (sampleCMath.log2f 6) (sampleCMath.log2f 3) = 8388609 / 8388608 ∧
    samplePipe6.decimationFactor sampleResManagerDown3 binary32Ops sampleCMath = 2 ∧
    (sampleResManagerDown3.SetDecimationFactor binary32Ops sampleCMath
      samplePipe6).decimation = 4 ∧
    samplePipe6.downScale binary32Ops / 2 ^ 1 ≤ (3 : ℚ) := by
  refine ⟨rfl, by decide!, by decide!, by decide!, by decide!, by decide!⟩

end sde

namespace sdm

/-! ## `SetRotation` -/

/-- C8 fails as stated: for rotation 90 without flips in inline mode `SetRotation` sets both
flip bits next to `ROT_90`; with `ROT_90 = 4`, `FLIP_H = 1`, `FLIP_V = 2` the mask is 7, not
`ROT_90`. -/
theorem SetRotation_inline_counterexample :
    HWDeviceDRM.SetRotation sampleRotation
        { rotation := 90, flip_horizontal := false, flip_vertical := false }
        HWRotatorMode.kRotatorInline 0 = 7 ∧
    HWDeviceDRM.SetRotation sampleRotation
        { rotation := 90, flip_horizontal := false, flip_vertical := false }
        HWRotatorMode.kRotatorInline 0 ≠ sampleRotation.ROT_90 := by
  constructor <;> decide!

/-- C8 (as amended): for rotator mode inline and an initial bitmask of 0, `SetRotation`
produces `{rotation 0, no flip} -> 0`, `{rotation 90, no flip} -> ROT_90 | FLIP_H | FLIP_V`,
`{rotation 0, horizontal flip} -> FLIP_H`, `{rotation 90, horizontal flip} ->
ROT_90 | FLIP_V`; in general, for rotation 90 the mask is `ROT_90` with the bit of every
flip that is *not* requested, and for any other rotation it is the bits of the requested
flips. -/
theorem SetRotation_inline_table (rot : DRMRotation) :
    HWDeviceDRM.SetRotation rot
        { rotation := 0, flip_horizontal := false, flip_vertical := false }
        HWRotatorMode.kRotatorInline 0 = 0 ∧
    HWDeviceDRM.SetRotation rot
        { rotation := 90, flip_horizontal := false, flip_vertical := false }
        HWRotatorMode.kRotatorInline 0 = rot.ROT_90 ||| rot.FLIP_H ||| rot.FLIP_V ∧
    HWDeviceDRM.SetRotation rot
        { rotation := 0, flip_horizontal := true, flip_vertical := false }
        HWRotatorMode.kRotatorInline 0 = rot.FLIP_H ∧
    HWDeviceDRM.SetRotation rot
        { rotation := 90, flip_horizontal := true, flip_vertical := false }
        HWRotatorMode.kRotatorInline 0 = rot.ROT_90 ||| rot.FLIP_V ∧
    ∀ t : LayerTransform,
      HWDeviceDRM.SetRotation rot t HWRotatorMode.kRotatorInline 0 =
        if t.rotation = 90 then
          (rot.ROT_90 ||| (if t.flip_horizontal then 0 else rot.FLIP_H)) |||
            (if t.flip_vertical then 0 else rot.FLIP_V)
        else
          (if t.flip_horizontal then rot.FLIP_H else 0) |||
            (if t.flip_vertical then rot.FLIP_V else 0) := by
  refine ⟨?_, ?_, ?_, ?_, ?_⟩
  · simp [HWDeviceDRM.SetRotation]
  · simp [HWDeviceDRM.SetRotation]
  · simp [HWDeviceDRM.SetRotation]
  · simp [HWDeviceDRM.SetRotation]
  · rintro ⟨r, h, v⟩
    by_cases h90 : r = 90 <;> cases h <;> cases v <;> simp [HWDeviceDRM.SetRotation, h90]

/-- C9: in offline rotator mode `SetRotation` sets the rotation bitmask to 0, for every
transform and every prior value of the bitmask. -/
theorem SetRotation_offline (rot : DRMRotation) (transform : LayerTransform)
    (rot_bit_mask : ℕ) :
    HWDeviceDRM.SetRotation rot transform HWRotatorMode.kRotatorOffline rot_bit_mask = 0 := by
  simp [HWDeviceDRM.SetRotation]

end sdm

namespace sdm

/-! ## The framebuffer registry -/

theorem mapFind_append_self (m : List (ℤ × ℕ)) (fd : ℤ) (id : ℕ) :
    mapFind (m ++ [(fd, id)]) fd ≠ none := by
  unfold mapFind
  simp only [ne_eq, Option.map_eq_none', List.find?_eq_none, not_forall]
  exact ⟨(fd, id), by simp⟩

theorem mapFind_append_of_ne_none (m : List (ℤ × ℕ)) (fd : ℤ) (p : ℤ × ℕ)
    (h : mapFind m fd ≠ none) : mapFind (m ++ [p]) fd ≠ none := by
  unfold mapFind at h ⊢
  simp only [ne_eq, Option.map_eq_none', List.find?_eq_none, not_forall] at h ⊢
  obtain ⟨x, hx, hx2⟩ := h
  exact ⟨x, List.mem_append_left _ hx, hx2⟩

theorem currMap_set (reg : Registry) (m : List (ℤ × ℕ))
    (hwf : reg.current_index_ < reg.hashmap_.length) :
    Registry.currMap { reg with hashmap_ := reg.hashmap_.set reg.current_index_ m } = m := by
  simp [Registry.currMap, List.getD_eq_getElem?_getD, List.getElem?_set, hwf]

theorem MapBufferToFbId_eq (env : RegistryEnv) (st : Registry × DRMMaster)
    (buffer : LayerBuffer) :
    Registry.MapBufferToFbId env st buffer =
      if (!env.master) = true then st
      else if buffer.fd ≥ 0 ∧ mapFind st.1.currMap buffer.fd = none then
        if (env.CreateFbId st.2.created.length (bufferLayout env buffer)).1 < 0 then
          (st.1, { st.2 with created := st.2.created ++ [bufferLayout env buffer] })
        else
          ({ st.1 with
              hashmap_ := st.1.hashmap_.set st.1.current_index_
                (st.1.currMap ++ [(buffer.fd,
                  (env.CreateFbId st.2.created.length (bufferLayout env buffer)).2)]) },
            { st.2 with created := st.2.created ++ [bufferLayout env buffer] })
      else st := by
  rfl

theorem MapBufferToFbId_of_mapped (env : RegistryEnv) (st : Registry × DRMMaster)
    (buffer : LayerBuffer) (h : Mapped st buffer.fd) :
    Registry.MapBufferToFbId env st buffer = st := by
  rw [MapBufferToFbId_eq]
  have hc : ¬ (buffer.fd ≥ 0 ∧ mapFind st.1.currMap buffer.fd = none) := by
    rintro ⟨h1, h2⟩
    rcases h with h | h
    · omega
    · exact h h2
  simp only [hc, if_false, ite_self]

theorem MapBufferToFbId_index (env : RegistryEnv) (st : Registry × DRMMaster)
    (buffer : LayerBuffer) :
    (Registry.MapBufferToFbId env st buffer).1.current_index_ = st.1.current_index_ ∧
      (Registry.MapBufferToFbId env st buffer).1.hashmap_.length = st.1.hashmap_.length := by
  rw [MapBufferToFbId_eq]
  split_ifs <;> simp

theorem MapBufferToFbId_mono (env : RegistryEnv) (st : Registry × DRMMaster)
    (buffer : LayerBuffer) (hwf : st.1.current_index_ < st.1.hashmap_.length) (fd : ℤ)
    (h : Mapped st fd) : Mapped (Registry.MapBufferToFbId env st buffer) fd := by
  rw [MapBufferToFbId_eq]
  split_ifs
  · exact h
  · exact h
  · rcases h with h | h
    · exact Or.inl h
    · right
      simp only
      rw [currMap_set st.1 _ hwf]
      exact mapFind_append_of_ne_none _ _ _ h
  · exact h

theorem MapBufferToFbId_mapped (env : RegistryEnv) (st : Registry × DRMMaster)
    (buffer : LayerBuffer) (hmaster : env.master = true)
    (hwf : st.1.current_index_ < st.1.hashmap_.length)
    (hok : 0 ≤ (env.CreateFbId st.2.created.length (bufferLayout env buffer)).1) :
    Mapped (Registry.MapBufferToFbId env st buffer) buffer.fd := by
  rw [MapBufferToFbId_eq]
  simp only [hmaster, Bool.not_true, Bool.false_eq_true, if_false, not_lt.mpr hok]
  split_ifs with hc
  · right
    simp only
    rw [currMap_set st.1 _ hwf]
    exact mapFind_append_self _ _ _
  · unfold Mapped
    by_contra hn
    simp only [not_or, not_lt, ne_eq, not_not] at hn
    exact hc ⟨hn.1, hn.2⟩

theorem MapBufferToFbId_fresh (env : RegistryEnv) (st : Registry × DRMMaster)
    (buffer : LayerBuffer) (hmaster : env.master = true) (hfd : 0 ≤ buffer.fd)
    (hnew : mapFind st.1.currMap buffer.fd = none) :
    (Registry.MapBufferToFbId env st buffer).2.created =
      st.2.created ++ [bufferLayout env buffer] := by
  rw [MapBufferToFbId_eq]
  have hc : buffer.fd ≥ 0 ∧ mapFind st.1.currMap buffer.fd = none := ⟨hfd, hnew⟩
  simp only [hmaster, Bool.not_true, Bool.false_eq_true, if_false, hc, and_self, if_true]
  split_ifs <;> rfl

theorem RegisterLayer_eq (env : RegistryEnv) (st : Registry × DRMMaster)
    (layer : LayerBuffer) (session : HWRotatorSession) :
    Registry.RegisterLayer env st layer session =
      if session.mode = HWRotatorMode.kRotatorInline ∧ session.valid = true ∧
          session.output_buffer.fd ≥ 0 then
        Registry.MapBufferToFbId env
          (Registry.MapBufferToFbId env st (firstBuffer layer session)) session.output_buffer
      else
        Registry.MapBufferToFbId env st (firstBuffer layer session) := by
  rfl

/-- Every buffer that `RegisterLayer` maps for the layer needs no `CreateFbId` call. -/
theorem LayerMapped_def (st : Registry × DRMMaster) (layer : LayerBuffer)
    (session : HWRotatorSession) :
    (Mapped st (firstBuffer layer session).fd ∧
      (session.mode = HWRotatorMode.kRotatorInline ∧ session.valid = true ∧
        session.output_buffer.fd ≥ 0 → Mapped st session.output_buffer.fd)) ↔
    (Mapped st (firstBuffer layer session).fd ∧
      (session.mode = HWRotatorMode.kRotatorInline → session.valid = true →
        Mapped st session.output_buffer.fd)) := by
  constructor
  · rintro ⟨h1, h2⟩
    refine ⟨h1, fun hm hv => ?_⟩
    by_cases hfd : session.output_buffer.fd ≥ 0
    · exact h2 ⟨hm, hv, hfd⟩
    · exact Or.inl (by omega)
  · rintro ⟨h1, h2⟩
    exact ⟨h1, fun h => h2 h.1 h.2.1⟩

theorem RegisterLayer_of_mapped (env : RegistryEnv) (st : Registry × DRMMaster)
    (layer : LayerBuffer) (session : HWRotatorSession)
    (h1 : Mapped st (firstBuffer layer session).fd)
    (h2 : session.mode = HWRotatorMode.kRotatorInline → session.valid = true →
      Mapped st session.output_buffer.fd) :
    Registry.RegisterLayer env st layer session = st := by
  rw [RegisterLayer_eq]
  split_ifs with hc
  · rw [MapBufferToFbId_of_mapped env st _ h1, MapBufferToFbId_of_mapped env st _ (h2 hc.1 hc.2.1)]
  · exact MapBufferToFbId_of_mapped env st _ h1

theorem RegisterLayer_index (env : RegistryEnv) (st : Registry × DRMMaster)
    (layer : LayerBuffer) (session : HWRotatorSession) :
    (Registry.RegisterLayer env st layer session).1.current_index_ = st.1.current_index_ ∧
      (Registry.RegisterLayer env st layer session).1.hashmap_.length =
        st.1.hashmap_.length := by
  rw [RegisterLayer_eq]
  split_ifs
  · have a := MapBufferToFbId_index env st (firstBuffer layer session)
    have b := MapBufferToFbId_index env
      (Registry.MapBufferToFbId env st (firstBuffer layer session)) session.output_buffer
    exact ⟨b.1.trans a.1, b.2.trans a.2⟩
  · exact MapBufferToFbId_index env st (firstBuffer layer session)

theorem RegisterLayer_mono (env : RegistryEnv) (st : Registry × DRMMaster)
    (layer : LayerBuffer) (session : HWRotatorSession)
    (hwf : st.1.current_index_ < st.1.hashmap_.length) (fd : ℤ) (h : Mapped st fd) :
    Mapped (Registry.RegisterLayer env st layer session) fd := by
  have a := MapBufferToFbId_index env st (firstBuffer layer session)
  have hwf1 : (Registry.MapBufferToFbId env st (firstBuffer layer session)).1.current_index_ <
      (Registry.MapBufferToFbId env st (firstBuffer layer session)).1.hashmap_.length := by
    rw [a.1, a.2]; exact hwf
  rw [RegisterLayer_eq]
  split_ifs
  · exact MapBufferToFbId_mono env _ _ hwf1 fd (MapBufferToFbId_mono env st _ hwf fd h)
  · exact MapBufferToFbId_mono env st _ hwf fd h

theorem RegisterLayer_mapped (env : RegistryEnv) (st : Registry × DRMMaster)
    (layer : LayerBuffer) (session : HWRotatorSession) (hmaster : env.master = true)
    (hwf : st.1.current_index_ < st.1.hashmap_.length)
    (hok : ∀ n l, 0 ≤ (env.CreateFbId n l).1) :
    Mapped (Registry.RegisterLayer env st layer session) (firstBuffer layer session).fd ∧
      (session.mode = HWRotatorMode.kRotatorInline → session.valid = true →
        Mapped (Registry.RegisterLayer env st layer session) session.output_buffer.fd) := by
  have a := MapBufferToFbId_index env st (firstBuffer layer session)
  have hwf1 : (Registry.MapBufferToFbId env st (firstBuffer layer session)).1.current_index_ <
      (Registry.MapBufferToFbId env st (firstBuffer layer session)).1.hashmap_.length := by
    rw [a.1, a.2]; exact hwf
  have hfirst := MapBufferToFbId_mapped env st (firstBuffer layer session) hmaster hwf
    (hok _ _)
  rw [RegisterLayer_eq]
  split_ifs with hc
  · refine ⟨MapBufferToFbId_mono env _ _ hwf1 _ hfirst, fun _ _ => ?_⟩
    exact MapBufferToFbId_mapped env _ session.output_buffer hmaster hwf1 (hok _ _)
  · refine ⟨hfirst, fun hm hv => ?_⟩
    have hneg : session.output_buffer.fd < 0 := by
      by_contra hn
      exact hc ⟨hm, hv, by omega⟩
    exact Or.inl hneg

/-- After a `Register` loop in which the driver accepts every `CreateFbId` call, running the
same loop again reaches no `CreateFbId` call and changes nothing. -/
theorem RegisterLoop_again (env : RegistryEnv) (config : List HWRotatorSession)
    (hmaster : env.master = true) (hok : ∀ n l, 0 ≤ (env.CreateFbId n l).1)
    (layers : List LayerBuffer) :
    ∀ (i : ℕ) (st st1 : Registry × DRMMaster),
      st.1.current_index_ < st.1.hashmap_.length →
      Registry.RegisterLoop env config layers i st = some st1 →
      (st1.1.current_index_ = st.1.current_index_ ∧
        st1.1.hashmap_.length = st.1.hashmap_.length) ∧
      (∀ fd, Mapped st fd → Mapped st1 fd) ∧
      ∀ st2 : Registry × DRMMaster, (∀ fd, Mapped st1 fd → Mapped st2 fd) →
        Registry.RegisterLoop env config layers i st2 = some st2 := by
  induction layers with
  | nil =>
    intro i st st1 _ h
    simp only [Registry.RegisterLoop, Option.some.injEq] at h
    subst h
    exact ⟨⟨rfl, rfl⟩, fun _ h => h, fun st2 _ => rfl⟩
  | cons layer rest ih =>
    intro i st st1 hwf h
    simp only [Registry.RegisterLoop] at h ⊢
    cases hcfg : config[i]? with
    | none => simp [hcfg] at h
    | some session =>
      simp only [hcfg] at h ⊢
      have hidx := RegisterLayer_index env st layer session
      have hwf1 : (Registry.RegisterLayer env st layer session).1.current_index_ <
          (Registry.RegisterLayer env st layer session).1.hashmap_.length := by
        rw [hidx.1, hidx.2]; exact hwf
      obtain ⟨hi, hmono, hagain⟩ := ih (i + 1) _ st1 hwf1 h
      refine ⟨⟨hi.1.trans hidx.1, hi.2.trans hidx.2⟩, ?_, ?_⟩
      · intro fd hfd
        exact hmono fd (RegisterLayer_mono env st layer session hwf fd hfd)
      · intro st2 h2
        have hm := RegisterLayer_mapped env st layer session hmaster hwf hok
        rw [RegisterLayer_of_mapped env st2 layer session (h2 _ (hmono _ hm.1))
          (fun a b => h2 _ (hmono _ (hm.2 a b)))]
        exact hagain st2 h2

theorem MapBufferToFbId_twice_aux (env : RegistryEnv) (hmaster : env.master = true) :
    (∀ (st : Registry × DRMMaster) (buffer : LayerBuffer),
      0 ≤ buffer.fd →
      st.1.current_index_ < st.1.hashmap_.length →
      mapFind st.1.currMap buffer.fd = none →
      0 ≤ (env.CreateFbId st.2.created.length (bufferLayout env buffer)).1 →
      (Registry.MapBufferToFbId env st buffer).2.created =
          st.2.created ++ [bufferLayout env buffer] ∧
        Registry.MapBufferToFbId env (Registry.MapBufferToFbId env st buffer) buffer =
          Registry.MapBufferToFbId env st buffer) ∧
    (∀ (st st1 : Registry × DRMMaster) (hw_layers : HWLayers),
      st.1.current_index_ < st.1.hashmap_.length →
      (∀ n l, 0 ≤ (env.CreateFbId n l).1) →
      Registry.Register env st hw_layers = some st1 →
      Registry.Register env st1 hw_layers = some st1) := by
  constructor
  · intro st buffer hfd hwf hnew hok
    refine ⟨MapBufferToFbId_fresh env st buffer hmaster hfd hnew, ?_⟩
    exact MapBufferToFbId_of_mapped env _ buffer
      (MapBufferToFbId_mapped env st buffer hmaster hwf hok)
  · intro st st1 hw_layers hwf hok h
    exact (RegisterLoop_again env hw_layers.config hmaster hok hw_layers.hw_layers 0 st st1
      hwf h).2.2 st1 (fun _ h => h)

/-- C10 (as amended): with a DRM master available, for every buffer with `fd ≥ 0` that the
current generation of a registry does not hold yet, if the driver accepts the `CreateFbId`
call, then mapping the buffer twice with nothing in between performs exactly one
`CreateFbId` call, made by the first `MapBufferToFbId`; the second leaves the registry and
the driver unchanged.  Likewise a second `Register` of a frame makes no driver call and
changes nothing when the driver accepts every `CreateFbId` call. -/
theorem MapBufferToFbId_twice (env : RegistryEnv) (hmaster : env.master = true) :
    (∀ (st : Registry × DRMMaster) (buffer : LayerBuffer),
      0 ≤ buffer.fd →
      st.1.current_index_ < st.1.hashmap_.length →
      mapFind st.1.currMap buffer.fd = none →
      0 ≤ (env.CreateFbId st.2.created.length (bufferLayout env buffer)).1 →
      (Registry.MapBufferToFbId env st buffer).2.created =
          st.2.created ++ [bufferLayout env buffer] ∧
        Registry.MapBufferToFbId env (Registry.MapBufferToFbId env st buffer) buffer =
          Registry.MapBufferToFbId env st buffer) ∧
    (∀ (st st1 : Registry × DRMMaster) (hw_layers : HWLayers),
      st.1.current_index_ < st.1.hashmap_.length →
      (∀ n l, 0 ≤ (env.CreateFbId n l).1) →
      Registry.Register env st hw_layers = some st1 →
      Registry.Register env st1 hw_layers = some st1) :=
  MapBufferToFbId_twice_aux env hmaster

end sdm

namespace sdm

theorem MapBufferToFbId_twice_witness :
    sampleEnv.master = true ∧ 0 ≤ sampleBuffer.fd ∧
    mapFind sampleState.1.currMap sampleBuffer.fd = none ∧
    Registry.MapBufferToFbId sampleEnv sampleState sampleBuffer = sampleStateRegistered ∧
    ((Registry.MapBufferToFbId sampleEnv sampleState sampleBuffer).2.created =
        sampleState.2.created ++ [bufferLayout sampleEnv sampleBuffer] ∧
      Registry.MapBufferToFbId sampleEnv
          (Registry.MapBufferToFbId sampleEnv sampleState sampleBuffer) sampleBuffer =
        Registry.MapBufferToFbId sampleEnv sampleState sampleBuffer) ∧
    Registry.Register sampleEnv sampleState sampleHWLayers = some sampleStateRegistered ∧
    Registry.Register sampleEnv sampleStateRegistered sampleHWLayers =
      some sampleStateRegistered :=
  ⟨rfl, by decide, by decide!, by decide!,
    (MapBufferToFbId_twice sampleEnv rfl).1 sampleState sampleBuffer (by decide) (by decide)
      (by decide!) (by decide!),
    by decide!,
    (MapBufferToFbId_twice sampleEnv rfl).2 sampleState sampleStateRegistered sampleHWLayers
      (by decide) (fun _ _ => le_refl 0) (by decide!)⟩

/-- C10 fails as stated: when the driver refuses the first `CreateFbId` call, the fd is not
cached, so mapping the buffer with fd 5 twice makes two `CreateFbId` calls, and the second
mapping changes the registry (it stores the id 101 for fd 5). -/
theorem MapBufferToFbId_twice_counterexample :
    sampleEnvFailFirst.master = true ∧ 0 ≤ sampleBuffer.fd ∧
    (Registry.MapBufferToFbId sampleEnvFailFirst
        (Registry.MapBufferToFbId sampleEnvFailFirst sampleState sampleBuffer)
        sampleBuffer).2.created.length = 2 ∧
    (Registry.MapBufferToFbId sampleEnvFailFirst sampleState sampleBuffer).1 = sampleState.1 ∧
    (Registry.MapBufferToFbId sampleEnvFailFirst
        (Registry.MapBufferToFbId sampleEnvFailFirst sampleState sampleBuffer)
        sampleBuffer).1.hashmap_ = [[(5, 101)], [], []] ∧
    Registry.MapBufferToFbId sampleEnvFailFirst
        (Registry.MapBufferToFbId sampleEnvFailFirst sampleState sampleBuffer) sampleBuffer ≠
      Registry.MapBufferToFbId sampleEnvFailFirst sampleState sampleBuffer := by
  refine ⟨rfl, by decide, by decide!, by decide!, by decide!, by decide!⟩

end sdm

namespace sdm

/-! ## `Registry::Clear` -/

theorem add_mod_ne_self (N idx k : ℕ) (hidx : idx < N) (hk0 : 0 < k) (hk : k < N) :
    (idx + k) % N ≠ idx := by
  rcases Nat.lt_or_ge (idx + k) N with h | h
  · rw [Nat.mod_eq_of_lt h]; omega
  · rw [Nat.mod_eq_sub_mod h, Nat.mod_eq_of_lt (by omega)]; omega

theorem Unregister_eq (env : RegistryEnv) (hmaster : env.master = true)
    (st : Registry × DRMMaster) :
    Registry.Unregister env st =
      ({ st.1 with hashmap_ := st.1.hashmap_.set st.1.current_index_ [] },
        { st.2 with removed := st.2.removed ++ st.1.genIds st.1.current_index_ }) := by
  simp [Registry.Unregister, hmaster, Registry.genIds, Registry.genMap, Registry.currMap]

theorem genMap_set (reg : Registry) (i g : ℕ) (m : List (ℤ × ℕ)) (hi : i < reg.hashmap_.length) :
    Registry.genMap { reg with hashmap_ := reg.hashmap_.set i m } g =
      if i = g then m else reg.genMap g := by
  simp only [Registry.genMap, List.getD_eq_getElem?_getD, List.getElem?_set]
  split_ifs <;> simp

theorem clearRound_spec (env : RegistryEnv) (hmaster : env.master = true) (N : ℕ)
    (st : Registry × DRMMaster) (h1 : st.1.rmfb_delay_ = N) (h2 : st.1.hashmap_.length = N)
    (h3 : st.1.current_index_ < N) :
    (Registry.ClearRound env st).1.rmfb_delay_ = N ∧
    (Registry.ClearRound env st).1.hashmap_.length = N ∧
    (Registry.ClearRound env st).1.current_index_ = (st.1.current_index_ + 1) % N ∧
    (Registry.ClearRound env st).2.created = st.2.created ∧
    (Registry.ClearRound env st).2.removed =
      st.2.removed ++ st.1.genIds st.1.current_index_ ∧
    ∀ g, (Registry.ClearRound env st).1.genMap g =
      if st.1.current_index_ = g then [] else st.1.genMap g := by
  unfold Registry.ClearRound
  rw [Unregister_eq env hmaster]
  refine ⟨by simp [Registry.Next, h1], by simp [Registry.Next, h2],
    by simp [Registry.Next, h1], rfl, rfl, ?_⟩
  intro g
  have := genMap_set st.1 st.1.current_index_ g [] (by omega)
  simpa [Registry.Next, Registry.genMap] using this

theorem ClearLoop_succ (env : RegistryEnv) (n : ℕ) (st : Registry × DRMMaster) :
    Registry.ClearLoop env (n + 1) st =
      Registry.ClearLoop env n (Registry.ClearRound env st) := by
  rfl

/-- The state after `n` rounds (`Unregister`, `Next`) of the loop of `Clear`. -/
theorem ClearLoop_spec (env : RegistryEnv) (hmaster : env.master = true) (N : ℕ) (n : ℕ) :
    ∀ st : Registry × DRMMaster,
      st.1.rmfb_delay_ = N → st.1.hashmap_.length = N → st.1.current_index_ < N → n ≤ N →
      (Registry.ClearLoop env n st).1.rmfb_delay_ = N ∧
      (Registry.ClearLoop env n st).1.hashmap_.length = N ∧
      (Registry.ClearLoop env n st).1.current_index_ = (st.1.current_index_ + n) % N ∧
      (Registry.ClearLoop env n st).2.created = st.2.created ∧
      (Registry.ClearLoop env n st).2.removed =
        st.2.removed ++
          (List.range n).flatMap (fun j => st.1.genIds ((st.1.current_index_ + j) % N)) ∧
      ∀ g, (Registry.ClearLoop env n st).1.genMap g =
        if ∃ j, j < n ∧ (st.1.current_index_ + j) % N = g then [] else st.1.genMap g := by
  induction n with
  | zero =>
    intro st h1 h2 h3 _
    refine ⟨h1, h2, ?_, rfl, ?_, ?_⟩
    · simp [Registry.ClearLoop, Nat.mod_eq_of_lt h3]
    · simp [Registry.ClearLoop]
    · intro g
      simp [Registry.ClearLoop]
  | succ n ih =>
    intro st h1 h2 h3 h4
    have hn : n ≤ N := by omega
    obtain ⟨b1, b2, b3, b4, b5, b6⟩ := clearRound_spec env hmaster N st h1 h2 h3
    rw [ClearLoop_succ]
    have hidx1 : (Registry.ClearRound env st).1.current_index_ < N := by
      rw [b3]; exact Nat.mod_lt _ (by omega)
    obtain ⟨a1, a2, a3, a4, a5, a6⟩ := ih (Registry.ClearRound env st) b1 b2 hidx1 hn
    have hmod : ∀ j, ((Registry.ClearRound env st).1.current_index_ + j) % N =
        (st.1.current_index_ + (j + 1)) % N := by
      intro j
      rw [b3, Nat.mod_add_mod]
      congr 1
      omega
    refine ⟨a1, a2, ?_, ?_, ?_, ?_⟩
    · rw [a3, hmod]
    · rw [a4, b4]
    · rw [a5, b5, List.range_succ_eq_map]
      simp only [List.flatMap_cons, List.flatMap_map, Nat.add_zero,
        Nat.mod_eq_of_lt h3, List.append_assoc]
      congr 2
      apply List.flatMap_congr
      intro j hj
      have hj' : j < n := List.mem_range.mp hj
      simp only [Function.comp, Nat.succ_eq_add_one]
      rw [hmod]
      have hne : (st.1.current_index_ + (j + 1)) % N ≠ st.1.current_index_ :=
        add_mod_ne_self N _ (j + 1) h3 (by omega) (by omega)
      simp only [Registry.genIds]
      rw [b6, if_neg (Ne.symm hne)]
    · intro g
      rw [a6]
      by_cases hg : st.1.current_index_ = g
      · have hex : ∃ j, j < n + 1 ∧ (st.1.current_index_ + j) % N = g :=
          ⟨0, by omega, by rw [Nat.add_zero, Nat.mod_eq_of_lt h3]; exact hg⟩
        rw [if_pos hex, b6, if_pos hg]
        simp
      · by_cases hex : ∃ j, j < n ∧
            ((Registry.ClearRound env st).1.current_index_ + j) % N = g
        · obtain ⟨j, hj, hjg⟩ := hex
          have hex' : ∃ j, j < n + 1 ∧ (st.1.current_index_ + j) % N = g :=
            ⟨j + 1, by omega, by rw [← hmod]; exact hjg⟩
          rw [if_pos ⟨j, hj, hjg⟩, if_pos hex']
        · have hex' : ¬ ∃ j, j < n + 1 ∧ (st.1.current_index_ + j) % N = g := by
            rintro ⟨j, hj, hjg⟩
            rcases Nat.eq_zero_or_pos j with h0 | h0
            · subst h0
              simp only [Nat.add_zero, Nat.mod_eq_of_lt h3] at hjg
              exact hg hjg
            · apply hex
              refine ⟨j - 1, by omega, ?_⟩
              rw [hmod]
              have : j - 1 + 1 = j := by omega
              rw [this]
              exact hjg
          rw [if_neg hex, if_neg hex', b6, if_neg hg]

end sdm

namespace sdm

theorem range_rotate_perm (N idx : ℕ) :
    ((List.range N).map (fun j => (idx + j) % N)).Perm (List.range N) := by
  have h : (List.range N).map (fun j => (idx + j) % N) = (List.range N).rotate idx := by
    apply List.ext_getElem
    · simp
    · intro k h1 h2
      rw [List.getElem_rotate]
      simp [Nat.add_comm]
  rw [h]
  exact List.rotate_perm _ _

theorem hashmap_eq_range_map (reg : Registry) :
    reg.hashmap_ = (List.range reg.hashmap_.length).map (fun g => reg.genMap g) := by
  apply List.ext_getElem
  · simp
  · intro k h1 h2
    simp [Registry.genMap, List.getD_eq_getElem?_getD, List.getElem?_eq_getElem h1]

theorem eq_replicate_of_genMap (reg : Registry) (h : ∀ g, reg.genMap g = []) :
    reg.hashmap_ = List.replicate reg.hashmap_.length [] := by
  rw [List.eq_replicate_iff]
  refine ⟨rfl, ?_⟩
  intro m hm
  obtain ⟨k, hk, rfl⟩ := List.getElem_of_mem hm
  have := h k
  simpa [Registry.genMap, List.getD_eq_getElem?_getD, List.getElem?_eq_getElem hk] using this

theorem Clear_spec_aux (env : RegistryEnv) (hmaster : env.master = true)
    (st : Registry × DRMMaster) (hwf : st.1.WF) :
    (Registry.Clear env st).1.hashmap_ = List.replicate st.1.rmfb_delay_ [] ∧
    (Registry.Clear env st).1.current_index_ = 0 ∧
    (∀ fd, (Registry.Clear env st).1.GetFbId fd = 0) ∧
    (Registry.Clear env st).2.removed =
      st.2.removed ++ (List.range st.1.rmfb_delay_).flatMap
        (fun j => st.1.genIds ((st.1.current_index_ + j) % st.1.rmfb_delay_)) ∧
    ((List.range st.1.rmfb_delay_).flatMap
        (fun j => st.1.genIds ((st.1.current_index_ + j) % st.1.rmfb_delay_))).Perm
      (st.1.hashmap_.flatMap (fun m => m.map Prod.snd)) := by
  obtain ⟨hlen, hidx⟩ := hwf
  obtain ⟨a1, a2, _, _, a5, a6⟩ := ClearLoop_spec env hmaster st.1.rmfb_delay_
    st.1.rmfb_delay_ st rfl hlen hidx le_rfl
  have hall : ∀ g, (Registry.ClearLoop env st.1.rmfb_delay_ st).1.genMap g = [] := by
    intro g
    rw [a6]
    by_cases hg : g < st.1.rmfb_delay_
    · have hex : ∃ j, j < st.1.rmfb_delay_ ∧
          (st.1.current_index_ + j) % st.1.rmfb_delay_ = g := by
        rcases Nat.lt_or_ge g st.1.current_index_ with h | h
        · refine ⟨g + st.1.rmfb_delay_ - st.1.current_index_, by omega, ?_⟩
          have : st.1.current_index_ + (g + st.1.rmfb_delay_ - st.1.current_index_) =
              g + st.1.rmfb_delay_ := by omega
          rw [this, Nat.add_mod_right, Nat.mod_eq_of_lt hg]
        · refine ⟨g - st.1.current_index_, by omega, ?_⟩
          have : st.1.current_index_ + (g - st.1.current_index_) = g := by omega
          rw [this, Nat.mod_eq_of_lt hg]
      rw [if_pos hex]
    · split_ifs
      · rfl
      · simp only [Registry.genMap, List.getD_eq_getElem?_getD]
        rw [List.getElem?_eq_none (by omega)]
        rfl
  have hmaps : (Registry.Clear env st).1.hashmap_ = List.replicate st.1.rmfb_delay_ [] := by
    have := eq_replicate_of_genMap _ hall
    rw [a2] at this
    exact this
  refine ⟨hmaps, rfl, ?_, a5, ?_⟩
  · intro fd
    have hcur : (Registry.Clear env st).1.currMap = [] := hall 0
    simp [Registry.GetFbId, hcur, mapFind]
  · have h1 : (List.range st.1.rmfb_delay_).flatMap
        (fun j => st.1.genIds ((st.1.current_index_ + j) % st.1.rmfb_delay_)) =
        ((List.range st.1.rmfb_delay_).map
          (fun j => (st.1.current_index_ + j) % st.1.rmfb_delay_)).flatMap
          (fun g => st.1.genIds g) := by
      rw [List.flatMap_map]
    have h2 : st.1.hashmap_.flatMap (fun m => m.map Prod.snd) =
        (List.range st.1.rmfb_delay_).flatMap (fun g => st.1.genIds g) := by
      conv_lhs => rw [hashmap_eq_range_map st.1, hlen]
      rw [List.flatMap_map]
      rfl
    rw [h1, h2]
    exact List.Perm.flatMap_right _ (range_rotate_perm _ _)

end sdm

namespace sdm

/-- C11 (as amended): with a DRM master available, for every registry with `rmfb_delay_`
generations and a current index among them (any contents of the maps), after `Clear` every
generation's map is empty, the current index is 0, `GetFbId` returns 0 for every fd, and the
ids passed to `RemoveFbId` are the ids of the generations in the order current, current + 1,
... (circularly): a rearrangement of all the ids held, each passed once for each time it
was held. -/
theorem Clear_spec (env : RegistryEnv) (hmaster : env.master = true)
    (st : Registry × DRMMaster) (hwf : st.1.WF) :
    (Registry.Clear env st).1.hashmap_ = List.replicate st.1.rmfb_delay_ [] ∧
    (Registry.Clear env st).1.current_index_ = 0 ∧
    (∀ fd, (Registry.Clear env st).1.GetFbId fd = 0) ∧
    (Registry.Clear env st).2.removed =
      st.2.removed ++ (List.range st.1.rmfb_delay_).flatMap
        (fun j => st.1.genIds ((st.1.current_index_ + j) % st.1.rmfb_delay_)) ∧
    ((List.range st.1.rmfb_delay_).flatMap
        (fun j => st.1.genIds ((st.1.current_index_ + j) % st.1.rmfb_delay_))).Perm
      (st.1.hashmap_.flatMap (fun m => m.map Prod.snd)) :=
  Clear_spec_aux env hmaster st hwf

theorem Clear_spec_witness :
    sampleEnv.master = true ∧ sampleStateFull.1.WF ∧
    (Registry.Clear sampleEnv sampleStateFull).1.hashmap_ = [[], [], []] ∧
    (Registry.Clear sampleEnv sampleStateFull).1.current_index_ = 0 ∧
    (∀ fd, (Registry.Clear sampleEnv sampleStateFull).1.GetFbId fd = 0) ∧
    (Registry.Clear sampleEnv sampleStateFull).2.removed = [102, 103, 100, 101] :=
  ⟨rfl, ⟨rfl, by decide⟩,
    (Clear_spec sampleEnv rfl sampleStateFull ⟨rfl, by decide⟩).1,
    (Clear_spec sampleEnv rfl sampleStateFull ⟨rfl, by decide⟩).2.1,
    (Clear_spec sampleEnv rfl sampleStateFull ⟨rfl, by decide⟩).2.2.1,
    by decide!⟩

/-- C11 fails as stated: without a DRM master `Unregister` returns at once, so `Clear`
only resets the current index; the maps keep their pairs, `GetFbId 5` returns the id 100
and no id reaches `RemoveFbId`. -/
theorem Clear_counterexample :
    sampleStateFull.1.rmfb_delay_ = 3 ∧ sampleStateFull.1.WF ∧
    (Registry.Clear sampleEnvNoMaster sampleStateFull).1.hashmap_ =
      [[(5, 100), (6, 101)], [(7, 102)], [(5, 103)]] ∧
    (Registry.Clear sampleEnvNoMaster sampleStateFull).1.GetFbId 5 = 100 ∧
    (Registry.Clear sampleEnvNoMaster sampleStateFull).2.removed = [] := by
  refine ⟨rfl, ⟨rfl, by decide⟩, by decide!, by decide!, by decide!⟩

end sdm

namespace sdm

/-! ## Commit cycles: the delay before a framebuffer id is removed -/

theorem add_mod_ne_add_mod (N g a b : ℕ) (hab : a < b) (hd : b - a < N) :
    (g + a) % N ≠ (g + b) % N := by
  intro h
  have h1 : (g + b - (g + a)) % N = 0 := Nat.sub_mod_eq_zero_of_mod_eq h.symm
  have h2 : g + b - (g + a) = b - a := by omega
  rw [h2, Nat.mod_eq_of_lt hd] at h1
  omega

/-- What `MapBufferToFbId` leaves alone: the sizes, the index, the removals and every
generation but the current one. -/
theorem MapBufferToFbId_frame (env : RegistryEnv) (st : Registry × DRMMaster)
    (buffer : LayerBuffer) :
    (Registry.MapBufferToFbId env st buffer).1.rmfb_delay_ = st.1.rmfb_delay_ ∧
    (Registry.MapBufferToFbId env st buffer).1.current_index_ = st.1.current_index_ ∧
    (Registry.MapBufferToFbId env st buffer).1.hashmap_.length = st.1.hashmap_.length ∧
    (Registry.MapBufferToFbId env st buffer).2.removed = st.2.removed ∧
    ∀ g, g ≠ st.1.current_index_ →
      (Registry.MapBufferToFbId env st buffer).1.genMap g = st.1.genMap g := by
  rw [MapBufferToFbId_eq]
  split_ifs
  · simp
  · simp
  · refine ⟨rfl, rfl, by simp, rfl, ?_⟩
    intro g hg
    simp only [Registry.genMap, List.getD_eq_getElem?_getD, List.getElem?_set]
    rw [if_neg (Ne.symm hg)]
  · simp

theorem MapBufferToFbId_no_master (env : RegistryEnv) (hmaster : env.master = false)
    (st : Registry × DRMMaster) (buffer : LayerBuffer) :
    Registry.MapBufferToFbId env st buffer = st := by
  rw [MapBufferToFbId_eq]
  simp [hmaster]

theorem RegisterLayer_frame (env : RegistryEnv) (st : Registry × DRMMaster)
    (layer : LayerBuffer) (session : HWRotatorSession) :
    (Registry.RegisterLayer env st layer session).1.rmfb_delay_ = st.1.rmfb_delay_ ∧
    (Registry.RegisterLayer env st layer session).1.current_index_ = st.1.current_index_ ∧
    (Registry.RegisterLayer env st layer session).1.hashmap_.length = st.1.hashmap_.length ∧
    (Registry.RegisterLayer env st layer session).2.removed = st.2.removed ∧
    ∀ g, g ≠ st.1.current_index_ →
      (Registry.RegisterLayer env st layer session).1.genMap g = st.1.genMap g := by
  have a := MapBufferToFbId_frame env st (firstBuffer layer session)
  have b := MapBufferToFbId_frame env
    (Registry.MapBufferToFbId env st (firstBuffer layer session)) session.output_buffer
  rw [RegisterLayer_eq]
  split_ifs
  · refine ⟨b.1.trans a.1, b.2.1.trans a.2.1, b.2.2.1.trans a.2.2.1,
      b.2.2.2.1.trans a.2.2.2.1, ?_⟩
    intro g hg
    rw [b.2.2.2.2 g (by rw [a.2.1]; exact hg), a.2.2.2.2 g hg]
  · exact a

theorem RegisterLayer_no_master (env : RegistryEnv) (hmaster : env.master = false)
    (st : Registry × DRMMaster) (layer : LayerBuffer) (session : HWRotatorSession) :
    Registry.RegisterLayer env st layer session = st := by
  rw [RegisterLayer_eq]
  split_ifs <;> simp [MapBufferToFbId_no_master env hmaster]

theorem RegisterLoop_frame (env : RegistryEnv) (config : List HWRotatorSession)
    (layers : List LayerBuffer) :
    ∀ (i : ℕ) (st st1 : Registry × DRMMaster),
      Registry.RegisterLoop env config layers i st = some st1 →
      st1.1.rmfb_delay_ = st.1.rmfb_delay_ ∧
      st1.1.current_index_ = st.1.current_index_ ∧
      st1.1.hashmap_.length = st.1.hashmap_.length ∧
      st1.2.removed = st.2.removed ∧
      (∀ g, g ≠ st.1.current_index_ → st1.1.genMap g = st.1.genMap g) ∧
      (env.master = false → st1 = st) := by
  induction layers with
  | nil =>
    intro i st st1 h
    simp only [Registry.RegisterLoop, Option.some.injEq] at h
    subst h
    exact ⟨rfl, rfl, rfl, rfl, fun _ _ => rfl, fun _ => rfl⟩
  | cons layer rest ih =>
    intro i st st1 h
    simp only [Registry.RegisterLoop] at h
    cases hcfg : config[i]? with
    | none => simp [hcfg] at h
    | some session =>
      simp only [hcfg] at h
      have a := RegisterLayer_frame env st layer session
      obtain ⟨b1, b2, b3, b4, b5, b6⟩ := ih (i + 1) _ st1 h
      refine ⟨b1.trans a.1, b2.trans a.2.1, b3.trans a.2.2.1, b4.trans a.2.2.2.1, ?_, ?_⟩
      · intro g hg
        rw [b5 g (by rw [a.2.1]; exact hg), a.2.2.2.2 g hg]
      · intro hm
        rw [b6 hm, RegisterLayer_no_master env hm]

end sdm

namespace sdm

theorem CommitTail_spec (env : RegistryEnv) (hmaster : env.master = true)
    (st : Registry × DRMMaster) (hidx : (st.1.current_index_ + 1) % st.1.rmfb_delay_ <
      st.1.hashmap_.length) :
    (Registry.CommitTail env st).1.rmfb_delay_ = st.1.rmfb_delay_ ∧
    (Registry.CommitTail env st).1.hashmap_.length = st.1.hashmap_.length ∧
    (Registry.CommitTail env st).1.current_index_ =
      (st.1.current_index_ + 1) % st.1.rmfb_delay_ ∧
    (Registry.CommitTail env st).2.removed =
      st.2.removed ++ st.1.genIds ((st.1.current_index_ + 1) % st.1.rmfb_delay_) ∧
    ∀ g, (Registry.CommitTail env st).1.genMap g =
      if (st.1.current_index_ + 1) % st.1.rmfb_delay_ = g then [] else st.1.genMap g := by
  unfold Registry.CommitTail
  rw [Unregister_eq env hmaster]
  refine ⟨rfl, by simp [Registry.Next], rfl, rfl, ?_⟩
  intro g
  have := genMap_set (Registry.Next st.1) (Registry.Next st.1).current_index_ g []
    (by simpa [Registry.Next] using hidx)
  simpa [Registry.Next, Registry.genMap] using this

theorem AfterCommits_zero (env : RegistryEnv) (hmaster : env.master = true) (N : ℕ)
    (r : Registry × DRMMaster) (h1 : r.1.rmfb_delay_ = N) (h2 : r.1.hashmap_.length = N)
    (h3 : r.1.current_index_ < N) :
    Registry.AfterCommits N r.1.current_index_ r 0 (Registry.CommitTail env r) := by
  have hlt : (r.1.current_index_ + 1) % r.1.rmfb_delay_ < r.1.hashmap_.length := by
    rw [h1, h2]; exact Nat.mod_lt _ (by omega)
  obtain ⟨a1, a2, a3, a4, a5⟩ := CommitTail_spec env hmaster r hlt
  rw [h1] at a3 a4 a5
  refine ⟨a1.trans h1, a2.trans h2, a3, ?_, ?_, ?_⟩
  · rw [a5, a3, if_pos rfl]
  · rw [a4]
    simp [List.range_succ]
  · intro j hj0 hjN
    rw [a5, if_neg]
    exact add_mod_ne_add_mod N _ 1 (j + 1) (by omega) (by omega)

theorem AfterCommits_succ (env : RegistryEnv) (hmaster : env.master = true) (N g : ℕ)
    (r u u1 : Registry × DRMMaster) (hw_layers : HWLayers) (i : ℕ) (hi : i + 2 ≤ N)
    (hinv : Registry.AfterCommits N g r i u)
    (hc : Registry.CommitCycle env u hw_layers = some u1) :
    Registry.AfterCommits N g r (i + 1) u1 := by
  obtain ⟨h1, h2, h3, _, h5, h6⟩ := hinv
  unfold Registry.CommitCycle at hc
  cases hreg : Registry.Register env u hw_layers with
  | none => simp [hreg] at hc
  | some v =>
    simp only [hreg, Option.some.injEq] at hc
    subst hc
    obtain ⟨f1, f2, f3, f4, f5, _⟩ := RegisterLoop_frame env hw_layers.config
      hw_layers.hw_layers 0 u v hreg
    have hN : 0 < N := by omega
    have hvN : v.1.rmfb_delay_ = N := f1.trans h1
    have hvidx : v.1.current_index_ = (g + (i + 1)) % N := f2.trans h3
    have hnext : (v.1.current_index_ + 1) % v.1.rmfb_delay_ = (g + (i + 2)) % N := by
      rw [hvN, hvidx, Nat.mod_add_mod, Nat.add_assoc]
    have hlt : (v.1.current_index_ + 1) % v.1.rmfb_delay_ < v.1.hashmap_.length := by
      rw [f3, h2, hvN]; exact Nat.mod_lt _ hN
    obtain ⟨a1, a2, a3, a4, a5⟩ := CommitTail_spec env hmaster v hlt
    rw [hnext] at a3 a4 a5
    have hne : (g + (i + 2)) % N ≠ u.1.current_index_ := by
      rw [h3]
      exact Ne.symm (add_mod_ne_add_mod N g (i + 1) (i + 2) (by omega) (by omega))
    have hcleared : v.1.genMap ((g + (i + 2)) % N) = r.1.genMap ((g + (i + 2)) % N) := by
      rw [f5 _ hne]
      exact h6 (i + 1) (by omega) (by omega)
    refine ⟨a1.trans hvN, a2.trans (f3.trans h2), a3, ?_, ?_, ?_⟩
    · rw [a5, a3, if_pos rfl]
    · rw [a4, f4, h5, List.range_succ (i + 1), List.flatMap_append]
      simp only [List.flatMap_cons, List.flatMap_nil, List.append_nil, List.append_assoc]
      congr 2
      simp only [Registry.genIds]
      rw [hcleared]
    · intro j hj hjN
      rw [a5, if_neg]
      · have hne2 : (g + (j + 1)) % N ≠ u.1.current_index_ := by
          rw [h3]
          exact Ne.symm (add_mod_ne_add_mod N g (i + 1) (j + 1) (by omega) (by omega))
        rw [f5 _ hne2]
        exact h6 j (by omega) hjN
      · exact add_mod_ne_add_mod N g (i + 2) (j + 1) (by omega) (by omega)

theorem AfterCommits_run (env : RegistryEnv) (hmaster : env.master = true) (N g : ℕ)
    (r : Registry × DRMMaster) (frames : List HWLayers) :
    ∀ (i : ℕ) (u t : Registry × DRMMaster),
      i + frames.length + 1 ≤ N →
      Registry.AfterCommits N g r i u →
      Registry.CommitRun env frames u = some t →
      Registry.AfterCommits N g r (i + frames.length) t := by
  induction frames with
  | nil =>
    intro i u t _ hinv h
    simp only [Registry.CommitRun, Option.some.injEq] at h
    subst h
    exact hinv
  | cons hw rest ih =>
    intro i u t hlen hinv h
    simp only [Registry.CommitRun] at h
    simp only [List.length_cons] at hlen ⊢
    cases hc : Registry.CommitCycle env u hw with
    | none => simp [hc] at h
    | some u1 =>
      simp only [hc] at h
      have := ih (i + 1) u1 t (by omega)
        (AfterCommits_succ env hmaster N g r u u1 hw i (by omega) hinv hc) h
      have e : i + 1 + rest.length = i + (rest.length + 1) := by omega
      rw [e] at this
      exact this

end sdm

namespace sdm

theorem CommitCycle_WF (env : RegistryEnv) (u u1 : Registry × DRMMaster)
    (hw_layers : HWLayers) (hwf : u.1.WF)
    (hc : Registry.CommitCycle env u hw_layers = some u1) :
    u1.1.WF ∧ u1.1.rmfb_delay_ = u.1.rmfb_delay_ := by
  unfold Registry.CommitCycle at hc
  cases hreg : Registry.Register env u hw_layers with
  | none => simp [hreg] at hc
  | some v =>
    simp only [hreg, Option.some.injEq] at hc
    subst hc
    obtain ⟨f1, _, f3, _, _, _⟩ := RegisterLoop_frame env hw_layers.config
      hw_layers.hw_layers 0 u v hreg
    obtain ⟨w1, w2⟩ := hwf
    have hN : 0 < v.1.rmfb_delay_ := by rw [f1]; omega
    have hlt := Nat.mod_lt (v.1.current_index_ + 1) hN
    unfold Registry.CommitTail Registry.Unregister Registry.WF
    split_ifs
    · simp only [Registry.Next]
      exact ⟨⟨by rw [f3, w1, f1], hlt⟩, f1⟩
    · simp only [Registry.Next, List.length_set]
      exact ⟨⟨by rw [f3, w1, f1], hlt⟩, f1⟩

theorem CommitRun_WF (env : RegistryEnv) (frames : List HWLayers) :
    ∀ (u t : Registry × DRMMaster), u.1.WF → Registry.CommitRun env frames u = some t →
      t.1.WF ∧ t.1.rmfb_delay_ = u.1.rmfb_delay_ := by
  induction frames with
  | nil =>
    intro u t hwf h
    simp only [Registry.CommitRun, Option.some.injEq] at h
    subst h
    exact ⟨hwf, rfl⟩
  | cons hw rest ih =>
    intro u t hwf h
    simp only [Registry.CommitRun] at h
    cases hc : Registry.CommitCycle env u hw with
    | none => simp [hc] at h
    | some u1 =>
      simp only [hc] at h
      obtain ⟨a, b⟩ := CommitCycle_WF env u u1 hw hwf hc
      obtain ⟨c, d⟩ := ih u1 t a h
      exact ⟨c, d.trans b⟩

theorem commit_delay_aux (env : RegistryEnv) (s r : Registry × DRMMaster)
    (hw_layers : HWLayers) (e : ℤ × ℕ) (hwf : s.1.WF)
    (hreg : Registry.Register env s hw_layers = some r)
    (hnew : e ∈ r.1.currMap) (hold : e ∉ s.1.currMap) :
    (∀ (frames : List HWLayers) (t : Registry × DRMMaster),
      frames.length + 1 ≤ s.1.rmfb_delay_ →
      Registry.CommitRun env frames (Registry.CommitTail env r) = some t →
      t.1.current_index_ =
        (s.1.current_index_ + (frames.length + 1)) % s.1.rmfb_delay_ ∧
      t.2.removed = r.2.removed ++ (List.range (frames.length + 1)).flatMap
        (fun j => r.1.genIds ((s.1.current_index_ + (j + 1)) % s.1.rmfb_delay_)) ∧
      (frames.length + 1 < s.1.rmfb_delay_ →
        e ∈ t.1.genMap s.1.current_index_ ∧
        ∀ j, j < frames.length + 1 →
          (s.1.current_index_ + (j + 1)) % s.1.rmfb_delay_ ≠ s.1.current_index_) ∧
      (frames.length + 1 = s.1.rmfb_delay_ →
        t.1.genMap s.1.current_index_ = [] ∧
        t.2.removed = (r.2.removed ++ (List.range frames.length).flatMap
          (fun j => r.1.genIds ((s.1.current_index_ + (j + 1)) % s.1.rmfb_delay_))) ++
          r.1.genIds s.1.current_index_ ∧
        e.2 ∈ r.1.genIds s.1.current_index_)) ∧
    (∀ (frames : List HWLayers) (t : Registry × DRMMaster),
      Registry.CommitRun env frames s = some t →
      t.1.rmfb_delay_ = s.1.rmfb_delay_ ∧ t.1.current_index_ < s.1.rmfb_delay_) := by
  obtain ⟨f1, f2, f3, _, _, f6⟩ := RegisterLoop_frame env hw_layers.config
    hw_layers.hw_layers 0 s r hreg
  have hmaster : env.master = true := by
    by_contra hm
    have hrs : r = s := f6 (by simpa using hm)
    rw [hrs] at hnew
    exact hold hnew
  obtain ⟨w1, w2⟩ := hwf
  constructor
  · intro frames t hlen hrun
    have h0 := AfterCommits_zero env hmaster s.1.rmfb_delay_ r f1 (f3.trans w1)
      (by rw [f2]; exact w2)
    rw [f2] at h0
    obtain ⟨_, _, a3, a4, a5, a6⟩ := AfterCommits_run env hmaster s.1.rmfb_delay_
      s.1.current_index_ r frames 0 _ t (by omega) h0 hrun
    simp only [Nat.zero_add] at a3 a4 a5 a6
    have hcur : r.1.genMap s.1.current_index_ = r.1.currMap := by
      rw [← f2]; rfl
    refine ⟨a3, a5, ?_, ?_⟩
    · intro hlt
      constructor
      · have := a6 (s.1.rmfb_delay_ - 1) (by omega) (by omega)
        have hg : (s.1.current_index_ + (s.1.rmfb_delay_ - 1 + 1)) % s.1.rmfb_delay_ =
            s.1.current_index_ := by
          have : s.1.rmfb_delay_ - 1 + 1 = s.1.rmfb_delay_ := by omega
          rw [this, Nat.add_mod_right, Nat.mod_eq_of_lt w2]
        rw [hg] at this
        rw [this, hcur]
        exact hnew
      · intro j hj
        exact add_mod_ne_self _ _ (j + 1) w2 (by omega) (by omega)
    · intro heq
      have hg : (s.1.current_index_ + (frames.length + 1)) % s.1.rmfb_delay_ =
          s.1.current_index_ := by
        rw [heq, Nat.add_mod_right, Nat.mod_eq_of_lt w2]
      refine ⟨?_, ?_, ?_⟩
      · rw [a3, hg] at a4
        exact a4
      · rw [a5, List.range_succ, List.flatMap_append]
        simp only [List.flatMap_cons, List.flatMap_nil, List.append_nil, List.append_assoc]
        rw [hg]
      · simp only [Registry.genIds]
        rw [hcur]
        exact List.mem_map_of_mem _ hnew
  · intro frames t hrun
    obtain ⟨a, b⟩ := CommitRun_WF env frames s t ⟨w1, w2⟩ hrun
    exact ⟨b, by rw [← b]; exact a.2⟩

theorem commit_delay_fresh_aux (env : RegistryEnv) (s r : Registry × DRMMaster)
    (hw_layers : HWLayers) (e : ℤ × ℕ) (hwf : s.1.WF)
    (hreg : Registry.Register env s hw_layers = some r)
    (hnew : e ∈ r.1.currMap) (hold : e ∉ s.1.currMap)
    (frames : List HWLayers) (t : Registry × DRMMaster)
    (hlt : frames.length + 1 < s.1.rmfb_delay_)
    (hrun : Registry.CommitRun env frames (Registry.CommitTail env r) = some t)
    (hfresh : ∀ g, g ≠ s.1.current_index_ → e.2 ∉ s.1.genIds g) :
    e.2 ∉ t.2.removed.drop r.2.removed.length := by
  obtain ⟨_, _, _, _, f5, _⟩ := RegisterLoop_frame env hw_layers.config
    hw_layers.hw_layers 0 s r hreg
  obtain ⟨_, a2, a3, _⟩ := (commit_delay_aux env s r hw_layers e hwf hreg hnew hold).1
    frames t (Nat.le_of_lt hlt) hrun
  rw [a2, List.drop_left]
  intro hmem
  obtain ⟨j, hj, hin⟩ := List.mem_flatMap.mp hmem
  have hne := (a3 hlt).2 j (List.mem_range.mp hj)
  have hgen : r.1.genIds ((s.1.current_index_ + (j + 1)) % s.1.rmfb_delay_) =
      s.1.genIds ((s.1.current_index_ + (j + 1)) % s.1.rmfb_delay_) := by
    simp only [Registry.genIds]
    rw [f5 _ hne]
  rw [hgen] at hin
  exact hfresh _ hne hin

theorem sampleAfterCommit1_fresh :
    ∀ g, g ≠ sampleAfterCommit1.1.current_index_ →
      (102 : ℕ) ∉ sampleAfterCommit1.1.genIds g := by
  intro g hg
  match g, hg with
  | 0, _ => decide!
  | 1, _ => decide!
  | 2, h => exact absurd rfl h
  | n + 3, _ => simp [Registry.genIds, Registry.genMap, sampleAfterCommit1]

end sdm

namespace sdm

/-- C12: in a registry of `N = rmfb_delay_` generations, let commit `k` start in state `s`
and let its `Register` call create the pair `e` in the current generation (state `r`).
After the commits `k`, ..., `k + i` of a run of commit cycles (`Register`, `Next`,
`Unregister` each), for `i + 1 ≤ N`: the current index is `s.current_index_ + i + 1`
modulo `N`, and the ids passed to `RemoveFbId` since `r` are those that `r` held in the `i + 1`
generations after the one of `e`.  While `i + 1 < N` (commits `k` to `k + N - 2`) these are
generations other than the one of `e`, and `e` is still held; when moreover the driver gave
`e` an id that no other generation held at commit `k`, the id of `e` is not among the ids
passed to `RemoveFbId` since `r`.  At `i + 1 = N` (commit `k + N - 1`) the last ids removed
are those of the generation of `e`, its id among them, and that generation is empty.  For
`N = 1` this is commit `k` itself.  In every run of commit cycles the current index stays
below `N`. -/
theorem commit_delay (env : RegistryEnv) (s r : Registry × DRMMaster)
    (hw_layers : HWLayers) (e : ℤ × ℕ) (hwf : s.1.WF)
    (hreg : Registry.Register env s hw_layers = some r)
    (hnew : e ∈ r.1.currMap) (hold : e ∉ s.1.currMap) :
    (∀ (frames : List HWLayers) (t : Registry × DRMMaster),
      frames.length + 1 ≤ s.1.rmfb_delay_ →
      Registry.CommitRun env frames (Registry.CommitTail env r) = some t →
      t.1.current_index_ =
        (s.1.current_index_ + (frames.length + 1)) % s.1.rmfb_delay_ ∧
      t.2.removed = r.2.removed ++ (List.range (frames.length + 1)).flatMap
        (fun j => r.1.genIds ((s.1.current_index_ + (j + 1)) % s.1.rmfb_delay_)) ∧
      (frames.length + 1 < s.1.rmfb_delay_ →
        e ∈ t.1.genMap s.1.current_index_ ∧
        (∀ j, j < frames.length + 1 →
          (s.1.current_index_ + (j + 1)) % s.1.rmfb_delay_ ≠ s.1.current_index_) ∧
        ((∀ g, g ≠ s.1.current_index_ → e.2 ∉ s.1.genIds g) →
          e.2 ∉ t.2.removed.drop r.2.removed.length)) ∧
      (frames.length + 1 = s.1.rmfb_delay_ →
        t.1.genMap s.1.current_index_ = [] ∧
        t.2.removed = (r.2.removed ++ (List.range frames.length).flatMap
          (fun j => r.1.genIds ((s.1.current_index_ + (j + 1)) % s.1.rmfb_delay_))) ++
          r.1.genIds s.1.current_index_ ∧
        e.2 ∈ r.1.genIds s.1.current_index_)) ∧
    (∀ (frames : List HWLayers) (t : Registry × DRMMaster),
      Registry.CommitRun env frames s = some t →
      t.1.rmfb_delay_ = s.1.rmfb_delay_ ∧ t.1.current_index_ < s.1.rmfb_delay_) :=
  ⟨fun frames t hlen hrun =>
    ⟨((commit_delay_aux env s r hw_layers e hwf hreg hnew hold).1 frames t hlen hrun).1,
      ((commit_delay_aux env s r hw_layers e hwf hreg hnew hold).1 frames t hlen hrun).2.1,
      fun hlt =>
        ⟨(((commit_delay_aux env s r hw_layers e hwf hreg hnew hold).1 frames t hlen
            hrun).2.2.1 hlt).1,
          (((commit_delay_aux env s r hw_layers e hwf hreg hnew hold).1 frames t hlen
            hrun).2.2.1 hlt).2,
          commit_delay_fresh_aux env s r hw_layers e hwf hreg hnew hold frames t hlt hrun⟩,
      ((commit_delay_aux env s r hw_layers e hwf hreg hnew hold).1 frames t hlen
        hrun).2.2.2⟩,
    (commit_delay_aux env s r hw_layers e hwf hreg hnew hold).2⟩

theorem commit_delay_witness :
    sampleState.1.WF ∧
    Registry.Register sampleEnv sampleState sampleHWLayers5 = some sampleStateRegistered ∧
    ((5, 100) : ℤ × ℕ) ∈ sampleStateRegistered.1.currMap ∧
    ((5, 100) : ℤ × ℕ) ∉ sampleState.1.currMap ∧
    Registry.CommitRun sampleEnv [sampleHWLayers6]
        (Registry.CommitTail sampleEnv sampleStateRegistered) = some sampleAfterCommit1 ∧
    ((5, 100) : ℤ × ℕ) ∈ sampleAfterCommit1.1.genMap sampleState.1.current_index_ ∧
    sampleAfterCommit1.2.removed = [] ∧
    Registry.CommitRun sampleEnv [sampleHWLayers6, sampleHWLayers6]
        (Registry.CommitTail sampleEnv sampleStateRegistered) = some sampleAfterCommit2 ∧
    sampleAfterCommit2.1.genMap sampleState.1.current_index_ = [] ∧
    sampleAfterCommit2.2.removed = [100] ∧
    (100 : ℕ) ∈ sampleStateRegistered.1.genIds sampleState.1.current_index_ ∧
    sampleAfterCommit1.1.WF ∧
    Registry.Register sampleEnv sampleAfterCommit1 sampleHWLayers7 =
      some sampleCommit3Registered ∧
    ((7, 102) : ℤ × ℕ) ∈ sampleCommit3Registered.1.currMap ∧
    ((7, 102) : ℤ × ℕ) ∉ sampleAfterCommit1.1.currMap ∧
    Registry.CommitRun sampleEnv [sampleHWLayers6]
        (Registry.CommitTail sampleEnv sampleCommit3Registered) = some sampleAfterCommit4 ∧
    (∀ g, g ≠ sampleAfterCommit1.1.current_index_ →
      (102 : ℕ) ∉ sampleAfterCommit1.1.genIds g) ∧
    sampleAfterCommit4.2.removed.drop sampleCommit3Registered.2.removed.length =
      [100, 101] ∧
    (102 : ℕ) ∉ sampleAfterCommit4.2.removed.drop sampleCommit3Registered.2.removed.length :=
  ⟨⟨rfl, by decide⟩, by decide!, by decide!, by decide!, by decide!,
    (((commit_delay sampleEnv sampleState sampleStateRegistered sampleHWLayers5 (5, 100)
      ⟨rfl, by decide⟩ (by decide!) (by decide!) (by decide!)).1 [sampleHWLayers6]
      sampleAfterCommit1 (by decide) (by decide!)).2.2.1 (by decide)).1,
    by decide!, by decide!,
    (((commit_delay sampleEnv sampleState sampleStateRegistered sampleHWLayers5 (5, 100)
      ⟨rfl, by decide⟩ (by decide!) (by decide!) (by decide!)).1
      [sampleHWLayers6, sampleHWLayers6] sampleAfterCommit2 (by decide)
      (by decide!)).2.2.2 (by decide)).1,
    by decide!,
    (((commit_delay sampleEnv sampleState sampleStateRegistered sampleHWLayers5 (5, 100)
      ⟨rfl, by decide⟩ (by decide!) (by decide!) (by decide!)).1
      [sampleHWLayers6, sampleHWLayers6] sampleAfterCommit2 (by decide)
      (by decide!)).2.2.2 (by decide)).2.2,
    ⟨rfl, by decide⟩, by decide!, by decide!, by decide!, by decide!,
    sampleAfterCommit1_fresh, by decide!,
    (((commit_delay sampleEnv sampleAfterCommit1 sampleCommit3Registered sampleHWLayers7
      (7, 102) ⟨rfl, by decide⟩ (by decide!) (by decide!) (by decide!)).1 [sampleHWLayers6]
      sampleAfterCommit4 (by decide) (by decide!)).2.2.1 (by decide)).2.2
      sampleAfterCommit1_fresh⟩

end sdm

namespace sde

/-! ## `SrcSplitConfig` -/

theorem SrcSplitConfig_eq (rm : ResManager) (ctx : DisplayResourceContext)
    (transform : LayerTransform) (src_rect dst_rect : LayerRect) (cfg : HWLayerConfig) :
    rm.SrcSplitConfig ctx transform src_rect dst_rect cfg =
      if src_rect.right - src_rect.left ≥ (rm.kMaxSourcePipeWidth : ℚ) ∨
          dst_rect.right - dst_rect.left ≥ (rm.kMaxInterfaceWidth : ℚ) ∨
          rm.hw_res_info_.always_src_split = true then
        (DisplayError.kErrorNone,
          rm.twoPipes transform.flip_horizontal src_rect dst_rect
            { cfg with is_right_pipe := false })
      else
        (DisplayError.kErrorNone,
          { cfg with
            is_right_pipe := false
            left_pipe := rm.assignPipe cfg.left_pipe src_rect dst_rect
            right_pipe := rm.pipe_reset }) := by
  rfl

/-- The destination halves of `SplitRect` tile the destination: one is
`[left, mid]`, the other `[mid, right]`, with the top and bottom of the destination. -/
theorem SplitRect_tiles (flip : Bool) (src dst : LayerRect) :
    ((ResManager.SplitRect flip src dst).dst_left =
        { dst with right := (dst.left + dst.right) / 2 } ∧
      (ResManager.SplitRect flip src dst).dst_right =
        { dst with left := (dst.left + dst.right) / 2 }) ∨
    ((ResManager.SplitRect flip src dst).dst_right =
        { dst with right := (dst.left + dst.right) / 2 } ∧
      (ResManager.SplitRect flip src dst).dst_left =
        { dst with left := (dst.left + dst.right) / 2 }) := by
  cases flip
  · left
    simp only [ResManager.SplitRect, Bool.false_eq_true, if_false, LayerRect.mk.injEq,
      true_and, and_true]
    constructor <;> ring
  · right
    simp only [ResManager.SplitRect, if_true, LayerRect.mk.injEq, true_and, and_true]
    constructor <;> ring

theorem SrcSplitConfig_spec_aux (rm : ResManager) (ctx : DisplayResourceContext)
    (transform : LayerTransform) (src_rect dst_rect : LayerRect) (cfg : HWLayerConfig) :
    (rm.SrcSplitConfig ctx transform src_rect dst_rect cfg).1 = DisplayError.kErrorNone ∧
    ((src_rect.width ≥ (rm.kMaxSourcePipeWidth : ℚ) ∨
        dst_rect.width ≥ (rm.kMaxInterfaceWidth : ℚ) ∨
        rm.hw_res_info_.always_src_split = true) →
      (rm.SrcSplitConfig ctx transform src_rect dst_rect cfg).2 =
        rm.twoPipes transform.flip_horizontal src_rect dst_rect
          { cfg with is_right_pipe := false }) ∧
    (¬ (src_rect.width ≥ (rm.kMaxSourcePipeWidth : ℚ) ∨
        dst_rect.width ≥ (rm.kMaxInterfaceWidth : ℚ) ∨
        rm.hw_res_info_.always_src_split = true) →
      (rm.SrcSplitConfig ctx transform src_rect dst_rect cfg).2 =
        { cfg with
          is_right_pipe := false
          left_pipe := rm.assignPipe cfg.left_pipe src_rect dst_rect
          right_pipe := rm.pipe_reset }) := by
  rw [SrcSplitConfig_eq]
  simp only [LayerRect.width]
  split_ifs with h
  · exact ⟨rfl, fun _ => rfl, fun hn => absurd h hn⟩
  · exact ⟨rfl, fun hp => absurd hp h, fun _ => rfl⟩

/-- C13: `SrcSplitConfig` returns success for every transform, source and destination.  If
the source width is at least `kMaxSourcePipeWidth`, or the destination width at least
`kMaxInterfaceWidth`, or `always_src_split` is set, the layer gets two pipes
(`is_right_pipe = true`), both needing assignment, whose source and destination ROIs are the
halves of `SplitRect`; the two destination ROIs are `[left, mid]` and `[mid, right]` of the
destination in one order or the other, so they tile its width without gap or overlap.
Otherwise the left pipe carries the whole source and destination, the right pipe is reset
and `is_right_pipe = false`.  A source 3840 wide with a single-pipe limit of 2560 gets two
pipes. -/
theorem SrcSplitConfig_spec (rm : ResManager) (ctx : DisplayResourceContext)
    (transform : LayerTransform) (src_rect dst_rect : LayerRect) (cfg : HWLayerConfig) :
    (rm.SrcSplitConfig ctx transform src_rect dst_rect cfg).1 = DisplayError.kErrorNone ∧
    ((src_rect.width ≥ (rm.kMaxSourcePipeWidth : ℚ) ∨
        dst_rect.width ≥ (rm.kMaxInterfaceWidth : ℚ) ∨
        rm.hw_res_info_.always_src_split = true) →
      (rm.SrcSplitConfig ctx transform src_rect dst_rect cfg).2 =
          rm.twoPipes transform.flip_horizontal src_rect dst_rect
            { cfg with is_right_pipe := false } ∧
        (((rm.SrcSplitConfig ctx transform src_rect dst_rect cfg).2.left_pipe.dst_roi =
              { dst_rect with right := (dst_rect.left + dst_rect.right) / 2 } ∧
            (rm.SrcSplitConfig ctx transform src_rect dst_rect cfg).2.right_pipe.dst_roi =
              { dst_rect with left := (dst_rect.left + dst_rect.right) / 2 }) ∨
          ((rm.SrcSplitConfig ctx transform src_rect dst_rect cfg).2.right_pipe.dst_roi =
              { dst_rect with right := (dst_rect.left + dst_rect.right) / 2 } ∧
            (rm.SrcSplitConfig ctx transform src_rect dst_rect cfg).2.left_pipe.dst_roi =
              { dst_rect with left := (dst_rect.left + dst_rect.right) / 2 }))) ∧
    (¬ (src_rect.width ≥ (rm.kMaxSourcePipeWidth : ℚ) ∨
        dst_rect.width ≥ (rm.kMaxInterfaceWidth : ℚ) ∨
        rm.hw_res_info_.always_src_split = true) →
      (rm.SrcSplitConfig ctx transform src_rect dst_rect cfg).2 =
        { cfg with
          is_right_pipe := false
          left_pipe := rm.assignPipe cfg.left_pipe src_rect dst_rect
          right_pipe := rm.pipe_reset }) := by
  obtain ⟨h1, h2, h3⟩ := SrcSplitConfig_spec_aux rm ctx transform src_rect dst_rect cfg
  refine ⟨h1, fun hp => ⟨h2 hp, ?_⟩, h3⟩
  rw [h2 hp]
  exact SplitRect_tiles transform.flip_horizontal src_rect dst_rect

theorem SrcSplitConfig_spec_witness :
    sampleRect4K.width = 3840 ∧ sampleResManager.kMaxSourcePipeWidth = 2560 ∧
    (sampleResManager.SrcSplitConfig sampleCtx4K {} sampleRect4K sampleRect4K
        sampleConfig).1 = DisplayError.kErrorNone ∧
    (sampleResManager.SrcSplitConfig sampleCtx4K {} sampleRect4K sampleRect4K
        sampleConfig).2 =
      { sampleConfig with
        is_right_pipe := true
        left_pipe :=
          { pipe_id := 2147483648
            src_roi := { left := 0, top := 0, right := 1920, bottom := 2160 }
            dst_roi := { left := 0, top := 0, right := 1920, bottom := 2160 }
            decimation := 0 }
        right_pipe :=
          { pipe_id := 2147483648
            src_roi := { left := 1920, top := 0, right := 3840, bottom := 2160 }
            dst_roi := { left := 1920, top := 0, right := 3840, bottom := 2160 }
            decimation := 0 } } ∧
    (sampleResManager.SrcSplitConfig sampleCtx4K {} sampleRect4K sampleRect4K
        sampleConfig).2 =
      sampleResManager.twoPipes false sampleRect4K sampleRect4K
        { sampleConfig with is_right_pipe := false } ∧
    (sampleResManager.SrcSplitConfig sampleCtx sampleLayer.transform sampleLayer.src_rect
        sampleLayer.dst_rect sampleConfig).2 =
      { sampleConfig with
        is_right_pipe := false
        left_pipe := sampleResManager.assignPipe sampleConfig.left_pipe sampleLayer.src_rect
          sampleLayer.dst_rect
        right_pipe := sampleResManager.pipe_reset } :=
  ⟨by decide!, rfl, by decide!, by decide!,
    ((SrcSplitConfig_spec sampleResManager sampleCtx4K {} sampleRect4K sampleRect4K
      sampleConfig).2.1 (Or.inl (by decide!))).1,
    (SrcSplitConfig_spec sampleResManager sampleCtx sampleLayer.transform
      sampleLayer.src_rect sampleLayer.dst_rect sampleConfig).2.2 (by decide!)⟩

end sde

namespace sde

/-! ## `DisplaySplitConfig` -/

theorem assignRightPipe_eq (rm : ResManager) (crop_right dst_right : LayerRect)
    (cfg : HWLayerConfig) :
    rm.assignRightPipe crop_right dst_right cfg =
      if UINT32 dst_right.right > UINT32 dst_right.left then
        if cfg.left_pipe.pipe_id ≠ 0 then
          { cfg with
            right_pipe := rm.assignPipe cfg.right_pipe crop_right dst_right
            is_right_pipe := true }
        else
          { cfg with
            left_pipe := rm.assignPipe cfg.left_pipe crop_right dst_right
            right_pipe := rm.pipe_reset }
      else
        { cfg with right_pipe := rm.pipe_reset } := by
  rfl

theorem DisplaySplitConfig_eq (rm : ResManager) (ctx : DisplayResourceContext)
    (transform : LayerTransform) (src_rect dst_rect : LayerRect) (cfg : HWLayerConfig) :
    rm.DisplaySplitConfig ctx transform src_rect dst_rect cfg =
      if (rm.leftHalf ctx transform src_rect dst_rect).1.width ≥
          (rm.kMaxSourcePipeWidth : ℚ) then
        if (rm.rightHalf ctx transform src_rect dst_rect).1.right ≠
            (rm.rightHalf ctx transform src_rect dst_rect).1.left then
          (DisplayError.kErrorNotSupported, { cfg with is_right_pipe := false })
        else
          (DisplayError.kErrorNone,
            rm.assignRightPipe (rm.rightHalf ctx transform src_rect dst_rect).1
              (rm.rightHalf ctx transform src_rect dst_rect).2
              (rm.twoPipes transform.flip_horizontal
                (rm.leftHalf ctx transform src_rect dst_rect).1
                (rm.leftHalf ctx transform src_rect dst_rect).2
                { cfg with is_right_pipe := false }))
      else if (rm.rightHalf ctx transform src_rect dst_rect).1.width ≥
          (rm.kMaxSourcePipeWidth : ℚ) then
        if (rm.leftHalf ctx transform src_rect dst_rect).1.right ≠
            (rm.leftHalf ctx transform src_rect dst_rect).1.left then
          (DisplayError.kErrorNotSupported, { cfg with is_right_pipe := false })
        else
          (DisplayError.kErrorNone,
            rm.assignRightPipe (rm.rightHalf ctx transform src_rect dst_rect).1
              (rm.rightHalf ctx transform src_rect dst_rect).2
              (rm.twoPipes transform.flip_horizontal
                (rm.rightHalf ctx transform src_rect dst_rect).1
                (rm.rightHalf ctx transform src_rect dst_rect).2
                { cfg with is_right_pipe := false }))
      else if UINT32 (rm.leftHalf ctx transform src_rect dst_rect).2.right >
          UINT32 (rm.leftHalf ctx transform src_rect dst_rect).2.left then
        (DisplayError.kErrorNone,
          rm.assignRightPipe (rm.rightHalf ctx transform src_rect dst_rect).1
            (rm.rightHalf ctx transform src_rect dst_rect).2
            { cfg with
              is_right_pipe := false
              left_pipe := rm.assignPipe cfg.left_pipe
                (rm.leftHalf ctx transform src_rect dst_rect).1
                (rm.leftHalf ctx transform src_rect dst_rect).2 })
      else
        (DisplayError.kErrorNone,
          rm.assignRightPipe (rm.rightHalf ctx transform src_rect dst_rect).1
            (rm.rightHalf ctx transform src_rect dst_rect).2
            { cfg with is_right_pipe := false, left_pipe := rm.pipe_reset }) := by
  rfl

theorem DisplaySplitConfig_rejects_aux (rm : ResManager) (ctx : DisplayResourceContext)
    (transform : LayerTransform) (src_rect dst_rect : LayerRect) (cfg : HWLayerConfig) :
    ((rm.leftHalf ctx transform src_rect dst_rect).1.width > (rm.kMaxSourcePipeWidth : ℚ) →
      (rm.rightHalf ctx transform src_rect dst_rect).1.width ≠ 0 →
      (rm.DisplaySplitConfig ctx transform src_rect dst_rect cfg).1 =
        DisplayError.kErrorNotSupported) ∧
    ((rm.rightHalf ctx transform src_rect dst_rect).1.width > (rm.kMaxSourcePipeWidth : ℚ) →
      ¬ (rm.leftHalf ctx transform src_rect dst_rect).1.width >
        (rm.kMaxSourcePipeWidth : ℚ) →
      (rm.leftHalf ctx transform src_rect dst_rect).1.width ≠ 0 →
      (rm.DisplaySplitConfig ctx transform src_rect dst_rect cfg).1 =
        DisplayError.kErrorNotSupported) := by
  have hk : (0 : ℚ) ≤ (rm.kMaxSourcePipeWidth : ℚ) := Nat.cast_nonneg _
  have hne : ∀ r : LayerRect, r.width ≠ 0 → r.right ≠ r.left := by
    intro r h heq
    apply h
    simp [LayerRect.width, heq]
  constructor
  · intro hl hr
    rw [DisplaySplitConfig_eq, if_pos (le_of_lt hl), if_pos (hne _ hr)]
  · intro hr hl hl0
    rw [DisplaySplitConfig_eq]
    have hr0 : (rm.rightHalf ctx transform src_rect dst_rect).1.width ≠ 0 := by
      intro h0
      rw [h0] at hr
      exact absurd hr (not_lt.mpr hk)
    by_cases h1 : (rm.leftHalf ctx transform src_rect dst_rect).1.width ≥
        (rm.kMaxSourcePipeWidth : ℚ)
    · rw [if_pos h1, if_pos (hne _ hr0)]
    · rw [if_neg h1, if_pos (le_of_lt hr), if_pos (hne _ hl0)]

/-- C16: in display-split mode, `DisplaySplitConfig` returns `kErrorNotSupported` for every
layer whose left-half crop is wider than `kMaxSourcePipeWidth` while its right-half crop has
non-zero width, and for every layer whose right-half crop is wider than the limit, the
left-half crop is not, and the left-half crop has non-zero width. -/
theorem DisplaySplitConfig_rejects (rm : ResManager) (ctx : DisplayResourceContext)
    (transform : LayerTransform) (src_rect dst_rect : LayerRect) (cfg : HWLayerConfig) :
    ((rm.leftHalf ctx transform src_rect dst_rect).1.width > (rm.kMaxSourcePipeWidth : ℚ) →
      (rm.rightHalf ctx transform src_rect dst_rect).1.width ≠ 0 →
      (rm.DisplaySplitConfig ctx transform src_rect dst_rect cfg).1 =
        DisplayError.kErrorNotSupported) ∧
    ((rm.rightHalf ctx transform src_rect dst_rect).1.width > (rm.kMaxSourcePipeWidth : ℚ) →
      ¬ (rm.leftHalf ctx transform src_rect dst_rect).1.width >
        (rm.kMaxSourcePipeWidth : ℚ) →
      (rm.leftHalf ctx transform src_rect dst_rect).1.width ≠ 0 →
      (rm.DisplaySplitConfig ctx transform src_rect dst_rect cfg).1 =
        DisplayError.kErrorNotSupported) :=
  DisplaySplitConfig_rejects_aux rm ctx transform src_rect dst_rect cfg

theorem DisplaySplitConfig_rejects_witness :
    (sampleResManagerDS.leftHalf sampleCtx8K {} sampleSrc6000 sampleSrc6000).1.width = 3840 ∧
    (sampleResManagerDS.rightHalf sampleCtx8K {} sampleSrc6000 sampleSrc6000).1.width =
      2160 ∧
    (sampleResManagerDS.DisplaySplitConfig sampleCtx8K {} sampleSrc6000 sampleSrc6000
      sampleConfig).1 = DisplayError.kErrorNotSupported ∧
    (sampleResManagerDS.leftHalf sampleCtx8K {} sampleSrc6000
      { left := 1680, top := 0, right := 7680, bottom := 100 }).1.width = 2160 ∧
    (sampleResManagerDS.rightHalf sampleCtx8K {} sampleSrc6000
      { left := 1680, top := 0, right := 7680, bottom := 100 }).1.width = 3840 ∧
    (sampleResManagerDS.DisplaySplitConfig sampleCtx8K {} sampleSrc6000
      { left := 1680, top := 0, right := 7680, bottom := 100 }
      sampleConfig).1 = DisplayError.kErrorNotSupported :=
  ⟨by decide!, by decide!,
    (DisplaySplitConfig_rejects sampleResManagerDS sampleCtx8K {} sampleSrc6000
      sampleSrc6000 sampleConfig).1 (by decide!) (by decide!),
    by decide!, by decide!,
    (DisplaySplitConfig_rejects sampleResManagerDS sampleCtx8K {} sampleSrc6000
      { left := 1680, top := 0, right := 7680, bottom := 100 } sampleConfig).2
      (by decide!) (by decide!) (by decide!)⟩

end sde

namespace sde

theorem DisplaySplitConfig_normal_aux (rm : ResManager) (ctx : DisplayResourceContext)
    (transform : LayerTransform) (src_rect dst_rect : LayerRect) (cfg : HWLayerConfig)
    (hk : rm.kPipeIdNeedsAssignment ≠ 0) (hr : rm.pipe_reset.pipe_id = 0)
    (hl : (rm.leftHalf ctx transform src_rect dst_rect).1.width <
      (rm.kMaxSourcePipeWidth : ℚ))
    (hrw : (rm.rightHalf ctx transform src_rect dst_rect).1.width <
      (rm.kMaxSourcePipeWidth : ℚ)) :
    (rm.DisplaySplitConfig ctx transform src_rect dst_rect cfg).1 = DisplayError.kErrorNone ∧
    (UINT32 (rm.leftHalf ctx transform src_rect dst_rect).2.right >
        UINT32 (rm.leftHalf ctx transform src_rect dst_rect).2.left →
      (rm.DisplaySplitConfig ctx transform src_rect dst_rect cfg).2.left_pipe =
          rm.assignPipe cfg.left_pipe (rm.leftHalf ctx transform src_rect dst_rect).1
            (rm.leftHalf ctx transform src_rect dst_rect).2 ∧
        (UINT32 (rm.rightHalf ctx transform src_rect dst_rect).2.right >
            UINT32 (rm.rightHalf ctx transform src_rect dst_rect).2.left →
          (rm.DisplaySplitConfig ctx transform src_rect dst_rect cfg).2.right_pipe =
              rm.assignPipe cfg.right_pipe (rm.rightHalf ctx transform src_rect dst_rect).1
                (rm.rightHalf ctx transform src_rect dst_rect).2 ∧
            (rm.DisplaySplitConfig ctx transform src_rect dst_rect cfg).2.is_right_pipe =
              true) ∧
        (¬ UINT32 (rm.rightHalf ctx transform src_rect dst_rect).2.right >
            UINT32 (rm.rightHalf ctx transform src_rect dst_rect).2.left →
          (rm.DisplaySplitConfig ctx transform src_rect dst_rect cfg).2.right_pipe =
              rm.pipe_reset ∧
            (rm.DisplaySplitConfig ctx transform src_rect dst_rect cfg).2.is_right_pipe =
              false)) ∧
    (¬ UINT32 (rm.leftHalf ctx transform src_rect dst_rect).2.right >
        UINT32 (rm.leftHalf ctx transform src_rect dst_rect).2.left →
      (rm.DisplaySplitConfig ctx transform src_rect dst_rect cfg).2.right_pipe =
          rm.pipe_reset ∧
        (rm.DisplaySplitConfig ctx transform src_rect dst_rect cfg).2.is_right_pipe = false ∧
        (UINT32 (rm.rightHalf ctx transform src_rect dst_rect).2.right >
            UINT32 (rm.rightHalf ctx transform src_rect dst_rect).2.left →
          (rm.DisplaySplitConfig ctx transform src_rect dst_rect cfg).2.left_pipe =
            rm.assignPipe rm.pipe_reset (rm.rightHalf ctx transform src_rect dst_rect).1
              (rm.rightHalf ctx transform src_rect dst_rect).2) ∧
        (¬ UINT32 (rm.rightHalf ctx transform src_rect dst_rect).2.right >
            UINT32 (rm.rightHalf ctx transform src_rect dst_rect).2.left →
          (rm.DisplaySplitConfig ctx transform src_rect dst_rect cfg).2.left_pipe =
            rm.pipe_reset)) := by
  rw [DisplaySplitConfig_eq, if_neg (not_le.mpr hl), if_neg (not_le.mpr hrw)]
  by_cases hL : UINT32 (rm.leftHalf ctx transform src_rect dst_rect).2.right >
      UINT32 (rm.leftHalf ctx transform src_rect dst_rect).2.left
  · rw [if_pos hL]
    refine ⟨rfl, fun _ => ?_, fun hn => absurd hL hn⟩
    simp only [assignRightPipe_eq]
    have hid : (rm.assignPipe cfg.left_pipe (rm.leftHalf ctx transform src_rect dst_rect).1
        (rm.leftHalf ctx transform src_rect dst_rect).2).pipe_id ≠ 0 := hk
    by_cases hR : UINT32 (rm.rightHalf ctx transform src_rect dst_rect).2.right >
        UINT32 (rm.rightHalf ctx transform src_rect dst_rect).2.left
    · rw [if_pos hR, if_pos hid]
      exact ⟨rfl, fun _ => ⟨rfl, rfl⟩, fun hn => absurd hR hn⟩
    · rw [if_neg hR]
      exact ⟨rfl, fun hp => absurd hp hR, fun _ => ⟨rfl, rfl⟩⟩
  · rw [if_neg hL]
    refine ⟨rfl, fun hp => absurd hp hL, fun _ => ?_⟩
    simp only [assignRightPipe_eq]
    have hid : ¬ (rm.pipe_reset.pipe_id ≠ 0) := by simp [hr]
    by_cases hR : UINT32 (rm.rightHalf ctx transform src_rect dst_rect).2.right >
        UINT32 (rm.rightHalf ctx transform src_rect dst_rect).2.left
    · rw [if_pos hR, if_neg hid]
      exact ⟨rfl, rfl, fun _ => rfl, fun hn => absurd hR hn⟩
    · rw [if_neg hR]
      exact ⟨rfl, rfl, fun hp => absurd hp hR, fun _ => rfl⟩

/-- C19 (as amended): let `kPipeIdNeedsAssignment` be non-zero and `Reset()` zero the pipe
id.  In display-split mode, for every layer where neither half's crop width reaches
`kMaxSourcePipeWidth`, `DisplaySplitConfig` returns success, where a half counts as present
when the right edge of its destination, truncated to an unsigned integer, exceeds the
truncated left edge.  If the left half is present the left pipe carries the left-half crop
and destination; the right pipe then carries the right-half crop and destination with
`is_right_pipe = true` if the right half is present too, and is reset with
`is_right_pipe = false` if not.  If the left half is not present, the right pipe is reset
and `is_right_pipe = false`; the right half, if present, is placed in the (reset) left pipe
slot, and otherwise the left pipe is reset as well. -/
theorem DisplaySplitConfig_normal (rm : ResManager) (ctx : DisplayResourceContext)
    (transform : LayerTransform) (src_rect dst_rect : LayerRect) (cfg : HWLayerConfig)
    (hk : rm.kPipeIdNeedsAssignment ≠ 0) (hr : rm.pipe_reset.pipe_id = 0)
    (hl : (rm.leftHalf ctx transform src_rect dst_rect).1.width <
      (rm.kMaxSourcePipeWidth : ℚ))
    (hrw : (rm.rightHalf ctx transform src_rect dst_rect).1.width <
      (rm.kMaxSourcePipeWidth : ℚ)) :
    (rm.DisplaySplitConfig ctx transform src_rect dst_rect cfg).1 = DisplayError.kErrorNone ∧
    (UINT32 (rm.leftHalf ctx transform src_rect dst_rect).2.right >
        UINT32 (rm.leftHalf ctx transform src_rect dst_rect).2.left →
      (rm.DisplaySplitConfig ctx transform src_rect dst_rect cfg).2.left_pipe =
          rm.assignPipe cfg.left_pipe (rm.leftHalf ctx transform src_rect dst_rect).1
            (rm.leftHalf ctx transform src_rect dst_rect).2 ∧
        (UINT32 (rm.rightHalf ctx transform src_rect dst_rect).2.right >
            UINT32 (rm.rightHalf ctx transform src_rect dst_rect).2.left →
          (rm.DisplaySplitConfig ctx transform src_rect dst_rect cfg).2.right_pipe =
              rm.assignPipe cfg.right_pipe (rm.rightHalf ctx transform src_rect dst_rect).1
                (rm.rightHalf ctx transform src_rect dst_rect).2 ∧
            (rm.DisplaySplitConfig ctx transform src_rect dst_rect cfg).2.is_right_pipe =
              true) ∧
        (¬ UINT32 (rm.rightHalf ctx transform src_rect dst_rect).2.right >
            UINT32 (rm.rightHalf ctx transform src_rect dst_rect).2.left →
          (rm.DisplaySplitConfig ctx transform src_rect dst_rect cfg).2.right_pipe =
              rm.pipe_reset ∧
            (rm.DisplaySplitConfig ctx transform src_rect dst_rect cfg).2.is_right_pipe =
              false)) ∧
    (¬ UINT32 (rm.leftHalf ctx transform src_rect dst_rect).2.right >
        UINT32 (rm.leftHalf ctx transform src_rect dst_rect).2.left →
      (rm.DisplaySplitConfig ctx transform src_rect dst_rect cfg).2.right_pipe =
          rm.pipe_reset ∧
        (rm.DisplaySplitConfig ctx transform src_rect dst_rect cfg).2.is_right_pipe = false ∧
        (UINT32 (rm.rightHalf ctx transform src_rect dst_rect).2.right >
            UINT32 (rm.rightHalf ctx transform src_rect dst_rect).2.left →
          (rm.DisplaySplitConfig ctx transform src_rect dst_rect cfg).2.left_pipe =
            rm.assignPipe rm.pipe_reset (rm.rightHalf ctx transform src_rect dst_rect).1
              (rm.rightHalf ctx transform src_rect dst_rect).2) ∧
        (¬ UINT32 (rm.rightHalf ctx transform src_rect dst_rect).2.right >
            UINT32 (rm.rightHalf ctx transform src_rect dst_rect).2.left →
          (rm.DisplaySplitConfig ctx transform src_rect dst_rect cfg).2.left_pipe =
            rm.pipe_reset)) :=
  DisplaySplitConfig_normal_aux rm ctx transform src_rect dst_rect cfg hk hr hl hrw

theorem DisplaySplitConfig_normal_witness :
    sampleResManagerDS.kPipeIdNeedsAssignment ≠ 0 ∧
    sampleResManagerDS.pipe_reset.pipe_id = 0 ∧
    sampleResManagerDS.leftHalf sampleCtx {} sampleSrc1024
        { left := 28, top := 0, right := 1052, bottom := 100 } =
      ({ left := 0, top := 0, right := 512, bottom := 100 },
        { left := 28, top := 0, right := 540, bottom := 100 }) ∧
    sampleResManagerDS.rightHalf sampleCtx {} sampleSrc1024
        { left := 28, top := 0, right := 1052, bottom := 100 } =
      ({ left := 512, top := 0, right := 1024, bottom := 100 },
        { left := 540, top := 0, right := 1052, bottom := 100 }) ∧
    (sampleResManagerDS.DisplaySplitConfig sampleCtx {} sampleSrc1024
        { left := 28, top := 0, right := 1052, bottom := 100 } sampleConfig).1 =
      DisplayError.kErrorNone ∧
    (sampleResManagerDS.DisplaySplitConfig sampleCtx {} sampleSrc1024
        { left := 28, top := 0, right := 1052, bottom := 100 } sampleConfig).2.is_right_pipe =
      true :=
  ⟨by decide, rfl, by decide!, by decide!,
    (DisplaySplitConfig_normal sampleResManagerDS sampleCtx {} sampleSrc1024
      { left := 28, top := 0, right := 1052, bottom := 100 } sampleConfig (by decide) rfl
      (by decide!) (by decide!)).1,
    (((DisplaySplitConfig_normal sampleResManagerDS sampleCtx {} sampleSrc1024
      { left := 28, top := 0, right := 1052, bottom := 100 } sampleConfig (by decide) rfl
      (by decide!) (by decide!)).2.1 (by decide!)).2.1 (by decide!)).2⟩

/-- C19 fails as stated: on the 1080-wide display split at column 540, the destination
`[28.5, 0, 540.5, 100]` of a 1024-wide source has a left half 511.5 wide and a right half
0.5 wide, both positive, and neither crop (1023 and 1 wide) reaches the limit 2560; but the
right half spans no whole pixel column, so the right pipe is reset and
`is_right_pipe = false`. -/
theorem DisplaySplitConfig_normal_counterexample :
    sampleResManagerDS.leftHalf sampleCtx {} sampleSrc1024 sampleDstHalfPixel =
      ({ left := 0, top := 0, right := 1023, bottom := 100 },
        { left := 57 / 2, top := 0, right := 540, bottom := 100 }) ∧
    sampleResManagerDS.rightHalf sampleCtx {} sampleSrc1024 sampleDstHalfPixel =
      ({ left := 1023, top := 0, right := 1024, bottom := 100 },
        { left := 540, top := 0, right := 1081 / 2, bottom := 100 }) ∧
    (0 : ℚ) < (sampleResManagerDS.leftHalf sampleCtx {} sampleSrc1024
      sampleDstHalfPixel).2.width ∧
    (0 : ℚ) < (sampleResManagerDS.rightHalf sampleCtx {} sampleSrc1024
      sampleDstHalfPixel).2.width ∧
    (sampleResManagerDS.DisplaySplitConfig sampleCtx {} sampleSrc1024 sampleDstHalfPixel
      sampleConfig).1 = DisplayError.kErrorNone ∧
    (sampleResManagerDS.DisplaySplitConfig sampleCtx {} sampleSrc1024 sampleDstHalfPixel
      sampleConfig).2.is_right_pipe = false ∧
    (sampleResManagerDS.DisplaySplitConfig sampleCtx {} sampleSrc1024 sampleDstHalfPixel
      sampleConfig).2.right_pipe = sampleResManagerDS.pipe_reset := by
  refine ⟨by decide!, by decide!, by decide!, by decide!, by decide!, by decide!,
    by decide!⟩

/-! ### The two-pipes-on-one-side cases -/

/-- C17, evaluated: on the 7680-wide display split at column 3840, a source 3000 wide shown
at `[840, 0, 3840, 100]` lies in the left half and its left-half crop reaches the limit
2560.  `DisplaySplitConfig` returns success with `is_right_pipe = true` and the left
`SplitRect` half on the left pipe, but the statements after the `if` chain reset the right
pipe, which therefore does not hold the right `SplitRect` half.  Shown at
`[0, 0, 3000, 100]`, short of the split, the layer is rejected. -/
theorem DisplaySplitConfig_left_eval :
    sampleDstLeftOfSplit.right ≤ FLOAT sampleCtx8K.display_attributes.split_left ∧
    (sampleResManagerDS.leftHalf sampleCtx8K {} sampleSrc3000 sampleDstLeftOfSplit).1.width =
      3000 ∧
    (sampleResManagerDS.DisplaySplitConfig sampleCtx8K {} sampleSrc3000 sampleDstLeftOfSplit
      sampleConfig).1 = DisplayError.kErrorNone ∧
    (sampleResManagerDS.DisplaySplitConfig sampleCtx8K {} sampleSrc3000 sampleDstLeftOfSplit
      sampleConfig).2.is_right_pipe = true ∧
    (sampleResManagerDS.DisplaySplitConfig sampleCtx8K {} sampleSrc3000 sampleDstLeftOfSplit
      sampleConfig).2.left_pipe =
      sampleResManagerDS.assignPipe sampleConfig.left_pipe
        (ResManager.SplitRect false sampleSrc3000 sampleDstLeftOfSplit).src_left
        (ResManager.SplitRect false sampleSrc3000 sampleDstLeftOfSplit).dst_left ∧
    (sampleResManagerDS.DisplaySplitConfig sampleCtx8K {} sampleSrc3000 sampleDstLeftOfSplit
      sampleConfig).2.right_pipe = sampleResManagerDS.pipe_reset ∧
    (sampleResManagerDS.DisplaySplitConfig sampleCtx8K {} sampleSrc3000 sampleDstLeftOfSplit
      sampleConfig).2.right_pipe ≠
      sampleResManagerDS.assignPipe sampleConfig.right_pipe
        (ResManager.SplitRect false sampleSrc3000 sampleDstLeftOfSplit).src_right
        (ResManager.SplitRect false sampleSrc3000 sampleDstLeftOfSplit).dst_right ∧
    sampleDstFarLeft.right ≤ FLOAT sampleCtx8K.display_attributes.split_left ∧
    (sampleResManagerDS.DisplaySplitConfig sampleCtx8K {} sampleSrc3000 sampleDstFarLeft
      sampleConfig).1 = DisplayError.kErrorNotSupported := by
  refine ⟨by decide!, by decide!, by decide!, by decide!, by decide!, by decide!,
    by decide!, by decide!, by decide!⟩

/-- C18, evaluated: on the 7680-wide display split at column 3840, a source 3000 wide shown
at `[3840, 0, 6840, 100]` lies in the right half and its right-half crop reaches the limit
2560.  `DisplaySplitConfig` returns success with `is_right_pipe = true` and the left
`SplitRect` half on the left pipe, but the statements after the `if` chain put the whole
right-half crop and destination on the right pipe: it is 3000 wide and covers the
destination of the left pipe.  Shown at `[4000, 0, 7000, 100]`, clear of the split, the layer
is rejected. -/
theorem DisplaySplitConfig_right_eval :
    sampleDstRightOfSplit.left ≥ FLOAT sampleCtx8K.display_attributes.split_left ∧
    (sampleResManagerDS.rightHalf sampleCtx8K {} sampleSrc3000
      sampleDstRightOfSplit).1.width = 3000 ∧
    (sampleResManagerDS.DisplaySplitConfig sampleCtx8K {} sampleSrc3000
      sampleDstRightOfSplit sampleConfig).1 = DisplayError.kErrorNone ∧
    (sampleResManagerDS.DisplaySplitConfig sampleCtx8K {} sampleSrc3000
      sampleDstRightOfSplit sampleConfig).2.is_right_pipe = true ∧
    (sampleResManagerDS.DisplaySplitConfig sampleCtx8K {} sampleSrc3000
      sampleDstRightOfSplit sampleConfig).2.left_pipe =
      sampleResManagerDS.assignPipe sampleConfig.left_pipe
        (ResManager.SplitRect false sampleSrc3000 sampleDstRightOfSplit).src_left
        (ResManager.SplitRect false sampleSrc3000 sampleDstRightOfSplit).dst_left ∧
    (sampleResManagerDS.DisplaySplitConfig sampleCtx8K {} sampleSrc3000
      sampleDstRightOfSplit sampleConfig).2.right_pipe =
      sampleResManagerDS.assignPipe sampleConfig.right_pipe sampleSrc3000
        sampleDstRightOfSplit ∧
    (sampleResManagerDS.DisplaySplitConfig sampleCtx8K {} sampleSrc3000
      sampleDstRightOfSplit sampleConfig).2.right_pipe ≠
      sampleResManagerDS.assignPipe sampleConfig.right_pipe
        (ResManager.SplitRect false sampleSrc3000 sampleDstRightOfSplit).src_right
        (ResManager.SplitRect false sampleSrc3000 sampleDstRightOfSplit).dst_right ∧
    sampleDstFarRight.left ≥ FLOAT sampleCtx8K.display_attributes.split_left ∧
    (sampleResManagerDS.DisplaySplitConfig sampleCtx8K {} sampleSrc3000 sampleDstFarRight
      sampleConfig).1 = DisplayError.kErrorNotSupported := by
  refine ⟨by decide!, by decide!, by decide!, by decide!, by decide!, by decide!,
    by decide!, by decide!, by decide!⟩

end sde

namespace sde

/-! ## The layer loop of `Config` -/

theorem set_eq_self_of_getElem? {α : Type} (l : List α) (i : ℕ) (a : α)
    (h : l[i]? = some a) : l.set i a = l := by
  apply List.ext_getElem?
  intro n
  rw [List.getElem?_set]
  split_ifs with h1 h2
  · subst h1; exact h.symm
  · subst h1
    rw [List.getElem?_eq_none (by omega)] at h
    simp at h
  · rfl

theorem ConfigRotateAndSplit_eq (rm : ResManager) (ctx : DisplayResourceContext)
    (layer : Layer) (src_rect dst_rect : LayerRect) (a b : CFloat) (cfg : HWLayerConfig)
    (rc : ℕ) :
    rm.ConfigRotateAndSplit ctx layer src_rect dst_rect a b cfg rc =
      ((if rm.hw_res_info_.is_src_split = true then
          rm.SrcSplitConfig ctx (rm.SplitTransform layer a b)
            (rm.SplitSource layer src_rect a b) dst_rect
            (rm.RotatedConfig layer src_rect a b cfg)
        else
          rm.DisplaySplitConfig ctx (rm.SplitTransform layer a b)
            (rm.SplitSource layer src_rect a b) dst_rect
            (rm.RotatedConfig layer src_rect a b cfg)).1,
        (if rm.hw_res_info_.is_src_split = true then
          rm.SrcSplitConfig ctx (rm.SplitTransform layer a b)
            (rm.SplitSource layer src_rect a b) dst_rect
            (rm.RotatedConfig layer src_rect a b cfg)
        else
          rm.DisplaySplitConfig ctx (rm.SplitTransform layer a b)
            (rm.SplitSource layer src_rect a b) dst_rect
            (rm.RotatedConfig layer src_rect a b cfg)).2,
        if rm.NeedsRotator layer a b then (rc + 1) % 2 ^ 32 else rc) := by
  unfold ResManager.ConfigRotateAndSplit ResManager.RotatedConfig ResManager.SplitTransform
    ResManager.SplitSource ResManager.RotationConfig
  by_cases h : rm.NeedsRotator layer a b
  · have h' := h
    unfold ResManager.NeedsRotator at h'
    simp only [h, h', if_true]
  · have h' := h
    unfold ResManager.NeedsRotator at h'
    simp only [h, h', if_false]

theorem DisplaySplitConfig_error_indep (rm : ResManager) (ctx : DisplayResourceContext)
    (transform : LayerTransform) (src_rect dst_rect : LayerRect) (cfg cfg' : HWLayerConfig) :
    (rm.DisplaySplitConfig ctx transform src_rect dst_rect cfg).1 =
      (rm.DisplaySplitConfig ctx transform src_rect dst_rect cfg').1 := by
  rw [DisplaySplitConfig_eq, DisplaySplitConfig_eq]
  split_ifs <;> rfl

theorem DisplaySplitConfig_error_cases (rm : ResManager) (ctx : DisplayResourceContext)
    (transform : LayerTransform) (src_rect dst_rect : LayerRect) (cfg : HWLayerConfig) :
    (rm.DisplaySplitConfig ctx transform src_rect dst_rect cfg).1 = DisplayError.kErrorNone ∨
      (rm.DisplaySplitConfig ctx transform src_rect dst_rect cfg).1 =
        DisplayError.kErrorNotSupported := by
  rw [DisplaySplitConfig_eq]
  split_ifs <;> simp

theorem ConfigRotateAndSplit_error_indep (rm : ResManager) (ctx : DisplayResourceContext)
    (layer : Layer) (src_rect dst_rect : LayerRect) (a b : CFloat) (cfg cfg' : HWLayerConfig)
    (rc rc' : ℕ) :
    (rm.ConfigRotateAndSplit ctx layer src_rect dst_rect a b cfg rc).1 =
      (rm.ConfigRotateAndSplit ctx layer src_rect dst_rect a b cfg' rc').1 := by
  rw [ConfigRotateAndSplit_eq, ConfigRotateAndSplit_eq]
  simp only
  split_ifs
  · simp [SrcSplitConfig_eq]
    split_ifs <;> rfl
  · exact DisplaySplitConfig_error_indep _ _ _ _ _ _ _

theorem ConfigRotateAndSplit_error_cases (rm : ResManager) (ctx : DisplayResourceContext)
    (layer : Layer) (src_rect dst_rect : LayerRect) (a b : CFloat) (cfg : HWLayerConfig)
    (rc : ℕ) :
    (rm.ConfigRotateAndSplit ctx layer src_rect dst_rect a b cfg rc).1 =
        DisplayError.kErrorNone ∨
      (rm.ConfigRotateAndSplit ctx layer src_rect dst_rect a b cfg rc).1 =
        DisplayError.kErrorNotSupported := by
  rw [ConfigRotateAndSplit_eq]
  simp only
  split_ifs
  · left
    exact (SrcSplitConfig_spec_aux _ _ _ _ _ _).1
  · exact DisplaySplitConfig_error_cases _ _ _ _ _ _

theorem ConfigLayer_eq_LayerResult (rm : ResManager) (ctx : DisplayResourceContext) (i : ℕ)
    (hw : HWLayers) (rc : ℕ) (idx : ℕ) (layer : Layer) (cfg : HWLayerConfig)
    (h1 : hw.info.index[i]? = some idx) (h2 : hw.info.stack[idx]? = some layer)
    (h3 : hw.config[i]? = some cfg) :
    rm.ConfigLayer ctx i hw rc =
      (rm.LayerResult ctx layer cfg rc).map
        (fun r => (r.1, { hw with config := hw.config.set i r.2.1 }, r.2.2)) := by
  have hself : ({ hw with config := hw.config.set i cfg } : HWLayers) = hw := by
    rw [set_eq_self_of_getElem? _ _ _ h3]
  unfold ResManager.ConfigLayer ResManager.LayerResult
  simp only [h1, h2, h3]
  by_cases hv : ResManager.IsValidDimension layer.src_rect layer.dst_rect = false
  · simp only [hv, if_true, Option.map_some', hself]
  · simp only [hv, if_false]
    cases hvs : rm.ValidateScaling layer
      (rm.CalculateCropRects (displayScissor ctx) layer.transform layer.src_rect
        layer.dst_rect).1
      (rm.CalculateCropRects (displayScissor ctx) layer.transform layer.src_rect
        layer.dst_rect).2 1 1 with
    | none => simp
    | some r =>
      obtain ⟨verr, a, b⟩ := r
      by_cases he : verr = DisplayError.kErrorNone
      · subst he
        simp
      · simp [he, hself]

theorem ConfigLayer_lookups (rm : ResManager) (ctx : DisplayResourceContext) (i : ℕ)
    (hw : HWLayers) (rc : ℕ) (res : DisplayError × HWLayers × ℕ)
    (h : rm.ConfigLayer ctx i hw rc = some res) :
    ∃ idx layer cfg, hw.info.index[i]? = some idx ∧ hw.info.stack[idx]? = some layer ∧
      hw.config[i]? = some cfg := by
  unfold ResManager.ConfigLayer at h
  split at h
  · simp at h
  · rename_i idx hidx
    split at h
    · rename_i layer cfg hlayer hcfg
      exact ⟨idx, layer, cfg, hidx, hlayer, hcfg⟩
    · simp at h

end sde

namespace sde

theorem ConfigLayer_spec (rm : ResManager) (ctx : DisplayResourceContext) (i : ℕ)
    (hw hw2 : HWLayers) (rc rc2 : ℕ) (e : DisplayError)
    (h : rm.ConfigLayer ctx i hw rc = some (e, hw2, rc2)) :
    ∃ idx layer cfg r, hw.info.index[i]? = some idx ∧ hw.info.stack[idx]? = some layer ∧
      hw.config[i]? = some cfg ∧ rm.LayerResult ctx layer cfg rc = some r ∧ e = r.1 ∧
      hw2 = { hw with config := hw.config.set i r.2.1 } ∧ rc2 = r.2.2 := by
  obtain ⟨idx, layer, cfg, h1, h2, h3⟩ := ConfigLayer_lookups rm ctx i hw rc _ h
  rw [ConfigLayer_eq_LayerResult rm ctx i hw rc idx layer cfg h1 h2 h3] at h
  cases hr : rm.LayerResult ctx layer cfg rc with
  | none => rw [hr] at h; simp at h
  | some r =>
    rw [hr] at h
    simp only [Option.map_some', Option.some.injEq, Prod.mk.injEq] at h
    exact ⟨idx, layer, cfg, r, h1, h2, h3, hr, h.1.symm, h.2.1.symm, h.2.2.symm⟩

theorem LayerDone_of_set (rm : ResManager) (ctx : DisplayResourceContext) (hw hw1 : HWLayers)
    (i j : ℕ) (x : HWLayerConfig) (e : DisplayError) (hne : j ≠ i)
    (h : LayerDone rm ctx { hw with config := hw.config.set i x } hw1 j e) :
    LayerDone rm ctx hw hw1 j e := by
  obtain ⟨idx, layer, cfg, rcj, r, h1, h2, h3, h4, h5, h6⟩ := h
  refine ⟨idx, layer, cfg, rcj, r, h1, h2, ?_, h4, h5, h6⟩
  simp only at h3
  rw [List.getElem?_set_ne (Ne.symm hne)] at h3
  exact h3

theorem ConfigLoop_spec (rm : ResManager) (ctx : DisplayResourceContext) (n : ℕ) :
    ∀ (i : ℕ) (hw hw1 : HWLayers) (rc rc1 : ℕ) (err : DisplayError),
      ResManager.ConfigLoop rm ctx n i hw rc = some (err, hw1, rc1) →
      hw1.info = hw.info ∧ (∀ j, j < i → hw1.config[j]? = hw.config[j]?) ∧
      ∃ m, m ≤ n ∧ (∀ j, i + m ≤ j → hw1.config[j]? = hw.config[j]?) ∧
        (∀ j, i ≤ j → j + 1 < i + m → LayerDone rm ctx hw hw1 j DisplayError.kErrorNone) ∧
        (0 < m → LayerDone rm ctx hw hw1 (i + m - 1) err) ∧
        (err = DisplayError.kErrorNone → m = n) ∧
        (err ≠ DisplayError.kErrorNone → 0 < m) ∧
        ResManager.ConfigLoop rm ctx m i hw rc = some (err, hw1, rc1) := by
  induction n with
  | zero =>
    intro i hw hw1 rc rc1 err h
    simp only [ResManager.ConfigLoop, Option.some.injEq, Prod.mk.injEq] at h
    obtain ⟨h1, h2, h3⟩ := h
    subst h1 h2 h3
    refine ⟨rfl, fun j _ => rfl, 0, le_refl 0, fun j _ => rfl, ?_, ?_, fun _ => rfl, ?_, ?_⟩
    · intro j h1 h2; omega
    · intro h; omega
    · intro h; exact absurd rfl h
    · simp [ResManager.ConfigLoop]
  | succ n ih =>
    intro i hw hw1 rc rc1 err h
    simp only [ResManager.ConfigLoop] at h
    split at h
    · simp at h
    · rename_i e hw2 rc2 hlayer
      obtain ⟨idx, layer, cfg, r, h1, h2, h3, h4, he, hhw2, hrc2⟩ :=
        ConfigLayer_spec rm ctx i hw hw2 rc rc2 e hlayer
      have hlen : i < hw.config.length := by
        by_contra hc
        rw [List.getElem?_eq_none (by omega)] at h3
        simp at h3
      have hset : hw2.config[i]? = some r.2.1 := by
        rw [hhw2]
        simp only
        rw [List.getElem?_set_self hlen]
      have hother : ∀ j, j ≠ i → hw2.config[j]? = hw.config[j]? := by
        intro j hj
        rw [hhw2]
        simp only
        rw [List.getElem?_set_ne (Ne.symm hj)]
      have hinfo2 : hw2.info = hw.info := by rw [hhw2]
      split_ifs at h with herr
      · simp only [Option.some.injEq, Prod.mk.injEq] at h
        obtain ⟨e1, e2, e3⟩ := h
        subst e1 e2 e3
        refine ⟨hinfo2, fun j hj => hother j (by omega), 1, by omega,
          fun j hj => hother j (by omega), ?_, ?_, ?_, fun _ => Nat.one_pos, ?_⟩
        · intro j h5 h6; omega
        · intro _
          rw [Nat.add_sub_cancel]
          exact ⟨idx, layer, cfg, rc, r, h1, h2, h3, h4, hset, he.symm⟩
        · intro h5; exact absurd h5 herr
        · simp only [ResManager.ConfigLoop, hlayer]
          simp [herr]
      · simp only [ne_eq, not_not] at herr
        obtain ⟨hinfo, hlow, m, hm, hhigh, hdone, hlast, hnone, hpos, hrun⟩ :=
          ih (i + 1) hw2 hw1 rc2 rc1 err h
        have hi : hw1.config[i]? = some r.2.1 := by
          rw [hlow i (by omega)]; exact hset
        have hdone_i : LayerDone rm ctx hw hw1 i DisplayError.kErrorNone :=
          ⟨idx, layer, cfg, rc, r, h1, h2, h3, h4, hi, by rw [← he, herr]⟩
        refine ⟨hinfo.trans hinfo2, ?_, m + 1, by omega, ?_, ?_, ?_, ?_, fun _ => by omega, ?_⟩
        · intro j hj
          rw [hlow j (by omega), hother j (by omega)]
        · intro j hj
          rw [hhigh j (by omega), hother j (by omega)]
        · intro j h5 h6
          by_cases hji : j = i
          · subst hji; exact hdone_i
          · have := hdone j (by omega) (by omega)
            rw [hhw2] at this
            exact LayerDone_of_set rm ctx hw hw1 i j _ _ hji this
        · intro _
          by_cases hm0 : m = 0
          · subst hm0
            simp only [ResManager.ConfigLoop, Option.some.injEq, Prod.mk.injEq] at hrun
            rw [← hrun.1]
            simpa using hdone_i
          · have := hlast (by omega)
            rw [hhw2] at this
            have h7 : i + 1 + m - 1 = i + (m + 1) - 1 := by omega
            rw [h7] at this
            exact LayerDone_of_set rm ctx hw hw1 i _ _ _ (by omega) this
        · intro h5
          rw [hnone h5]
        · simp only [ResManager.ConfigLoop, hlayer]
          simp [herr, hrun]

end sde

namespace sde

/-! ## `ValidateScaling` ends -/

theorem rotScaleLoop_some (m : ℕ) (n : ℕ) :
    ∀ (scale rot : CFloat), scale ≤ (m : ℚ) * 2 ^ n →
      ∃ r, rotScaleLoop m (n + 1) scale rot = some r := by
  induction n with
  | zero =>
    intro scale rot h
    simp only [pow_zero, mul_one] at h
    simp only [rotScaleLoop, gt_iff_lt, not_lt.mpr h, if_false]
    exact ⟨_, rfl⟩
  | succ n ih =>
    intro scale rot h
    rw [rotScaleLoop]
    split_ifs with h1
    · apply ih
      rw [pow_succ] at h
      linarith
    · exact ⟨_, rfl⟩

theorem lt_two_of_UINT32_le_one (x : CFloat) (h : UINT32 x ≤ 1) : x < 2 := by
  unfold UINT32 at h
  have h1 : Int.toNat ⌊x⌋ ≤ 1 := by
    rcases min_le_iff.mp h with h2 | h2
    · exact h2
    · norm_num at h2
  have h2 : ⌊x⌋ ≤ 1 := by omega
  have h3 : ⌊x⌋ < 2 := by omega
  have := Int.floor_lt.mp h3
  exact_mod_cast this

theorem rotScaleLoop_bound_some (m : ℕ) (scale rot : CFloat) (hm : 1 ≤ m)
    (h : scale < 2 ∨ ∃ k : ℕ, k < 2 ^ 32 ∧ scale ≤ (k : ℚ)) :
    ∃ r, rotScaleLoop m kScaleLoopBound scale rot = some r := by
  have hm1 : (1 : ℚ) ≤ (m : ℚ) := by exact_mod_cast hm
  apply rotScaleLoop_some m 63
  rcases h with h | ⟨k, hk, h⟩
  · have : (2 : ℚ) ≤ (m : ℚ) * 2 ^ 63 := by nlinarith
    linarith
  · have hk1 : (k : ℚ) ≤ 2 ^ 32 := by exact_mod_cast hk.le
    have : (2 : ℚ) ^ 32 ≤ (m : ℚ) * 2 ^ 63 := by nlinarith
    linarith

end sde

namespace sde

theorem ValidateScaling_some (rm : ResManager) (layer : Layer) (crop dst : LayerRect)
    (rx ry : CFloat) (hm : 1 ≤ rm.hw_res_info_.max_scale_down) :
    ∃ r, rm.ValidateScaling layer crop dst rx ry = some r := by
  unfold ResManager.ValidateScaling
  dsimp only
  generalize (if rm.IsRotationNeeded layer.transform.rotation = true then
    crop.bottom - crop.top else crop.right - crop.left) = cw
  generalize (if rm.IsRotationNeeded layer.transform.rotation = true then
    crop.right - crop.left else crop.bottom - crop.top) = ch
  generalize dst.right - dst.left = dw
  generalize dst.bottom - dst.top = dh
  generalize cw / dw = sx
  generalize ch / dh = sy
  have hmdr : ∀ s : CFloat,
      s ≤ (((if rm.hw_res_info_.has_rotator_downscale = true then
        (rm.hw_res_info_.max_scale_down * rm.kMaxRotateDownScaleRatio) % 2 ^ 32
        else rm.hw_res_info_.max_scale_down : ℕ)) : ℚ) →
      ∃ r, rotScaleLoop rm.hw_res_info_.max_scale_down kScaleLoopBound s 1 = some r := by
    intro s hs
    split_ifs at hs with hrd
    · exact rotScaleLoop_bound_some _ _ _ hm
        (Or.inr ⟨_, Nat.mod_lt _ (by norm_num), hs⟩)
    · apply rotScaleLoop_some _ 63
      have hm1 : (1 : ℚ) ≤ (rm.hw_res_info_.max_scale_down : ℚ) := by exact_mod_cast hm
      nlinarith
  generalize (if rm.hw_res_info_.has_rotator_downscale = true then
        (rm.hw_res_info_.max_scale_down * rm.kMaxRotateDownScaleRatio) % 2 ^ 32
        else rm.hw_res_info_.max_scale_down : ℕ) = mdr at hmdr ⊢
  have hend : ∀ e : DisplayError, (∃ r, rotScaleLoop rm.hw_res_info_.max_scale_down
        kScaleLoopBound sx 1 = some r) →
      (∃ r, rotScaleLoop rm.hw_res_info_.max_scale_down kScaleLoopBound sy 1 = some r) →
      ∃ r, (match rotScaleLoop rm.hw_res_info_.max_scale_down kScaleLoopBound sx 1 with
        | none => none
        | some rot_x =>
          match rotScaleLoop rm.hw_res_info_.max_scale_down kScaleLoopBound sy 1 with
          | none => none
          | some rot_y => some (e, rot_x, rot_y)) = some r := by
    rintro e ⟨a, ha⟩ ⟨b, hb⟩
    rw [ha, hb]
    exact ⟨_, rfl⟩
  by_cases h1 : dw < 1 ∨ dh < 1
  · simp only [h1, if_true]; exact ⟨_, rfl⟩
  simp only [h1, if_false]
  by_cases h2 : cw < 1 ∨ ch < 1
  · simp only [h2, if_true]; exact ⟨_, rfl⟩
  simp only [h2, if_false]
  by_cases hU : UINT32 sx > 1 ∨ UINT32 sy > 1
  · simp only [hU, if_true]
    by_cases hR : sx > (mdr : ℚ) ∨ sy > (mdr : ℚ)
    · simp only [hR, if_true, ite_self]
      exact ⟨_, rfl⟩
    · simp only [hR, if_false]
      have hsx : sx ≤ (mdr : ℚ) := by
        by_contra hc; exact hR (Or.inl (not_le.mp hc))
      have hsy : sy ≤ (mdr : ℚ) := by
        by_contra hc; exact hR (Or.inr (not_le.mp hc))
      split_ifs
      all_goals first | exact ⟨_, rfl⟩ | exact hend _ (hmdr sx hsx) (hmdr sy hsy)
  · simp only [hU, if_false]
    have hsx : sx < 2 := lt_two_of_UINT32_le_one sx (by
      by_contra hc; exact hU (Or.inl (by omega)))
    have hsy : sy < 2 := lt_two_of_UINT32_le_one sy (by
      by_contra hc; exact hU (Or.inr (by omega)))
    split_ifs
    all_goals first
      | exact ⟨_, rfl⟩
      | exact hend _ (rotScaleLoop_bound_some _ _ _ hm (Or.inl hsx))
          (rotScaleLoop_bound_some _ _ _ hm (Or.inl hsy))

end sde

namespace sde

/-! ## The error code of `Config` -/

theorem LayerResult_some (rm : ResManager) (ctx : DisplayResourceContext) (layer : Layer)
    (cfg : HWLayerConfig) (rc : ℕ) (hm : 1 ≤ rm.hw_res_info_.max_scale_down) :
    ∃ r, rm.LayerResult ctx layer cfg rc = some r := by
  unfold ResManager.LayerResult
  split_ifs
  · exact ⟨_, rfl⟩
  · obtain ⟨⟨verr, a, b⟩, hr⟩ := ValidateScaling_some rm layer
      (rm.CalculateCropRects (displayScissor ctx) layer.transform layer.src_rect
        layer.dst_rect).1
      (rm.CalculateCropRects (displayScissor ctx) layer.transform layer.src_rect
        layer.dst_rect).2 1 1 hm
    rw [hr]
    simp only
    split_ifs
    · exact ⟨_, rfl⟩
    · exact ⟨_, rfl⟩

theorem ConfigLoop_total (rm : ResManager) (ctx : DisplayResourceContext)
    (hm : 1 ≤ rm.hw_res_info_.max_scale_down) (n : ℕ) :
    ∀ (i : ℕ) (hw : HWLayers) (rc : ℕ),
      (∀ j, i ≤ j → j < i + n →
        (hw.info.index[j]?.bind (fun idx => hw.info.stack[idx]?)).isSome = true ∧
          j < hw.config.length) →
      ∃ res, ResManager.ConfigLoop rm ctx n i hw rc = some res := by
  induction n with
  | zero =>
    intro i hw rc _
    exact ⟨_, rfl⟩
  | succ n ih =>
    intro i hw rc hwf
    obtain ⟨h1, h2⟩ := hwf i (le_refl i) (by omega)
    cases hidx : hw.info.index[i]? with
    | none => rw [hidx] at h1; simp at h1
    | some idx =>
      rw [hidx] at h1
      simp only [Option.some_bind] at h1
      cases hlayer : hw.info.stack[idx]? with
      | none => rw [hlayer] at h1; simp at h1
      | some layer =>
        have hcfg : hw.config[i]? = some (hw.config.get ⟨i, h2⟩) := by
          rw [List.getElem?_eq_getElem h2]
          rfl
        obtain ⟨r, hr⟩ := LayerResult_some rm ctx layer (hw.config.get ⟨i, h2⟩) rc hm
        have hl := ConfigLayer_eq_LayerResult rm ctx i hw rc idx layer _ hidx hlayer hcfg
        rw [hr] at hl
        simp only [Option.map_some'] at hl
        simp only [ResManager.ConfigLoop, hl]
        split_ifs
        · exact ⟨_, rfl⟩
        · apply ih
          intro j hj1 hj2
          simp only [List.length_set]
          exact hwf j (by omega) (by omega)

theorem LayerDone_error (rm : ResManager) (ctx : DisplayResourceContext) (hw hw1 : HWLayers)
    (j : ℕ) (e : DisplayError) (h : LayerDone rm ctx hw hw1 j e) :
    (e = DisplayError.kErrorNone ∨ e = DisplayError.kErrorNotSupported) ∧
      (e ≠ DisplayError.kErrorNone ↔ LayerFails rm ctx hw j) := by
  obtain ⟨idx, layer, cfg, rcj, r, h1, h2, h3, h4, _, h6⟩ := h
  subst h6
  unfold ResManager.LayerResult at h4
  by_cases hv : ResManager.IsValidDimension layer.src_rect layer.dst_rect = false
  · simp only [hv, if_true, Option.some.injEq] at h4
    subst h4
    refine ⟨Or.inr rfl, fun _ => ⟨idx, layer, cfg, h1, h2, h3, Or.inl hv⟩, fun _ => by simp⟩
  · simp only [hv, if_false] at h4
    cases hvs : rm.ValidateScaling layer
      (rm.CalculateCropRects (displayScissor ctx) layer.transform layer.src_rect
        layer.dst_rect).1
      (rm.CalculateCropRects (displayScissor ctx) layer.transform layer.src_rect
        layer.dst_rect).2 1 1 with
    | none => rw [hvs] at h4; simp at h4
    | some v =>
      obtain ⟨verr, a, b⟩ := v
      rw [hvs] at h4
      simp only at h4
      by_cases he : verr = DisplayError.kErrorNone
      · subst he
        simp only [Bool.true_eq_false, ne_eq, not_true_eq_false, if_false,
          Option.some.injEq] at h4
        subst h4
        refine ⟨ConfigRotateAndSplit_error_cases _ _ _ _ _ _ _ _ _, ?_, ?_⟩
        · intro hne
          refine ⟨idx, layer, cfg, h1, h2, h3, Or.inr (Or.inr ⟨a, b, hvs, ?_⟩)⟩
          rw [ConfigRotateAndSplit_error_indep rm ctx layer _ _ a b cfg cfg 0 rcj]
          exact hne
        · rintro ⟨idx1, layer1, cfg1, g1, g2, g3, g4⟩
          rw [h1] at g1
          cases g1
          rw [h2] at g2
          cases g2
          rw [h3] at g3
          cases g3
          rcases g4 with g4 | ⟨e1, a1, b1, g4, g5⟩ | ⟨a1, b1, g4, g5⟩
          · exact absurd g4 hv
          · rw [hvs] at g4
            simp only [Option.some.injEq, Prod.mk.injEq] at g4
            exact absurd g4.1.symm g5
          · rw [hvs] at g4
            simp only [Option.some.injEq, Prod.mk.injEq, true_and] at g4
            obtain ⟨ea, eb⟩ := g4
            subst ea eb
            rw [ConfigRotateAndSplit_error_indep rm ctx layer _ _ a b cfg cfg rcj 0]
            exact g5
      · simp only [Bool.true_eq_false, if_false, ne_eq, he, not_false_eq_true, if_true,
          Option.some.injEq] at h4
        subst h4
        refine ⟨Or.inr rfl, fun _ => ⟨idx, layer, cfg, h1, h2, h3,
          Or.inr (Or.inl ⟨verr, a, b, hvs, he⟩)⟩, fun _ => by simp⟩

theorem Config_total (rm : ResManager) (ctx : DisplayResourceContext) (hw : HWLayers)
    (rc : ℕ) (hm : 1 ≤ rm.hw_res_info_.max_scale_down) (hwf : hw.WF) :
    ∃ res, rm.Config ctx hw rc = some res :=
  ConfigLoop_total rm ctx hm hw.info.count 0 hw rc (fun j _ hj => hwf j (by omega))

theorem Config_errors_aux (rm : ResManager) (ctx : DisplayResourceContext) (hw : HWLayers)
    (rc : ℕ) (err : DisplayError) (hw1 : HWLayers) (rc1 : ℕ)
    (hres : rm.Config ctx hw rc = some (err, hw1, rc1)) :
    (err = DisplayError.kErrorNone ∨ err = DisplayError.kErrorNotSupported) ∧
      (err = DisplayError.kErrorNotSupported ↔
        ∃ j, j < hw.info.count ∧ LayerFails rm ctx hw j) ∧
      (∀ i, i < hw.info.count → LayerFails rm ctx hw i →
        (∀ j, j < i → ¬ LayerFails rm ctx hw j) →
        (∀ j, i < j → hw1.config[j]? = hw.config[j]?) ∧
          ResManager.ConfigLoop rm ctx (i + 1) 0 hw rc = some (err, hw1, rc1)) := by
  obtain ⟨_, _, m, hmn, hhigh, hdone, hlast, hnone, hpos, hrun⟩ :=
    ConfigLoop_spec rm ctx hw.info.count 0 hw hw1 rc rc1 err hres
  simp only [Nat.zero_add, Nat.zero_le, true_implies] at hhigh hdone hlast
  have hcases : err = DisplayError.kErrorNone ∨ err = DisplayError.kErrorNotSupported := by
    by_cases he : err = DisplayError.kErrorNone
    · exact Or.inl he
    · exact (LayerDone_error rm ctx hw hw1 _ err (hlast (hpos he))).1
  have hok : ∀ j, j + 1 < m → ¬ LayerFails rm ctx hw j := by
    intro j hj hf
    exact ((LayerDone_error rm ctx hw hw1 j _ (hdone j hj)).2.mpr hf) rfl
  have hfail : err ≠ DisplayError.kErrorNone → LayerFails rm ctx hw (m - 1) := by
    intro he
    exact (LayerDone_error rm ctx hw hw1 _ err (hlast (hpos he))).2.mp he
  have hall : err = DisplayError.kErrorNone → ∀ j, j < hw.info.count →
      ¬ LayerFails rm ctx hw j := by
    intro he j hj hf
    have hmc := hnone he
    by_cases hjm : j + 1 < m
    · exact hok j hjm hf
    · have hj1 : j = m - 1 := by omega
      have hd := hlast (by omega)
      rw [← hj1] at hd
      exact ((LayerDone_error rm ctx hw hw1 j err hd).2.mpr hf) he
  refine ⟨hcases, ⟨?_, ?_⟩, ?_⟩
  · intro he
    have hne : err ≠ DisplayError.kErrorNone := by rw [he]; simp
    exact ⟨m - 1, by have := hpos hne; omega, hfail hne⟩
  · rintro ⟨j, hj, hf⟩
    rcases hcases with he | he
    · exact absurd hf (hall he j hj)
    · exact he
  · intro i hi hf hfirst
    have hne : err ≠ DisplayError.kErrorNone := fun he => hall he i hi hf
    have hm0 := hpos hne
    have hmi : m = i + 1 := by
      by_contra hc
      by_cases h1 : i + 1 < m
      · exact hok i h1 hf
      · exact hfirst (m - 1) (by omega) (hfail hne)
    subst hmi
    exact ⟨fun j hj => hhigh j (by omega), hrun⟩

end sde

namespace sde

/-- C15: on a frame whose layers below `count` all exist, with a downscale limit of at least
one, `Config` returns; whenever it returns, the code is `kErrorNone` or
`kErrorNotSupported`, it is `kErrorNotSupported` exactly when some layer of the frame fails
`IsValidDimension`, `ValidateScaling` or its split configuration, and with `i` the first
failing layer the configurations of the layers after `i` are the ones of the input and the
whole result, `*rotate_count` included, is the one of the loop run on the layers `0..i`
only. -/
theorem Config_errors (rm : ResManager) (ctx : DisplayResourceContext) (hw : HWLayers)
    (rc : ℕ) :
    (1 ≤ rm.hw_res_info_.max_scale_down → hw.WF → ∃ res, rm.Config ctx hw rc = some res) ∧
    ∀ (err : DisplayError) (hw1 : HWLayers) (rc1 : ℕ),
      rm.Config ctx hw rc = some (err, hw1, rc1) →
      (err = DisplayError.kErrorNone ∨ err = DisplayError.kErrorNotSupported) ∧
      (err = DisplayError.kErrorNotSupported ↔
        ∃ j, j < hw.info.count ∧ LayerFails rm ctx hw j) ∧
      (∀ i, i < hw.info.count → LayerFails rm ctx hw i →
        (∀ j, j < i → ¬ LayerFails rm ctx hw j) →
        (∀ j, i < j → hw1.config[j]? = hw.config[j]?) ∧
          ResManager.ConfigLoop rm ctx (i + 1) 0 hw rc = some (err, hw1, rc1)) :=
  ⟨Config_total rm ctx hw rc, Config_errors_aux rm ctx hw rc⟩

/-- Witness for C15: the frame `sampleFrame3`, whose second layer has an empty source: the
first layer is configured, the code is `kErrorNotSupported`, and the third layer keeps its
configuration. -/
theorem Config_errors_witness :
    (1 ≤ sampleResManager.hw_res_info_.max_scale_down ∧ sampleFrame3.WF) ∧
    sampleResManager.Config sampleCtx sampleFrame3 0 =
      some (DisplayError.kErrorNotSupported, sampleFrame3Done, 0) ∧
    ((∃ res, sampleResManager.Config sampleCtx sampleFrame3 0 = some res) ∧
      ((DisplayError.kErrorNotSupported = DisplayError.kErrorNone ∨
        DisplayError.kErrorNotSupported = DisplayError.kErrorNotSupported) ∧
      (DisplayError.kErrorNotSupported = DisplayError.kErrorNotSupported ↔
        ∃ j, j < sampleFrame3.info.count ∧
          LayerFails sampleResManager sampleCtx sampleFrame3 j))) :=
  have hwf : sampleFrame3.WF := by
    intro i hi
    have hi3 : i < 3 := hi
    interval_cases i <;> decide
  have hrun : sampleResManager.Config sampleCtx sampleFrame3 0 =
      some (DisplayError.kErrorNotSupported, sampleFrame3Done, 0) := by
    decide!
  ⟨⟨by decide, hwf⟩, hrun,
    (Config_errors sampleResManager sampleCtx sampleFrame3 0).1 (by decide) hwf,
    ((Config_errors sampleResManager sampleCtx sampleFrame3 0).2 _ _ _ hrun).1,
    ((Config_errors sampleResManager sampleCtx sampleFrame3 0).2 _ _ _ hrun).2.1⟩

end sde

namespace sde

/-! ## Pipe widths after `Config` -/

theorem SplitRect_src_widths (flip : Bool) (src dst : LayerRect) :
    (ResManager.SplitRect flip src dst).src_left.width = src.width / 2 ∧
      (ResManager.SplitRect flip src dst).src_right.width = src.width / 2 := by
  cases flip
  · simp only [ResManager.SplitRect, Bool.false_eq_true, if_false, LayerRect.width]
    constructor <;> ring
  · simp only [ResManager.SplitRect, if_true, LayerRect.width]
    constructor <;> ring

theorem SrcSplitConfig_widths (rm : ResManager) (ctx : DisplayResourceContext)
    (transform : LayerTransform) (src_rect dst_rect : LayerRect) (cfg : HWLayerConfig)
    (h : src_rect.width ≤ 2 * (rm.kMaxSourcePipeWidth : ℚ)) :
    PipeWidthsOk rm (rm.SrcSplitConfig ctx transform src_rect dst_rect cfg).2 := by
  rw [SrcSplitConfig_eq]
  have hs := SplitRect_src_widths transform.flip_horizontal src_rect dst_rect
  split_ifs with hc
  · simp only [PipeWidthsOk, ResManager.twoPipes, ResManager.assignPipe, hs.1, hs.2]
    constructor <;> intro _ <;> linarith
  · simp only [PipeWidthsOk, ResManager.assignPipe, Bool.false_eq_true, false_implies,
      and_true]
    intro _
    simp only [not_or, ge_iff_le, not_le] at hc
    have := hc.1
    simp only [LayerRect.width]
    linarith

theorem DisplaySplitConfig_widths (rm : ResManager) (ctx : DisplayResourceContext)
    (transform : LayerTransform) (src_rect dst_rect : LayerRect) (cfg : HWLayerConfig)
    (hk : rm.kPipeIdNeedsAssignment ≠ 0) (hr : rm.pipe_reset.pipe_id = 0)
    (hl : (rm.leftHalf ctx transform src_rect dst_rect).1.width <
      (rm.kMaxSourcePipeWidth : ℚ))
    (hrw : (rm.rightHalf ctx transform src_rect dst_rect).1.width <
      (rm.kMaxSourcePipeWidth : ℚ)) :
    PipeWidthsOk rm (rm.DisplaySplitConfig ctx transform src_rect dst_rect cfg).2 := by
  obtain ⟨_, h1, h2⟩ :=
    DisplaySplitConfig_normal_aux rm ctx transform src_rect dst_rect cfg hk hr hl hrw
  unfold PipeWidthsOk
  by_cases hL : UINT32 (rm.leftHalf ctx transform src_rect dst_rect).2.right >
      UINT32 (rm.leftHalf ctx transform src_rect dst_rect).2.left
  · obtain ⟨h3, h4, h5⟩ := h1 hL
    rw [h3]
    refine ⟨fun _ => le_of_lt hl, ?_⟩
    by_cases hR : UINT32 (rm.rightHalf ctx transform src_rect dst_rect).2.right >
        UINT32 (rm.rightHalf ctx transform src_rect dst_rect).2.left
    · rw [(h4 hR).1]
      exact fun _ => le_of_lt hrw
    · rw [(h5 hR).2]
      intro hc
      simp at hc
  · obtain ⟨_, h4, h5, h6⟩ := h2 hL
    rw [h4]
    refine ⟨?_, fun hc => by simp at hc⟩
    by_cases hR : UINT32 (rm.rightHalf ctx transform src_rect dst_rect).2.right >
        UINT32 (rm.rightHalf ctx transform src_rect dst_rect).2.left
    · rw [h5 hR]
      exact fun _ => le_of_lt hrw
    · rw [h6 hR, hr]
      intro hc
      exact absurd hc.symm hk

theorem split_widths (rm : ResManager) (ctx : DisplayResourceContext)
    (transform : LayerTransform) (src_rect dst_rect : LayerRect) (cfg : HWLayerConfig)
    (hk : rm.kPipeIdNeedsAssignment ≠ 0) (hr : rm.pipe_reset.pipe_id = 0)
    (h : rm.SplitFits ctx transform src_rect dst_rect) :
    PipeWidthsOk rm
      (if rm.hw_res_info_.is_src_split = true then
        rm.SrcSplitConfig ctx transform src_rect dst_rect cfg
      else rm.DisplaySplitConfig ctx transform src_rect dst_rect cfg).2 := by
  unfold ResManager.SplitFits at h
  split_ifs with hs
  · rw [if_pos hs] at h
    exact SrcSplitConfig_widths rm ctx transform src_rect dst_rect cfg h
  · rw [if_neg hs] at h
    exact DisplaySplitConfig_widths rm ctx transform src_rect dst_rect cfg hk hr h.1 h.2

theorem LayerResult_ok (rm : ResManager) (ctx : DisplayResourceContext) (layer : Layer)
    (cfg : HWLayerConfig) (rc : ℕ) (r : DisplayError × HWLayerConfig × ℕ)
    (h : rm.LayerResult ctx layer cfg rc = some r) (he : r.1 = DisplayError.kErrorNone) :
    ∃ a b, rm.ValidateScaling layer
        (rm.CalculateCropRects (displayScissor ctx) layer.transform layer.src_rect
          layer.dst_rect).1
        (rm.CalculateCropRects (displayScissor ctx) layer.transform layer.src_rect
          layer.dst_rect).2 1 1 = some (DisplayError.kErrorNone, a, b) ∧
      r = rm.ConfigRotateAndSplit ctx layer
        (rm.CalculateCropRects (displayScissor ctx) layer.transform layer.src_rect
          layer.dst_rect).1
        (rm.CalculateCropRects (displayScissor ctx) layer.transform layer.src_rect
          layer.dst_rect).2 a b cfg rc := by
  unfold ResManager.LayerResult at h
  by_cases hv : ResManager.IsValidDimension layer.src_rect layer.dst_rect = false
  · simp only [hv, if_true, Option.some.injEq] at h
    subst h
    simp at he
  · simp only [hv, if_false] at h
    cases hvs : rm.ValidateScaling layer
      (rm.CalculateCropRects (displayScissor ctx) layer.transform layer.src_rect
        layer.dst_rect).1
      (rm.CalculateCropRects (displayScissor ctx) layer.transform layer.src_rect
        layer.dst_rect).2 1 1 with
    | none => rw [hvs] at h; simp at h
    | some v =>
      obtain ⟨verr, a, b⟩ := v
      rw [hvs] at h
      simp only at h
      by_cases hverr : verr = DisplayError.kErrorNone
      · subst hverr
        simp only [Bool.true_eq_false, ne_eq, not_true_eq_false, if_false,
          Option.some.injEq] at h
        exact ⟨a, b, rfl, h.symm⟩
      · simp only [Bool.true_eq_false, if_false, ne_eq, hverr, not_false_eq_true, if_true,
          Option.some.injEq] at h
        subst h
        simp at he

theorem Config_pipe_widths_aux (rm : ResManager) (ctx : DisplayResourceContext)
    (hw hw1 : HWLayers) (rc rc1 : ℕ)
    (hk : rm.kPipeIdNeedsAssignment ≠ 0) (hr : rm.pipe_reset.pipe_id = 0)
    (h : rm.Config ctx hw rc = some (DisplayError.kErrorNone, hw1, rc1)) :
    ∀ j, j < hw.info.count →
      ∃ idx layer a b cfg1, hw.info.index[j]? = some idx ∧
        hw.info.stack[idx]? = some layer ∧
        rm.ValidateScaling layer
          (rm.CalculateCropRects (displayScissor ctx) layer.transform layer.src_rect
            layer.dst_rect).1
          (rm.CalculateCropRects (displayScissor ctx) layer.transform layer.src_rect
            layer.dst_rect).2 1 1 = some (DisplayError.kErrorNone, a, b) ∧
        hw1.config[j]? = some cfg1 ∧
        (rm.SplitFits ctx (rm.SplitTransform layer a b)
            (rm.SplitSource layer
              (rm.CalculateCropRects (displayScissor ctx) layer.transform layer.src_rect
                layer.dst_rect).1 a b)
            (rm.CalculateCropRects (displayScissor ctx) layer.transform layer.src_rect
              layer.dst_rect).2 →
          PipeWidthsOk rm cfg1) := by
  intro j hj
  obtain ⟨_, _, m, _, _, hdone, hlast, hnone, _, _⟩ :=
    ConfigLoop_spec rm ctx hw.info.count 0 hw hw1 rc rc1 _ h
  simp only [Nat.zero_add, Nat.zero_le, true_implies] at hdone hlast
  have hmc := hnone rfl
  subst hmc
  have hd : LayerDone rm ctx hw hw1 j DisplayError.kErrorNone := by
    by_cases hjm : j + 1 < hw.info.count
    · exact hdone j hjm
    · have hj1 : j = hw.info.count - 1 := by omega
      rw [hj1]
      exact hlast (by omega)
  obtain ⟨idx, layer, cfg, rcj, r, h1, h2, _, h4, h5, h6⟩ := hd
  obtain ⟨a, b, hvs, hr1⟩ := LayerResult_ok rm ctx layer cfg rcj r h4 h6
  refine ⟨idx, layer, a, b, r.2.1, h1, h2, hvs, h5, ?_⟩
  intro hfit
  rw [hr1, ConfigRotateAndSplit_eq]
  exact split_widths rm ctx _ _ _ _ hk hr hfit

end sde

namespace sde

/-- C14, as the code has it: after a successful `Config`, with `kPipeIdNeedsAssignment`
non-zero and a reset pipe carrying the id zero, every layer below `count` has passed
`ValidateScaling` and has a configuration in the result; when the source handed to its
split configuration is within the reach of two pipes (no wider than twice
`kMaxSourcePipeWidth` in source-split mode, both half crops narrower than
`kMaxSourcePipeWidth` in display-split mode), its assigned pipes read a source no wider
than `kMaxSourcePipeWidth`. -/
theorem Config_pipe_widths (rm : ResManager) (ctx : DisplayResourceContext)
    (hw hw1 : HWLayers) (rc rc1 : ℕ)
    (hk : rm.kPipeIdNeedsAssignment ≠ 0) (hr : rm.pipe_reset.pipe_id = 0)
    (h : rm.Config ctx hw rc = some (DisplayError.kErrorNone, hw1, rc1)) :
    ∀ j, j < hw.info.count →
      ∃ idx layer a b cfg1, hw.info.index[j]? = some idx ∧
        hw.info.stack[idx]? = some layer ∧
        rm.ValidateScaling layer
          (rm.CalculateCropRects (displayScissor ctx) layer.transform layer.src_rect
            layer.dst_rect).1
          (rm.CalculateCropRects (displayScissor ctx) layer.transform layer.src_rect
            layer.dst_rect).2 1 1 = some (DisplayError.kErrorNone, a, b) ∧
        hw1.config[j]? = some cfg1 ∧
        (rm.SplitFits ctx (rm.SplitTransform layer a b)
            (rm.SplitSource layer
              (rm.CalculateCropRects (displayScissor ctx) layer.transform layer.src_rect
                layer.dst_rect).1 a b)
            (rm.CalculateCropRects (displayScissor ctx) layer.transform layer.src_rect
              layer.dst_rect).2 →
          PipeWidthsOk rm cfg1) :=
  Config_pipe_widths_aux rm ctx hw hw1 rc rc1 hk hr h

/-- Witness for C14: the frame `sampleFrame` on the 1080-wide display, where the source is
100 columns wide and one pipe carries the layer. -/
theorem Config_pipe_widths_witness :
    (sampleResManager.kPipeIdNeedsAssignment ≠ 0 ∧
      sampleResManager.pipe_reset.pipe_id = 0 ∧
      sampleResManager.Config sampleCtx sampleFrame 0 =
        some (DisplayError.kErrorNone, sampleFrameConfigured, 0)) ∧
    sampleResManager.SplitFits sampleCtx (sampleResManager.SplitTransform sampleLayer 1 1)
      (sampleResManager.SplitSource sampleLayer sampleLayer.src_rect 1 1)
      sampleLayer.dst_rect ∧
    (∀ j, j < sampleFrame.info.count →
      ∃ idx layer a b cfg1, sampleFrame.info.index[j]? = some idx ∧
        sampleFrame.info.stack[idx]? = some layer ∧
        sampleResManager.ValidateScaling layer
          (sampleResManager.CalculateCropRects (displayScissor sampleCtx) layer.transform
            layer.src_rect layer.dst_rect).1
          (sampleResManager.CalculateCropRects (displayScissor sampleCtx) layer.transform
            layer.src_rect layer.dst_rect).2 1 1 = some (DisplayError.kErrorNone, a, b) ∧
        sampleFrameConfigured.config[j]? = some cfg1 ∧
        (sampleResManager.SplitFits sampleCtx (sampleResManager.SplitTransform layer a b)
            (sampleResManager.SplitSource layer
              (sampleResManager.CalculateCropRects (displayScissor sampleCtx) layer.transform
                layer.src_rect layer.dst_rect).1 a b)
            (sampleResManager.CalculateCropRects (displayScissor sampleCtx) layer.transform
              layer.src_rect layer.dst_rect).2 →
          PipeWidthsOk sampleResManager cfg1)) :=
  ⟨⟨by decide, by decide, by decide!⟩, by decide!,
    Config_pipe_widths sampleResManager sampleCtx sampleFrame sampleFrameConfigured 0 0
      (by decide) (by decide) (by decide!)⟩

/-- C14 fails as stated, in both modes.  In source-split mode, on the 3840-wide display, a
source 6000 columns wide shown 3000 columns wide passes `Config` and each pipe reads 3000
columns, beyond the limit 2560.  In display-split mode, on the 7680-wide display, a source
3000 columns wide shown right of the split passes `Config` and the right pipe reads all
3000 columns. -/
theorem Config_pipe_widths_counterexample :
    (sampleResManager.hw_res_info_.is_src_split = true ∧
      sampleResManager.Config sampleCtx4K sampleFrameWide 0 =
        some (DisplayError.kErrorNone,
          { sampleFrameWide with config := [sampleConfigWideDone] }, 0) ∧
      sampleConfigWideDone.left_pipe.src_roi.width = 3000 ∧
      sampleConfigWideDone.right_pipe.src_roi.width = 3000 ∧
      sampleResManager.kMaxSourcePipeWidth = 2560 ∧
      ¬ PipeWidthsOk sampleResManager sampleConfigWideDone) ∧
    (sampleResManagerDS.hw_res_info_.is_src_split = false ∧
      sampleResManagerDS.Config sampleCtx8K sampleFrameRightOfSplit 0 =
        some (DisplayError.kErrorNone,
          { sampleFrameRightOfSplit with config := [sampleConfigRightOfSplitDone] }, 0) ∧
      sampleConfigRightOfSplitDone.is_right_pipe = true ∧
      sampleConfigRightOfSplitDone.right_pipe.src_roi.width = 3000 ∧
      sampleResManagerDS.kMaxSourcePipeWidth = 2560 ∧
      ¬ PipeWidthsOk sampleResManagerDS sampleConfigRightOfSplitDone) := by
  refine ⟨⟨by decide, by decide!, by decide!, by decide!, by decide, by decide!⟩,
    ⟨by decide, by decide!, by decide, by decide!, by decide, by decide!⟩⟩

end sde

namespace sdm

/-! ## `HWDeviceDRM::SetRefreshRate` -/

theorem refreshRateLoop_iff (current_mode : drmModeModeInfo) (refresh_rate : ℕ)
    (modes : List DRMModeItem) :
    refreshRateLoop current_mode refresh_rate modes = true ↔
      ∃ m, m ∈ modes ∧ m.mode.hdisplay = current_mode.hdisplay ∧
        m.mode.vdisplay = current_mode.vdisplay ∧ m.mode.vrefresh = refresh_rate := by
  induction modes with
  | nil => simp [refreshRateLoop]
  | cons item rest ih =>
    rw [refreshRateLoop]
    by_cases hm : modeMatches current_mode refresh_rate item = true
    · simp only [hm, if_true, true_iff]
      simp only [modeMatches, Bool.and_eq_true, beq_iff_eq] at hm
      exact ⟨item, List.mem_cons_self _ _, hm.1.2.symm, hm.1.1.symm, hm.2.symm⟩
    · simp only [hm, if_false, ih, List.mem_cons, Bool.false_eq_true]
      constructor
      · rintro ⟨m, h1, h2⟩
        exact ⟨m, Or.inr h1, h2⟩
      · rintro ⟨m, h1 | h1, h2, h3, h4⟩
        · subst h1
          exfalso
          apply hm
          simp only [modeMatches, Bool.and_eq_true, beq_iff_eq]
          exact ⟨⟨h3.symm, h2.symm⟩, h4.symm⟩
        · exact ⟨m, h1, h2, h3, h4⟩

theorem SetRefreshRate_spec_aux (dev : HWDeviceDRM) (refresh_rate : ℕ) (current : DRMModeItem)
    (hcur : dev.connector_info_.modes[dev.current_mode_index_]? = some current) :
    ∃ err dev1, dev.SetRefreshRate refresh_rate = some (err, dev1) ∧
      (err = DisplayError.kErrorNone ∨ err = DisplayError.kErrorNotSupported) ∧
      (err = DisplayError.kErrorNone ↔
        ∃ m, m ∈ dev.connector_info_.modes ∧ m.mode.hdisplay = current.mode.hdisplay ∧
          m.mode.vdisplay = current.mode.vdisplay ∧ m.mode.vrefresh = refresh_rate) ∧
      (err = DisplayError.kErrorNone → dev1 = { dev with vrefresh_ := refresh_rate } ∧
        dev1.current_mode_index_ = dev.current_mode_index_) ∧
      (err = DisplayError.kErrorNotSupported → dev1 = dev) := by
  unfold HWDeviceDRM.SetRefreshRate
  rw [hcur]
  simp only
  by_cases hl : refreshRateLoop current.mode refresh_rate dev.connector_info_.modes = true
  · rw [if_pos hl]
    refine ⟨_, _, rfl, Or.inl rfl, ?_, fun _ => ⟨rfl, rfl⟩, fun h => by simp at h⟩
    simp only [true_iff]
    exact (refreshRateLoop_iff _ _ _).mp hl
  · rw [if_neg hl]
    refine ⟨_, _, rfl, Or.inr rfl, ?_, fun h => by simp at h, fun _ => rfl⟩
    constructor
    · intro h
      simp at h
    · intro h
      exact absurd ((refreshRateLoop_iff _ _ _).mpr h) hl

/-- C20: with `current_mode_index_` inside the mode list, `SetRefreshRate(r)` returns
`kErrorNone` or `kErrorNotSupported`; it returns `kErrorNone` exactly when some enumerated
mode has the `hdisplay` and `vdisplay` of the current mode and `vrefresh = r`; on success
the new state is the old one with `vrefresh_ = r`, `current_mode_index_` unchanged; on
failure the state is unchanged. -/
theorem SetRefreshRate_spec (dev : HWDeviceDRM) (refresh_rate : ℕ) (current : DRMModeItem)
    (hcur : dev.connector_info_.modes[dev.current_mode_index_]? = some current) :
    ∃ err dev1, dev.SetRefreshRate refresh_rate = some (err, dev1) ∧
      (err = DisplayError.kErrorNone ∨ err = DisplayError.kErrorNotSupported) ∧
      (err = DisplayError.kErrorNone ↔
        ∃ m, m ∈ dev.connector_info_.modes ∧ m.mode.hdisplay = current.mode.hdisplay ∧
          m.mode.vdisplay = current.mode.vdisplay ∧ m.mode.vrefresh = refresh_rate) ∧
      (err = DisplayError.kErrorNone → dev1 = { dev with vrefresh_ := refresh_rate } ∧
        dev1.current_mode_index_ = dev.current_mode_index_) ∧
      (err = DisplayError.kErrorNotSupported → dev1 = dev) :=
  SetRefreshRate_spec_aux dev refresh_rate current hcur

/-- Witness for C20: the device `sampleDevice`, asked for 90 (granted, the second mode has
the resolution of the first) and for 120 (refused, the state stays). -/
theorem SetRefreshRate_spec_witness :
    sampleDevice.connector_info_.modes[sampleDevice.current_mode_index_]? =
      some ⟨{ hdisplay := 1080, vdisplay := 2340, vrefresh := 60 }⟩ ∧
    sampleDevice.SetRefreshRate 90 =
      some (DisplayError.kErrorNone, { sampleDevice with vrefresh_ := 90 }) ∧
    sampleDevice.SetRefreshRate 120 = some (DisplayError.kErrorNotSupported, sampleDevice) ∧
    ∃ err dev1, sampleDevice.SetRefreshRate 90 = some (err, dev1) ∧
      (err = DisplayError.kErrorNone ∨ err = DisplayError.kErrorNotSupported) ∧
      (err = DisplayError.kErrorNone ↔
        ∃ m, m ∈ sampleDevice.connector_info_.modes ∧
          m.mode.hdisplay = (1080 : ℕ) ∧ m.mode.vdisplay = (2340 : ℕ) ∧
          m.mode.vrefresh = 90) ∧
      (err = DisplayError.kErrorNone → dev1 = { sampleDevice with vrefresh_ := 90 } ∧
        dev1.current_mode_index_ = sampleDevice.current_mode_index_) ∧
      (err = DisplayError.kErrorNotSupported → dev1 = sampleDevice) :=
  ⟨by decide, by decide, by decide,
    SetRefreshRate_spec sampleDevice 90
      ⟨{ hdisplay := 1080, vdisplay := 2340, vrefresh := 60 }⟩ (by decide)⟩

end sdm

namespace sde

/-! ## `CalculateCut` -/

theorem CalculateCut_spec_aux (rm : ResManager) (transform : LayerTransform) (c : CutRatios) :
    rm.CalculateCut transform c =
      (fun c2 : CutRatios => if rm.IsRotationNeeded transform.rotation = true then c2.cycle
        else c2)
        ((fun c1 : CutRatios => if transform.flip_vertical = true then c1.swapTopBottom
          else c1)
          (if transform.flip_horizontal = true then c.swapLeftRight else c)) ∧
    (rm.CalculateCut transform c).toList.Perm c.toList := by
  obtain ⟨rot, fh, fv⟩ := transform
  obtain ⟨l, t, r, b⟩ := c
  unfold ResManager.CalculateCut
  cases fh <;> cases fv <;> cases hrot : rm.IsRotationNeeded rot <;>
    simp only [hrot, Bool.false_eq_true, if_false, if_true, CutRatios.swapLeftRight,
      CutRatios.swapTopBottom, CutRatios.cycle, CutRatios.toList, true_and] <;>
    exact List.perm_iff_count.mpr (fun x => by
      simp only [List.count_cons, List.count_nil] <;> ring)

end sde

namespace sde

theorem CalculateCut_table_aux (rm : ResManager) (rot l t r b : CFloat) :
    (rm.IsRotationNeeded rot = false →
      rm.CalculateCut { rotation := rot, flip_horizontal := false, flip_vertical := false }
          { left := l, top := t, right := r, bottom := b } =
        { left := l, top := t, right := r, bottom := b } ∧
      rm.CalculateCut { rotation := rot, flip_horizontal := true, flip_vertical := false }
          { left := l, top := t, right := r, bottom := b } =
        { left := r, top := t, right := l, bottom := b } ∧
      rm.CalculateCut { rotation := rot, flip_horizontal := false, flip_vertical := true }
          { left := l, top := t, right := r, bottom := b } =
        { left := l, top := b, right := r, bottom := t } ∧
      rm.CalculateCut { rotation := rot, flip_horizontal := true, flip_vertical := true }
          { left := l, top := t, right := r, bottom := b } =
        { left := r, top := b, right := l, bottom := t }) ∧
    (rm.IsRotationNeeded rot = true →
      rm.CalculateCut { rotation := rot, flip_horizontal := false, flip_vertical := false }
          { left := l, top := t, right := r, bottom := b } =
        { left := t, top := r, right := b, bottom := l } ∧
      rm.CalculateCut { rotation := rot, flip_horizontal := true, flip_vertical := false }
          { left := l, top := t, right := r, bottom := b } =
        { left := t, top := l, right := b, bottom := r } ∧
      rm.CalculateCut { rotation := rot, flip_horizontal := false, flip_vertical := true }
          { left := l, top := t, right := r, bottom := b } =
        { left := b, top := r, right := t, bottom := l } ∧
      rm.CalculateCut { rotation := rot, flip_horizontal := true, flip_vertical := true }
          { left := l, top := t, right := r, bottom := b } =
        { left := b, top := l, right := t, bottom := r }) := by
  constructor <;> intro h <;> simp [ResManager.CalculateCut, h]

/-- C24: `CalculateCut` exchanges left and right if `flip_horizontal`, then top and bottom
if `flip_vertical`, then, if the rotation needs the rotator (`IsRotationNeeded`, 90
degrees), reassigns cyclically left <- top, top <- right, right <- bottom, bottom <- left;
the result is a permutation of the four input fractions.  The eight cases are listed for
the fractions `l, t, r, b`. -/
theorem CalculateCut_spec (rm : ResManager) (transform : LayerTransform) (c : CutRatios)
    (rot l t r b : CFloat) :
    (rm.CalculateCut transform c =
      (fun c2 : CutRatios => if rm.IsRotationNeeded transform.rotation = true then c2.cycle
        else c2)
        ((fun c1 : CutRatios => if transform.flip_vertical = true then c1.swapTopBottom
          else c1)
          (if transform.flip_horizontal = true then c.swapLeftRight else c)) ∧
      (rm.CalculateCut transform c).toList.Perm c.toList) ∧
    (rm.IsRotationNeeded rot = false →
      rm.CalculateCut { rotation := rot, flip_horizontal := false, flip_vertical := false }
          { left := l, top := t, right := r, bottom := b } =
        { left := l, top := t, right := r, bottom := b } ∧
      rm.CalculateCut { rotation := rot, flip_horizontal := true, flip_vertical := false }
          { left := l, top := t, right := r, bottom := b } =
        { left := r, top := t, right := l, bottom := b } ∧
      rm.CalculateCut { rotation := rot, flip_horizontal := false, flip_vertical := true }
          { left := l, top := t, right := r, bottom := b } =
        { left := l, top := b, right := r, bottom := t } ∧
      rm.CalculateCut { rotation := rot, flip_horizontal := true, flip_vertical := true }
          { left := l, top := t, right := r, bottom := b } =
        { left := r, top := b, right := l, bottom := t }) ∧
    (rm.IsRotationNeeded rot = true →
      rm.CalculateCut { rotation := rot, flip_horizontal := false, flip_vertical := false }
          { left := l, top := t, right := r, bottom := b } =
        { left := t, top := r, right := b, bottom := l } ∧
      rm.CalculateCut { rotation := rot, flip_horizontal := true, flip_vertical := false }
          { left := l, top := t, right := r, bottom := b } =
        { left := t, top := l, right := b, bottom := r } ∧
      rm.CalculateCut { rotation := rot, flip_horizontal := false, flip_vertical := true }
          { left := l, top := t, right := r, bottom := b } =
        { left := b, top := r, right := t, bottom := l } ∧
      rm.CalculateCut { rotation := rot, flip_horizontal := true, flip_vertical := true }
          { left := l, top := t, right := r, bottom := b } =
        { left := b, top := l, right := t, bottom := r }) :=
  ⟨CalculateCut_spec_aux rm transform c, CalculateCut_table_aux rm rot l t r b⟩

/-- Witness for C24: the sample manager, rotation 90 with a horizontal flip, and the
fractions 1/10, 2/10, 3/10, 4/10. -/
theorem CalculateCut_spec_witness :
    sampleResManager.IsRotationNeeded 90 = true ∧
    sampleResManager.CalculateCut
        { rotation := 90, flip_horizontal := true, flip_vertical := false }
        { left := 1 / 10, top := 2 / 10, right := 3 / 10, bottom := 4 / 10 } =
      { left := 2 / 10, top := 1 / 10, right := 4 / 10, bottom := 3 / 10 } :=
  ⟨by decide!,
    ((CalculateCut_spec sampleResManager {} {} 90 (1 / 10) (2 / 10) (3 / 10) (4 / 10)).2.2
      (by decide!)).2.1⟩

end sde

namespace sde

/-! ## `CalculateCropRects` keeps the scale factor -/

end sde

namespace sde

end sde

namespace sde

/-! ## The stages of `ValidateScaling` -/

theorem ValidateScaling_eq (rm : ResManager) (layer : Layer) (crop dst : LayerRect)
    (rx ry : CFloat) :
    rm.ValidateScaling layer crop dst rx ry =
      if dst.right - dst.left < 1 ∨ dst.bottom - dst.top < 1 then
        some (DisplayError.kErrorNotSupported, rx, ry)
      else if rm.cropWidth layer crop < 1 ∨ rm.cropHeight layer crop < 1 then
        some (DisplayError.kErrorNotSupported, rx, ry)
      else if rm.downscaleRejected layer (rm.scaleX layer crop dst) (rm.scaleY layer crop dst)
          = true then
        some (DisplayError.kErrorNotSupported, rx, ry)
      else if rm.upscaleRejected (rm.scaleX layer crop dst) then
        some (DisplayError.kErrorNotSupported, rx, ry)
      else if rm.upscaleRejected (rm.scaleY layer crop dst) then
        some (DisplayError.kErrorNotSupported, rx, ry)
      else
        match rotScaleLoop rm.hw_res_info_.max_scale_down kScaleLoopBound
            (rm.scaleX layer crop dst) 1 with
        | none => none
        | some rot_x =>
          match rotScaleLoop rm.hw_res_info_.max_scale_down kScaleLoopBound
              (rm.scaleY layer crop dst) 1 with
          | none => none
          | some rot_y => some (DisplayError.kErrorNone, rot_x, rot_y) := by
  rfl

end sde

namespace sde

theorem rotScaleLoop_spec (m : ℕ) (n : ℕ) :
    ∀ (scale rot r : CFloat), rotScaleLoop m n scale rot = some r →
      ∃ k : ℕ, k < n ∧ r = rot * 2 ^ k ∧ scale / 2 ^ k ≤ (m : ℚ) ∧
        ∀ j, j < k → (m : ℚ) < scale / 2 ^ j := by
  induction n with
  | zero =>
    intro scale rot r h
    simp [rotScaleLoop] at h
  | succ n ih =>
    intro scale rot r h
    rw [rotScaleLoop] at h
    split_ifs at h with h1
    · obtain ⟨k, hk, hr, hle, hlt⟩ := ih _ _ _ h
      refine ⟨k + 1, by omega, ?_, ?_, ?_⟩
      · rw [hr, pow_succ]; ring
      · rw [pow_succ]
        have : scale / (2 ^ k * 2) = scale / 2 / 2 ^ k := by
          rw [div_div, mul_comm]
        rw [this]; exact hle
      · intro j hj
        cases j with
        | zero => simpa using h1
        | succ j =>
          have := hlt j (by omega)
          rw [pow_succ]
          have e : scale / (2 ^ j * 2) = scale / 2 / 2 ^ j := by
            rw [div_div, mul_comm]
          rw [e]; exact this
    · simp only [Option.some.injEq] at h
      refine ⟨0, by omega, ?_, ?_, ?_⟩
      · rw [← h]; simp
      · simpa using not_lt.mp h1
      · intro j hj; omega

theorem UINT32_lt_one_iff (x : CFloat) : UINT32 x < 1 ↔ x < 1 := by
  unfold UINT32
  constructor
  · intro h
    have h1 : Int.toNat ⌊x⌋ < 1 := by
      rcases min_lt_iff.mp h with h2 | h2
      · exact h2
      · norm_num at h2
    have h2 : ⌊x⌋ < 1 := by omega
    have := Int.floor_lt.mp h2
    exact_mod_cast this
  · intro h
    have h2 : ⌊x⌋ < 1 := Int.floor_lt.mpr (by exact_mod_cast h)
    have h3 : Int.toNat ⌊x⌋ = 0 := by omega
    rw [h3]
    norm_num

theorem ValidateScaling_ok_inv (rm : ResManager) (layer : Layer) (crop dst : LayerRect)
    (rx ry a b : CFloat)
    (h : rm.ValidateScaling layer crop dst rx ry = some (DisplayError.kErrorNone, a, b)) :
    ¬ (dst.right - dst.left < 1 ∨ dst.bottom - dst.top < 1) ∧
    ¬ (rm.cropWidth layer crop < 1 ∨ rm.cropHeight layer crop < 1) ∧
    rm.downscaleRejected layer (rm.scaleX layer crop dst) (rm.scaleY layer crop dst) = false ∧
    ¬ rm.upscaleRejected (rm.scaleX layer crop dst) ∧
    ¬ rm.upscaleRejected (rm.scaleY layer crop dst) ∧
    rotScaleLoop rm.hw_res_info_.max_scale_down kScaleLoopBound (rm.scaleX layer crop dst) 1 =
      some a ∧
    rotScaleLoop rm.hw_res_info_.max_scale_down kScaleLoopBound (rm.scaleY layer crop dst) 1 =
      some b := by
  rw [ValidateScaling_eq] at h
  split_ifs at h with h1 h2 h3 h4 h5
  all_goals try (simp at h)
  refine ⟨h1, h2, by simpa using h3, h4, h5, ?_⟩
  cases hx : rotScaleLoop rm.hw_res_info_.max_scale_down kScaleLoopBound
      (rm.scaleX layer crop dst) 1 with
  | none => rw [hx] at h; simp at h
  | some x =>
    cases hy : rotScaleLoop rm.hw_res_info_.max_scale_down kScaleLoopBound
        (rm.scaleY layer crop dst) 1 with
    | none => rw [hx, hy] at h; simp at h
    | some y =>
      rw [hx, hy] at h
      simp only [Option.some.injEq, Prod.mk.injEq, true_and] at h
      rw [h.1, h.2]
      exact ⟨rfl, rfl⟩

theorem ValidateScaling_rejected_iff (rm : ResManager) (layer : Layer) (crop dst : LayerRect)
    (rx ry : CFloat) :
    rm.ValidateScaling layer crop dst rx ry = some (DisplayError.kErrorNotSupported, rx, ry) ↔
      (dst.right - dst.left < 1 ∨ dst.bottom - dst.top < 1) ∨
      (rm.cropWidth layer crop < 1 ∨ rm.cropHeight layer crop < 1) ∨
      rm.downscaleRejected layer (rm.scaleX layer crop dst) (rm.scaleY layer crop dst) = true ∨
      rm.upscaleRejected (rm.scaleX layer crop dst) ∨
      rm.upscaleRejected (rm.scaleY layer crop dst) := by
  rw [ValidateScaling_eq]
  split_ifs with h1 h2 h3 h4 h5
  · simp [h1]
  · simp [h2]
  · simp [h3]
  · simp [h4]
  · simp [h5]
  · constructor
    · intro h
      exfalso
      cases hx : rotScaleLoop rm.hw_res_info_.max_scale_down kScaleLoopBound
          (rm.scaleX layer crop dst) 1 with
      | none => rw [hx] at h; simp at h
      | some x =>
        cases hy : rotScaleLoop rm.hw_res_info_.max_scale_down kScaleLoopBound
            (rm.scaleY layer crop dst) 1 with
        | none => rw [hx, hy] at h; simp at h
        | some y => rw [hx, hy] at h; simp at h
    · intro h
      exfalso
      tauto

end sde

namespace sde

/-! ## The rotator downscale factors -/

theorem rot_scale_one_iff (m : ℕ) (scale a : CFloat) (k : ℕ) (ha : a = 1 * 2 ^ k)
    (hle : scale / 2 ^ k ≤ (m : ℚ)) (hlt : ∀ j, j < k → (m : ℚ) < scale / 2 ^ j) :
    a = 1 ↔ scale ≤ (m : ℚ) := by
  constructor
  · intro h1
    have hk : k = 0 := by
      by_contra hk
      have h2 : (2 : ℚ) ≤ 2 ^ k := by
        calc (2 : ℚ) = 2 ^ 1 := by norm_num
          _ ≤ 2 ^ k := pow_le_pow_right₀ (by norm_num) (by omega)
      rw [ha, one_mul] at h1
      linarith
    subst hk
    simpa using hle
  · intro h1
    have hk : k = 0 := by
      by_contra hk
      have := hlt 0 (by omega)
      simp at this
      linarith
    subst hk
    rw [ha]; norm_num

theorem ValidateScaling_rot_scale_aux (rm : ResManager) (layer : Layer) (crop dst : LayerRect)
    (rx ry a b : CFloat)
    (h : rm.ValidateScaling layer crop dst rx ry = some (DisplayError.kErrorNone, a, b)) :
    ∃ kx ky : ℕ, kx < kScaleLoopBound ∧ ky < kScaleLoopBound ∧
      a = 2 ^ kx ∧ b = 2 ^ ky ∧
      rm.scaleX layer crop dst / 2 ^ kx ≤ (rm.hw_res_info_.max_scale_down : ℚ) ∧
      (∀ j, j < kx → (rm.hw_res_info_.max_scale_down : ℚ) < rm.scaleX layer crop dst / 2 ^ j) ∧
      rm.scaleY layer crop dst / 2 ^ ky ≤ (rm.hw_res_info_.max_scale_down : ℚ) ∧
      (∀ j, j < ky → (rm.hw_res_info_.max_scale_down : ℚ) < rm.scaleY layer crop dst / 2 ^ j) ∧
      (a = 1 ↔ rm.scaleX layer crop dst ≤ (rm.hw_res_info_.max_scale_down : ℚ)) ∧
      (b = 1 ↔ rm.scaleY layer crop dst ≤ (rm.hw_res_info_.max_scale_down : ℚ)) := by
  obtain ⟨_, _, _, _, _, hx, hy⟩ := ValidateScaling_ok_inv rm layer crop dst rx ry a b h
  obtain ⟨kx, hkx, hax, hlex, hltx⟩ := rotScaleLoop_spec _ _ _ _ _ hx
  obtain ⟨ky, hky, hay, hley, hlty⟩ := rotScaleLoop_spec _ _ _ _ _ hy
  refine ⟨kx, ky, hkx, hky, by rw [hax, one_mul], by rw [hay, one_mul], hlex, hltx, hley, hlty,
    rot_scale_one_iff _ _ _ kx hax hlex hltx, rot_scale_one_iff _ _ _ ky hay hley hlty⟩

/-- C26: with `max_scale_down >= 1` `ValidateScaling` returns on every input (the halving
loops end); on every input on which it returns success, each returned factor is `2 ^ k`
with `k` the least natural number such that `scale / 2 ^ k <= max_scale_down` on that axis
(fewer than `kScaleLoopBound` halvings), and the factor is 1 exactly when
`scale <= max_scale_down`. -/
theorem ValidateScaling_rot_scale (rm : ResManager) (layer : Layer) (crop dst : LayerRect)
    (rx ry : CFloat) :
    (1 ≤ rm.hw_res_info_.max_scale_down →
      ∃ r, rm.ValidateScaling layer crop dst rx ry = some r) ∧
    ∀ a b : CFloat,
      rm.ValidateScaling layer crop dst rx ry = some (DisplayError.kErrorNone, a, b) →
      ∃ kx ky : ℕ, kx < kScaleLoopBound ∧ ky < kScaleLoopBound ∧
        a = 2 ^ kx ∧ b = 2 ^ ky ∧
        rm.scaleX layer crop dst / 2 ^ kx ≤ (rm.hw_res_info_.max_scale_down : ℚ) ∧
        (∀ j, j < kx →
          (rm.hw_res_info_.max_scale_down : ℚ) < rm.scaleX layer crop dst / 2 ^ j) ∧
        rm.scaleY layer crop dst / 2 ^ ky ≤ (rm.hw_res_info_.max_scale_down : ℚ) ∧
        (∀ j, j < ky →
          (rm.hw_res_info_.max_scale_down : ℚ) < rm.scaleY layer crop dst / 2 ^ j) ∧
        (a = 1 ↔ rm.scaleX layer crop dst ≤ (rm.hw_res_info_.max_scale_down : ℚ)) ∧
        (b = 1 ↔ rm.scaleY layer crop dst ≤ (rm.hw_res_info_.max_scale_down : ℚ)) :=
  ⟨ValidateScaling_some rm layer crop dst rx ry,
    fun a b h => ValidateScaling_rot_scale_aux rm layer crop dst rx ry a b h⟩

/-- Witness for C26: with the downscale limit 4, a source 1000 wide shown 100 wide has
scale 10 and gets the factor 4 (10 / 4 <= 4 < 10 / 2); the vertical scale 1 gets the
factor 1. -/
theorem ValidateScaling_rot_scale_witness :
    (1 ≤ sampleResManager.hw_res_info_.max_scale_down ∧
      sampleResManager.ValidateScaling sampleLayerDown10 sampleLayerDown10.src_rect
        sampleLayerDown10.dst_rect 1 1 = some (DisplayError.kErrorNone, 4, 1)) ∧
    (∃ r, sampleResManager.ValidateScaling sampleLayerDown10 sampleLayerDown10.src_rect
        sampleLayerDown10.dst_rect 1 1 = some r) ∧
    ∃ kx ky : ℕ, kx < kScaleLoopBound ∧ ky < kScaleLoopBound ∧
      (4 : CFloat) = 2 ^ kx ∧ (1 : CFloat) = 2 ^ ky ∧
      sampleResManager.scaleX sampleLayerDown10 sampleLayerDown10.src_rect
        sampleLayerDown10.dst_rect / 2 ^ kx ≤
          (sampleResManager.hw_res_info_.max_scale_down : ℚ) ∧
      (∀ j, j < kx → (sampleResManager.hw_res_info_.max_scale_down : ℚ) <
        sampleResManager.scaleX sampleLayerDown10 sampleLayerDown10.src_rect
          sampleLayerDown10.dst_rect / 2 ^ j) ∧
      sampleResManager.scaleY sampleLayerDown10 sampleLayerDown10.src_rect
        sampleLayerDown10.dst_rect / 2 ^ ky ≤
          (sampleResManager.hw_res_info_.max_scale_down : ℚ) ∧
      (∀ j, j < ky → (sampleResManager.hw_res_info_.max_scale_down : ℚ) <
        sampleResManager.scaleY sampleLayerDown10 sampleLayerDown10.src_rect
          sampleLayerDown10.dst_rect / 2 ^ j) ∧
      ((4 : CFloat) = 1 ↔ sampleResManager.scaleX sampleLayerDown10
        sampleLayerDown10.src_rect sampleLayerDown10.dst_rect ≤
          (sampleResManager.hw_res_info_.max_scale_down : ℚ)) ∧
      ((1 : CFloat) = 1 ↔ sampleResManager.scaleY sampleLayerDown10
        sampleLayerDown10.src_rect sampleLayerDown10.dst_rect ≤
          (sampleResManager.hw_res_info_.max_scale_down : ℚ)) :=
  ⟨⟨by decide, by decide!⟩,
    (ValidateScaling_rot_scale sampleResManager sampleLayerDown10 sampleLayerDown10.src_rect
      sampleLayerDown10.dst_rect 1 1).1 (by decide),
    (ValidateScaling_rot_scale sampleResManager sampleLayerDown10 sampleLayerDown10.src_rect
      sampleLayerDown10.dst_rect 1 1).2 4 1 (by decide!)⟩

end sde

namespace sde

/-! ## The upscale limit -/

theorem upscale_within (rm : ResManager) (c d : CFloat) (hc : ¬ c < 1) (hd : ¬ d < 1)
    (hu : ¬ rm.upscaleRejected (c / d)) (hs : c / d < 1) :
    1 / (c / d) ≤ (rm.hw_res_info_.max_scale_up : ℚ) ∧
      d ≤ (rm.hw_res_info_.max_scale_up : ℚ) * c := by
  have hc0 : 0 < c := by linarith [not_lt.mp hc]
  have hd0 : 0 < d := by linarith [not_lt.mp hd]
  have hpos : 0 < c / d := div_pos hc0 hd0
  have h1 : 1 / (c / d) ≤ (rm.hw_res_info_.max_scale_up : ℚ) := by
    by_contra hn
    exact hu ⟨(UINT32_lt_one_iff _).mpr hs, hpos, not_le.mp hn⟩
  refine ⟨h1, ?_⟩
  rw [one_div_div] at h1
  exact (div_le_iff₀ hc0).mp h1

theorem ValidateScaling_upscale_aux (rm : ResManager) (layer : Layer) (crop dst : LayerRect)
    (rx ry : CFloat) :
    (∀ a b : CFloat,
      rm.ValidateScaling layer crop dst rx ry = some (DisplayError.kErrorNone, a, b) →
      (rm.scaleX layer crop dst < 1 →
        1 / rm.scaleX layer crop dst ≤ (rm.hw_res_info_.max_scale_up : ℚ) ∧
          dst.right - dst.left ≤
            (rm.hw_res_info_.max_scale_up : ℚ) * rm.cropWidth layer crop) ∧
      (rm.scaleY layer crop dst < 1 →
        1 / rm.scaleY layer crop dst ≤ (rm.hw_res_info_.max_scale_up : ℚ) ∧
          dst.bottom - dst.top ≤
            (rm.hw_res_info_.max_scale_up : ℚ) * rm.cropHeight layer crop)) ∧
    ((0 < rm.scaleX layer crop dst ∧ rm.scaleX layer crop dst < 1 ∧
        1 / rm.scaleX layer crop dst > (rm.hw_res_info_.max_scale_up : ℚ)) ∨
      (0 < rm.scaleY layer crop dst ∧ rm.scaleY layer crop dst < 1 ∧
        1 / rm.scaleY layer crop dst > (rm.hw_res_info_.max_scale_up : ℚ)) →
      rm.ValidateScaling layer crop dst rx ry =
        some (DisplayError.kErrorNotSupported, rx, ry)) := by
  constructor
  · intro a b h
    obtain ⟨h1, h2, _, h4, h5, _, _⟩ := ValidateScaling_ok_inv rm layer crop dst rx ry a b h
    simp only [not_or] at h1 h2
    exact ⟨upscale_within rm _ _ h2.1 h1.1 h4, upscale_within rm _ _ h2.2 h1.2 h5⟩
  · intro h
    rw [ValidateScaling_rejected_iff]
    rcases h with ⟨h1, h2, h3⟩ | ⟨h1, h2, h3⟩
    · exact Or.inr (Or.inr (Or.inr (Or.inl ⟨(UINT32_lt_one_iff _).mpr h2, h1, h3⟩)))
    · exact Or.inr (Or.inr (Or.inr (Or.inr ⟨(UINT32_lt_one_iff _).mpr h2, h1, h3⟩)))

/-- C28: on every layer on which `ValidateScaling` returns success, on each axis with
`scale = crop_extent / dst_extent < 1` (crop extents exchanged for a rotated layer),
`1 / scale <= max_scale_up`, that is `dst_extent <= max_scale_up x crop_extent`; and every
layer with `0 < scale < 1` and `1 / scale > max_scale_up` on some axis is rejected with
`kErrorNotSupported`. -/
theorem ValidateScaling_upscale (rm : ResManager) (layer : Layer) (crop dst : LayerRect)
    (rx ry : CFloat) :
    (∀ a b : CFloat,
      rm.ValidateScaling layer crop dst rx ry = some (DisplayError.kErrorNone, a, b) →
      (rm.scaleX layer crop dst < 1 →
        1 / rm.scaleX layer crop dst ≤ (rm.hw_res_info_.max_scale_up : ℚ) ∧
          dst.right - dst.left ≤
            (rm.hw_res_info_.max_scale_up : ℚ) * rm.cropWidth layer crop) ∧
      (rm.scaleY layer crop dst < 1 →
        1 / rm.scaleY layer crop dst ≤ (rm.hw_res_info_.max_scale_up : ℚ) ∧
          dst.bottom - dst.top ≤
            (rm.hw_res_info_.max_scale_up : ℚ) * rm.cropHeight layer crop)) ∧
    ((0 < rm.scaleX layer crop dst ∧ rm.scaleX layer crop dst < 1 ∧
        1 / rm.scaleX layer crop dst > (rm.hw_res_info_.max_scale_up : ℚ)) ∨
      (0 < rm.scaleY layer crop dst ∧ rm.scaleY layer crop dst < 1 ∧
        1 / rm.scaleY layer crop dst > (rm.hw_res_info_.max_scale_up : ℚ)) →
      rm.ValidateScaling layer crop dst rx ry =
        some (DisplayError.kErrorNotSupported, rx, ry)) :=
  ValidateScaling_upscale_aux rm layer crop dst rx ry

/-- Witness for C28: with the upscale limit 20, `sampleLayer` (upscale 2 on both axes) is
accepted; `sampleLayerUp30` (upscale 30 on the horizontal axis) is rejected. -/
theorem ValidateScaling_upscale_witness :
    (sampleResManager.ValidateScaling sampleLayer sampleLayer.src_rect sampleLayer.dst_rect
        1 1 = some (DisplayError.kErrorNone, 1, 1) ∧
      sampleResManager.scaleX sampleLayer sampleLayer.src_rect sampleLayer.dst_rect < 1 ∧
      (0 < sampleResManager.scaleX sampleLayerUp30 sampleLayerUp30.src_rect
          sampleLayerUp30.dst_rect ∧
        sampleResManager.scaleX sampleLayerUp30 sampleLayerUp30.src_rect
          sampleLayerUp30.dst_rect < 1 ∧
        1 / sampleResManager.scaleX sampleLayerUp30 sampleLayerUp30.src_rect
          sampleLayerUp30.dst_rect > (sampleResManager.hw_res_info_.max_scale_up : ℚ))) ∧
    (1 / sampleResManager.scaleX sampleLayer sampleLayer.src_rect sampleLayer.dst_rect ≤
        (sampleResManager.hw_res_info_.max_scale_up : ℚ) ∧
      sampleLayer.dst_rect.right - sampleLayer.dst_rect.left ≤
        (sampleResManager.hw_res_info_.max_scale_up : ℚ) *
          sampleResManager.cropWidth sampleLayer sampleLayer.src_rect) ∧
    sampleResManager.ValidateScaling sampleLayerUp30 sampleLayerUp30.src_rect
      sampleLayerUp30.dst_rect 1 1 = some (DisplayError.kErrorNotSupported, 1, 1) :=
  ⟨⟨by decide!, by decide!, by decide!, by decide!, by decide!⟩,
    ((ValidateScaling_upscale sampleResManager sampleLayer sampleLayer.src_rect
      sampleLayer.dst_rect 1 1).1 1 1 (by decide!)).1 (by decide!),
    (ValidateScaling_upscale sampleResManager sampleLayerUp30 sampleLayerUp30.src_rect
      sampleLayerUp30.dst_rect 1 1).2 (Or.inl ⟨by decide!, by decide!, by decide!⟩)⟩

end sde

namespace sde

/-! ## The downscale limit -/

theorem downscaleRejected_iff (rm : ResManager) (layer : Layer) (sx sy : CFloat) :
    rm.downscaleRejected layer sx sy = true ↔ rm.DownscaleOverLimit layer sx sy := by
  unfold ResManager.downscaleRejected ResManager.DownscaleOverLimit
  by_cases hU : UINT32 sx > 1 ∨ UINT32 sy > 1
  · simp only [hU, if_true, true_and]
    by_cases hR : sx > (rm.maxDownscaleWithRotator : ℚ) ∨
        sy > (rm.maxDownscaleWithRotator : ℚ)
    · simp only [hR, if_true, ite_self, or_true]
    · simp only [hR, if_false, or_false]
      cases hd : rm.hw_res_info_.has_decimation <;>
        cases ht : rm.IsMacroTileFormat layer.input_buffer <;> simp
  · simp only [hU, if_false, false_and]
    simp

theorem ValidateScaling_downscale_aux (rm : ResManager) (layer : Layer) (crop dst : LayerRect)
    (rx ry : CFloat)
    (hdw : 1 ≤ dst.right - dst.left) (hdh : 1 ≤ dst.bottom - dst.top)
    (hcw : 1 ≤ crop.right - crop.left) (hch : 1 ≤ crop.bottom - crop.top)
    (hux : rm.scaleX layer crop dst < 1 →
      1 / rm.scaleX layer crop dst ≤ (rm.hw_res_info_.max_scale_up : ℚ))
    (huy : rm.scaleY layer crop dst < 1 →
      1 / rm.scaleY layer crop dst ≤ (rm.hw_res_info_.max_scale_up : ℚ)) :
    (rm.ValidateScaling layer crop dst rx ry = some (DisplayError.kErrorNotSupported, rx, ry) ↔
      rm.DownscaleOverLimit layer (rm.scaleX layer crop dst) (rm.scaleY layer crop dst)) ∧
    (1 ≤ rm.hw_res_info_.max_scale_down →
      ¬ rm.DownscaleOverLimit layer (rm.scaleX layer crop dst) (rm.scaleY layer crop dst) →
      ∃ a b, rm.ValidateScaling layer crop dst rx ry =
        some (DisplayError.kErrorNone, a, b)) := by
  have h1 : ¬ (dst.right - dst.left < 1 ∨ dst.bottom - dst.top < 1) := by
    simp only [not_or, not_lt]; exact ⟨hdw, hdh⟩
  have h2 : ¬ (rm.cropWidth layer crop < 1 ∨ rm.cropHeight layer crop < 1) := by
    unfold ResManager.cropWidth ResManager.cropHeight
    cases rm.IsRotationNeeded layer.transform.rotation <;>
      simp only [Bool.false_eq_true, if_false, if_true, not_or, not_lt] <;>
      constructor <;> assumption
  have h4 : ¬ rm.upscaleRejected (rm.scaleX layer crop dst) := by
    rintro ⟨u1, _, u3⟩
    exact absurd (hux ((UINT32_lt_one_iff _).mp u1)) (not_le.mpr u3)
  have h5 : ¬ rm.upscaleRejected (rm.scaleY layer crop dst) := by
    rintro ⟨u1, _, u3⟩
    exact absurd (huy ((UINT32_lt_one_iff _).mp u1)) (not_le.mpr u3)
  have hiff : rm.ValidateScaling layer crop dst rx ry =
      some (DisplayError.kErrorNotSupported, rx, ry) ↔
      rm.DownscaleOverLimit layer (rm.scaleX layer crop dst) (rm.scaleY layer crop dst) := by
    rw [ValidateScaling_rejected_iff, ← downscaleRejected_iff]
    tauto
  refine ⟨hiff, ?_⟩
  intro hm hn
  obtain ⟨⟨e, a, b⟩, hr⟩ := ValidateScaling_some rm layer crop dst rx ry hm
  have he : e = DisplayError.kErrorNone := by
    by_contra hne
    rw [ValidateScaling_eq] at hr
    rw [← downscaleRejected_iff] at hn
    simp only [h1, h2, hn, h4, h5, if_false] at hr
    cases hx : rotScaleLoop rm.hw_res_info_.max_scale_down kScaleLoopBound
        (rm.scaleX layer crop dst) 1 with
    | none => rw [hx] at hr; simp at hr
    | some x =>
      cases hy : rotScaleLoop rm.hw_res_info_.max_scale_down kScaleLoopBound
          (rm.scaleY layer crop dst) 1 with
      | none => rw [hx, hy] at hr; simp at hr
      | some y =>
        rw [hx, hy] at hr
        simp only [Bool.false_eq_true, if_false, Option.some.injEq, Prod.mk.injEq] at hr
        exact hne hr.1.symm
  subst he
  exact ⟨a, b, hr⟩

end sde

namespace sde

/-- C27 (as amended): for every layer with crop and destination extents of at least 1 on
both axes and no upscale-limit violation, `ValidateScaling` returns `kErrorNotSupported`
exactly when the downscale test fires: the truncated scale exceeds 1 on some axis, and the
scale on some axis exceeds `max_scale_down` while the buffer is macro-tiled or the hardware
lacks decimation, or exceeds the rotator limit (`max_scale_down x kMaxRotateDownScaleRatio`
as a `uint32_t` with rotator downscale, `max_scale_down` without).  With
`max_scale_down >= 1` the layer is accepted otherwise. -/
theorem ValidateScaling_downscale (rm : ResManager) (layer : Layer) (crop dst : LayerRect)
    (rx ry : CFloat)
    (hdw : 1 ≤ dst.right - dst.left) (hdh : 1 ≤ dst.bottom - dst.top)
    (hcw : 1 ≤ crop.right - crop.left) (hch : 1 ≤ crop.bottom - crop.top)
    (hux : rm.scaleX layer crop dst < 1 →
      1 / rm.scaleX layer crop dst ≤ (rm.hw_res_info_.max_scale_up : ℚ))
    (huy : rm.scaleY layer crop dst < 1 →
      1 / rm.scaleY layer crop dst ≤ (rm.hw_res_info_.max_scale_up : ℚ)) :
    (rm.ValidateScaling layer crop dst rx ry = some (DisplayError.kErrorNotSupported, rx, ry) ↔
      rm.DownscaleOverLimit layer (rm.scaleX layer crop dst) (rm.scaleY layer crop dst)) ∧
    (1 ≤ rm.hw_res_info_.max_scale_down →
      ¬ rm.DownscaleOverLimit layer (rm.scaleX layer crop dst) (rm.scaleY layer crop dst) →
      ∃ a b, rm.ValidateScaling layer crop dst rx ry =
        some (DisplayError.kErrorNone, a, b)) :=
  ValidateScaling_downscale_aux rm layer crop dst rx ry hdw hdh hcw hch hux huy

/-- Witness for C27: with decimation, rotator downscale and the limits 4 and 4 x 8 = 32, the
downscale 5 of `sampleLayerDown5` is accepted and the downscale 40 of a source 4000 wide is
rejected. -/
theorem ValidateScaling_downscale_witness :
    (¬ sampleResManager.DownscaleOverLimit sampleLayerDown5
        (sampleResManager.scaleX sampleLayerDown5 sampleLayerDown5.src_rect
          sampleLayerDown5.dst_rect)
        (sampleResManager.scaleY sampleLayerDown5 sampleLayerDown5.src_rect
          sampleLayerDown5.dst_rect) ∧
      sampleResManager.ValidateScaling sampleLayerDown5 sampleLayerDown5.src_rect
        sampleLayerDown5.dst_rect 1 1 = some (DisplayError.kErrorNone, 2, 1) ∧
      sampleResManager.ValidateScaling sampleLayerDown5
        { left := 0, top := 0, right := 4000, bottom := 100 }
        sampleLayerDown5.dst_rect 1 1 = some (DisplayError.kErrorNotSupported, 1, 1)) ∧
    ((sampleResManager.ValidateScaling sampleLayerDown5 sampleLayerDown5.src_rect
        sampleLayerDown5.dst_rect 1 1 = some (DisplayError.kErrorNotSupported, 1, 1) ↔
      sampleResManager.DownscaleOverLimit sampleLayerDown5
        (sampleResManager.scaleX sampleLayerDown5 sampleLayerDown5.src_rect
          sampleLayerDown5.dst_rect)
        (sampleResManager.scaleY sampleLayerDown5 sampleLayerDown5.src_rect
          sampleLayerDown5.dst_rect)) ∧
      (1 ≤ sampleResManager.hw_res_info_.max_scale_down →
        ¬ sampleResManager.DownscaleOverLimit sampleLayerDown5
          (sampleResManager.scaleX sampleLayerDown5 sampleLayerDown5.src_rect
            sampleLayerDown5.dst_rect)
          (sampleResManager.scaleY sampleLayerDown5 sampleLayerDown5.src_rect
            sampleLayerDown5.dst_rect) →
        ∃ a b, sampleResManager.ValidateScaling sampleLayerDown5 sampleLayerDown5.src_rect
          sampleLayerDown5.dst_rect 1 1 = some (DisplayError.kErrorNone, a, b))) :=
  ⟨⟨by decide!, by decide!, by decide!⟩,
    ValidateScaling_downscale sampleResManager sampleLayerDown5 sampleLayerDown5.src_rect
      sampleLayerDown5.dst_rect 1 1 (by decide!) (by decide!) (by decide!) (by decide!)
      (fun h => absurd h (by decide!)) (fun h => absurd h (by decide!))⟩

/-- C27 fails as stated.  Without decimation the hardware-only limit 4 applies to a buffer
that is not macro-tiled: the downscale 5 is rejected, below the relaxed limit 32 of the
claim.  Without rotator downscale the second limit is `max_scale_down` itself, not
`max_scale_down x kMaxRotateDownScaleRatio`: the downscale 5 is rejected again. -/
theorem ValidateScaling_downscale_counterexample :
    (sampleResManagerNoDecimation.IsMacroTileFormat sampleLayerDown5.input_buffer = false ∧
      sampleResManagerNoDecimation.scaleX sampleLayerDown5 sampleLayerDown5.src_rect
        sampleLayerDown5.dst_rect = 5 ∧
      sampleResManagerNoDecimation.scaleY sampleLayerDown5 sampleLayerDown5.src_rect
        sampleLayerDown5.dst_rect = 1 ∧
      sampleResManagerNoDecimation.specDownscaleLimit sampleLayerDown5 = 32 ∧
      ¬ sampleResManagerNoDecimation.specDownscaleOverLimit sampleLayerDown5 5 1 ∧
      sampleResManagerNoDecimation.ValidateScaling sampleLayerDown5
        sampleLayerDown5.src_rect sampleLayerDown5.dst_rect 1 1 =
          some (DisplayError.kErrorNotSupported, 1, 1)) ∧
    (sampleResManagerNoRotatorDownscale.hw_res_info_.has_decimation = true ∧
      sampleResManagerNoRotatorDownscale.specDownscaleLimit sampleLayerDown5 = 32 ∧
      ¬ sampleResManagerNoRotatorDownscale.specDownscaleOverLimit sampleLayerDown5 5 1 ∧
      sampleResManagerNoRotatorDownscale.ValidateScaling sampleLayerDown5
        sampleLayerDown5.src_rect sampleLayerDown5.dst_rect 1 1 =
          some (DisplayError.kErrorNotSupported, 1, 1)) := by
  refine ⟨⟨by decide!, by decide!, by decide!, by decide!, by decide!, by decide!⟩,
    ⟨by decide!, by decide!, by decide!, by decide!⟩⟩

end sde

namespace sde

/-! ## The rotator stage of `Config` -/

theorem UINT32_two_pow_ne_one (k : ℕ) : UINT32 ((2 : ℚ) ^ k) ≠ 1 ↔ (2 : ℚ) ^ k ≠ 1 := by
  have hfl : ⌊(2 : ℚ) ^ k⌋ = (2 : ℤ) ^ k := by
    have : ((2 : ℚ) ^ k) = (((2 : ℤ) ^ k : ℤ) : ℚ) := by push_cast; rfl
    rw [this, Int.floor_intCast]
  have htn : Int.toNat ⌊(2 : ℚ) ^ k⌋ = 2 ^ k := by
    rw [hfl]
    have : ((2 : ℤ) ^ k) = ((2 ^ k : ℕ) : ℤ) := by push_cast; rfl
    rw [this, Int.toNat_natCast]
  unfold UINT32
  rw [htn]
  cases k with
  | zero => simp
  | succ k =>
    have h2 : 2 ≤ 2 ^ (k + 1) := by
      calc 2 = 2 ^ 1 := by norm_num
        _ ≤ 2 ^ (k + 1) := Nat.pow_le_pow_right (by norm_num) (by omega)
    have h3 : (2 : ℚ) ≤ 2 ^ (k + 1) := by exact_mod_cast h2
    constructor
    · intro _ h
      linarith
    · intro _ h
      have : 2 ≤ min (2 ^ (k + 1)) (2 ^ 32 - 1) := le_min h2 (by norm_num)
      omega

theorem SrcSplitConfig_rotators (rm : ResManager) (ctx : DisplayResourceContext)
    (transform : LayerTransform) (src_rect dst_rect : LayerRect) (cfg : HWLayerConfig) :
    (rm.SrcSplitConfig ctx transform src_rect dst_rect cfg).2.left_rotate = cfg.left_rotate ∧
      (rm.SrcSplitConfig ctx transform src_rect dst_rect cfg).2.right_rotate =
        cfg.right_rotate := by
  rw [SrcSplitConfig_eq]
  split_ifs <;> exact ⟨rfl, rfl⟩

theorem DisplaySplitConfig_rotators (rm : ResManager) (ctx : DisplayResourceContext)
    (transform : LayerTransform) (src_rect dst_rect : LayerRect) (cfg : HWLayerConfig) :
    (rm.DisplaySplitConfig ctx transform src_rect dst_rect cfg).2.left_rotate =
        cfg.left_rotate ∧
      (rm.DisplaySplitConfig ctx transform src_rect dst_rect cfg).2.right_rotate =
        cfg.right_rotate := by
  rw [DisplaySplitConfig_eq]
  unfold ResManager.assignRightPipe ResManager.twoPipes
  split_ifs <;> exact ⟨rfl, rfl⟩

theorem ConfigRotateAndSplit_rotators (rm : ResManager) (ctx : DisplayResourceContext)
    (layer : Layer) (src_rect dst_rect : LayerRect) (a b : CFloat) (cfg : HWLayerConfig)
    (rc : ℕ) :
    (rm.ConfigRotateAndSplit ctx layer src_rect dst_rect a b cfg rc).2.1.left_rotate =
        (rm.RotatedConfig layer src_rect a b cfg).left_rotate ∧
      (rm.ConfigRotateAndSplit ctx layer src_rect dst_rect a b cfg rc).2.1.right_rotate =
        (rm.RotatedConfig layer src_rect a b cfg).right_rotate := by
  rw [ConfigRotateAndSplit_eq]
  simp only
  split_ifs
  · exact SrcSplitConfig_rotators _ _ _ _ _ _
  · exact DisplaySplitConfig_rotators _ _ _ _ _ _

theorem NeedsRotator_iff (rm : ResManager) (layer : Layer) (crop dst : LayerRect)
    (rx ry a b : CFloat)
    (h : rm.ValidateScaling layer crop dst rx ry = some (DisplayError.kErrorNone, a, b)) :
    rm.NeedsRotator layer a b ↔
      (rm.IsRotationNeeded layer.transform.rotation = true ∨ a ≠ 1 ∨ b ≠ 1) := by
  obtain ⟨kx, ky, _, _, ha, hb, _⟩ := ValidateScaling_rot_scale_aux rm layer crop dst rx ry a b h
  unfold ResManager.NeedsRotator
  rw [ha, hb, UINT32_two_pow_ne_one, UINT32_two_pow_ne_one]

end sde

namespace sde

theorem RotatedConfig_ok (rm : ResManager) (layer : Layer) (crop dst : LayerRect)
    (rx ry a b : CFloat) (cfg cfg1 : HWLayerConfig)
    (h : rm.ValidateScaling layer crop dst rx ry = some (DisplayError.kErrorNone, a, b))
    (hl : cfg1.left_rotate = (rm.RotatedConfig layer crop a b cfg).left_rotate)
    (hr : cfg1.right_rotate = (rm.RotatedConfig layer crop a b cfg).right_rotate) :
    RotatorStageOk rm layer crop a b cfg1 := by
  have hiff := NeedsRotator_iff rm layer crop dst rx ry a b h
  unfold RotatorStageOk
  rw [hl, hr, ← hiff]
  unfold ResManager.RotatedConfig ResManager.SplitSource
  constructor
  · intro hn
    simp only [hn, if_true]
    exact ⟨trivial, trivial, trivial, trivial⟩
  · intro hn
    simp only [hn, if_false]
    exact ⟨trivial, trivial⟩

theorem Config_rotator_aux (rm : ResManager) (ctx : DisplayResourceContext) :
    (∀ (layer : Layer) (crop dst : LayerRect) (rx ry a b : CFloat) (cfg : HWLayerConfig)
        (rc : ℕ),
      rm.ValidateScaling layer crop dst rx ry = some (DisplayError.kErrorNone, a, b) →
      RotatorStageOk rm layer crop a b
        (rm.ConfigRotateAndSplit ctx layer crop dst a b cfg rc).2.1 ∧
      ((rm.IsRotationNeeded layer.transform.rotation = true ∨ a ≠ 1 ∨ b ≠ 1) →
        ((rm.ConfigRotateAndSplit ctx layer crop dst a b cfg rc).1,
            (rm.ConfigRotateAndSplit ctx layer crop dst a b cfg rc).2.1) =
          (if rm.hw_res_info_.is_src_split = true then
            rm.SrcSplitConfig ctx {}
              { left := 0, top := 0, right := (crop.bottom - crop.top) / a,
                bottom := (crop.right - crop.left) / b }
              dst (rm.RotatedConfig layer crop a b cfg)
          else
            rm.DisplaySplitConfig ctx {}
              { left := 0, top := 0, right := (crop.bottom - crop.top) / a,
                bottom := (crop.right - crop.left) / b }
              dst (rm.RotatedConfig layer crop a b cfg)) ∧
        (rm.ConfigRotateAndSplit ctx layer crop dst a b cfg rc).2.2 = (rc + 1) % 2 ^ 32 ∧
        (rc + 1 < 2 ^ 32 →
          (rm.ConfigRotateAndSplit ctx layer crop dst a b cfg rc).2.2 = rc + 1)) ∧
      (¬ (rm.IsRotationNeeded layer.transform.rotation = true ∨ a ≠ 1 ∨ b ≠ 1) →
        ((rm.ConfigRotateAndSplit ctx layer crop dst a b cfg rc).1,
            (rm.ConfigRotateAndSplit ctx layer crop dst a b cfg rc).2.1) =
          (if rm.hw_res_info_.is_src_split = true then
            rm.SrcSplitConfig ctx layer.transform crop dst (rm.RotatedConfig layer crop a b cfg)
          else
            rm.DisplaySplitConfig ctx layer.transform crop dst
              (rm.RotatedConfig layer crop a b cfg)) ∧
        (rm.ConfigRotateAndSplit ctx layer crop dst a b cfg rc).2.2 = rc)) ∧
    (∀ (hw hw1 : HWLayers) (rc rc1 : ℕ),
      rm.Config ctx hw rc = some (DisplayError.kErrorNone, hw1, rc1) →
      ∀ j, j < hw.info.count →
        ∃ idx layer a b cfg1, hw.info.index[j]? = some idx ∧
          hw.info.stack[idx]? = some layer ∧
          rm.ValidateScaling layer
            (rm.CalculateCropRects (displayScissor ctx) layer.transform layer.src_rect
              layer.dst_rect).1
            (rm.CalculateCropRects (displayScissor ctx) layer.transform layer.src_rect
              layer.dst_rect).2 1 1 = some (DisplayError.kErrorNone, a, b) ∧
          hw1.config[j]? = some cfg1 ∧
          RotatorStageOk rm layer
            (rm.CalculateCropRects (displayScissor ctx) layer.transform layer.src_rect
              layer.dst_rect).1 a b cfg1) := by
  constructor
  · intro layer crop dst rx ry a b cfg rc h
    have hiff := NeedsRotator_iff rm layer crop dst rx ry a b h
    have hrot := ConfigRotateAndSplit_rotators rm ctx layer crop dst a b cfg rc
    refine ⟨RotatedConfig_ok rm layer crop dst rx ry a b cfg _ h hrot.1 hrot.2, ?_, ?_⟩
    · intro hc
      have hn := hiff.mpr hc
      rw [ConfigRotateAndSplit_eq]
      simp only [ResManager.SplitTransform, ResManager.SplitSource, hn, if_true]
      refine ⟨trivial, trivial, ?_⟩
      intro hlt
      exact Nat.mod_eq_of_lt hlt
    · intro hc
      have hn : ¬ rm.NeedsRotator layer a b := fun hn => hc (hiff.mp hn)
      rw [ConfigRotateAndSplit_eq]
      simp only [ResManager.SplitTransform, ResManager.SplitSource, hn, if_false]
      exact ⟨trivial, trivial⟩
  · intro hw hw1 rc rc1 h j hj
    obtain ⟨_, _, m, _, _, hdone, hlast, hnone, _, _⟩ :=
      ConfigLoop_spec rm ctx hw.info.count 0 hw hw1 rc rc1 _ h
    simp only [Nat.zero_add, Nat.zero_le, true_implies] at hdone hlast
    have hmc := hnone rfl
    subst hmc
    have hd : LayerDone rm ctx hw hw1 j DisplayError.kErrorNone := by
      by_cases hjm : j + 1 < hw.info.count
      · exact hdone j hjm
      · have hj1 : j = hw.info.count - 1 := by omega
        rw [hj1]
        exact hlast (by omega)
    obtain ⟨idx, layer, cfg, rcj, r, h1, h2, _, h4, h5, h6⟩ := hd
    obtain ⟨a, b, hvs, hr1⟩ := LayerResult_ok rm ctx layer cfg rcj r h4 h6
    refine ⟨idx, layer, a, b, r.2.1, h1, h2, hvs, h5, ?_⟩
    have hrot := ConfigRotateAndSplit_rotators rm ctx layer
      (rm.CalculateCropRects (displayScissor ctx) layer.transform layer.src_rect
        layer.dst_rect).1
      (rm.CalculateCropRects (displayScissor ctx) layer.transform layer.src_rect
        layer.dst_rect).2 a b cfg rcj
    rw [← hr1] at hrot
    exact RotatedConfig_ok rm layer _ _ 1 1 a b cfg _ hvs hrot.1 hrot.2

end sde

namespace sde

/-- C25: in the loop body of `Config`, for a layer that passed `ValidateScaling` with the
factors `a`, `b`: if rotation is needed (`IsRotationNeeded`) or a factor differs from 1, the
left rotator reads the cropped source and writes `[0, 0, height / a, width / b]`, the right
rotator is reset, the split configuration receives that rectangle as its source with the
identity transform, and `*rotate_count` goes up by one (as a `uint32_t`); otherwise both
rotators are reset, the split configuration receives the cropped source with the transform
of the layer, and `*rotate_count` is unchanged.  After a successful `Config` every layer
below `count` has its rotators in that state. -/
theorem Config_rotator (rm : ResManager) (ctx : DisplayResourceContext) :
    (∀ (layer : Layer) (crop dst : LayerRect) (rx ry a b : CFloat) (cfg : HWLayerConfig)
        (rc : ℕ),
      rm.ValidateScaling layer crop dst rx ry = some (DisplayError.kErrorNone, a, b) →
      RotatorStageOk rm layer crop a b
        (rm.ConfigRotateAndSplit ctx layer crop dst a b cfg rc).2.1 ∧
      ((rm.IsRotationNeeded layer.transform.rotation = true ∨ a ≠ 1 ∨ b ≠ 1) →
        ((rm.ConfigRotateAndSplit ctx layer crop dst a b cfg rc).1,
            (rm.ConfigRotateAndSplit ctx layer crop dst a b cfg rc).2.1) =
          (if rm.hw_res_info_.is_src_split = true then
            rm.SrcSplitConfig ctx {}
              { left := 0, top := 0, right := (crop.bottom - crop.top) / a,
                bottom := (crop.right - crop.left) / b }
              dst (rm.RotatedConfig layer crop a b cfg)
          else
            rm.DisplaySplitConfig ctx {}
              { left := 0, top := 0, right := (crop.bottom - crop.top) / a,
                bottom := (crop.right - crop.left) / b }
              dst (rm.RotatedConfig layer crop a b cfg)) ∧
        (rm.ConfigRotateAndSplit ctx layer crop dst a b cfg rc).2.2 = (rc + 1) % 2 ^ 32 ∧
        (rc + 1 < 2 ^ 32 →
          (rm.ConfigRotateAndSplit ctx layer crop dst a b cfg rc).2.2 = rc + 1)) ∧
      (¬ (rm.IsRotationNeeded layer.transform.rotation = true ∨ a ≠ 1 ∨ b ≠ 1) →
        ((rm.ConfigRotateAndSplit ctx layer crop dst a b cfg rc).1,
            (rm.ConfigRotateAndSplit ctx layer crop dst a b cfg rc).2.1) =
          (if rm.hw_res_info_.is_src_split = true then
            rm.SrcSplitConfig ctx layer.transform crop dst (rm.RotatedConfig layer crop a b cfg)
          else
            rm.DisplaySplitConfig ctx layer.transform crop dst
              (rm.RotatedConfig layer crop a b cfg)) ∧
        (rm.ConfigRotateAndSplit ctx layer crop dst a b cfg rc).2.2 = rc)) ∧
    (∀ (hw hw1 : HWLayers) (rc rc1 : ℕ),
      rm.Config ctx hw rc = some (DisplayError.kErrorNone, hw1, rc1) →
      ∀ j, j < hw.info.count →
        ∃ idx layer a b cfg1, hw.info.index[j]? = some idx ∧
          hw.info.stack[idx]? = some layer ∧
          rm.ValidateScaling layer
            (rm.CalculateCropRects (displayScissor ctx) layer.transform layer.src_rect
              layer.dst_rect).1
            (rm.CalculateCropRects (displayScissor ctx) layer.transform layer.src_rect
              layer.dst_rect).2 1 1 = some (DisplayError.kErrorNone, a, b) ∧
          hw1.config[j]? = some cfg1 ∧
          RotatorStageOk rm layer
            (rm.CalculateCropRects (displayScissor ctx) layer.transform layer.src_rect
              layer.dst_rect).1 a b cfg1) :=
  Config_rotator_aux rm ctx

/-- Witness for C25: the frame `sampleFrameRot`; its first layer is rotated by 90 degrees and
goes through the left rotator, its second layer does not, and the count ends at 1. -/
theorem Config_rotator_witness :
    (sampleResManager.ValidateScaling sampleLayerRot90 sampleLayerRot90.src_rect
        sampleLayerRot90.dst_rect 1 1 = some (DisplayError.kErrorNone, 1, 1) ∧
      sampleResManager.IsRotationNeeded sampleLayerRot90.transform.rotation = true ∧
      sampleResManager.Config sampleCtx sampleFrameRot 0 =
        some (DisplayError.kErrorNone, sampleFrameRotDone, 1)) ∧
    RotatorStageOk sampleResManager sampleLayerRot90 sampleLayerRot90.src_rect 1 1
      (sampleResManager.ConfigRotateAndSplit sampleCtx sampleLayerRot90
        sampleLayerRot90.src_rect sampleLayerRot90.dst_rect 1 1 sampleConfig 0).2.1 ∧
    (sampleResManager.ConfigRotateAndSplit sampleCtx sampleLayerRot90
        sampleLayerRot90.src_rect sampleLayerRot90.dst_rect 1 1 sampleConfig 0).2.2 = 0 + 1 ∧
    (∀ j, j < sampleFrameRot.info.count →
      ∃ idx layer a b cfg1, sampleFrameRot.info.index[j]? = some idx ∧
        sampleFrameRot.info.stack[idx]? = some layer ∧
        sampleResManager.ValidateScaling layer
          (sampleResManager.CalculateCropRects (displayScissor sampleCtx) layer.transform
            layer.src_rect layer.dst_rect).1
          (sampleResManager.CalculateCropRects (displayScissor sampleCtx) layer.transform
            layer.src_rect layer.dst_rect).2 1 1 = some (DisplayError.kErrorNone, a, b) ∧
        sampleFrameRotDone.config[j]? = some cfg1 ∧
        RotatorStageOk sampleResManager layer
          (sampleResManager.CalculateCropRects (displayScissor sampleCtx) layer.transform
            layer.src_rect layer.dst_rect).1 a b cfg1) :=
  ⟨⟨by decide!, by decide!, by decide!⟩,
    ((Config_rotator sampleResManager sampleCtx).1 sampleLayerRot90
      sampleLayerRot90.src_rect sampleLayerRot90.dst_rect 1 1 1 1 sampleConfig 0
      (by decide!)).1,
    (((Config_rotator sampleResManager sampleCtx).1 sampleLayerRot90
      sampleLayerRot90.src_rect sampleLayerRot90.dst_rect 1 1 1 1 sampleConfig 0
      (by decide!)).2.1 (Or.inl (by decide!))).2.2 (by decide),
    (Config_rotator sampleResManager sampleCtx).2 sampleFrameRot sampleFrameRotDone 0 1
      (by decide!)⟩

end sde

namespace sdm

/-! ## `SetRotation`: inline rotation by 90 degrees -/

/-- C23: for rotator mode inline, rotation 90 and an initial bitmask of 0, `SetRotation`
gives `ROT_90 | FLIP_H | FLIP_V` without flip, `ROT_90 | FLIP_V` for a horizontal flip
only, `ROT_90 | FLIP_H` for a vertical flip only and `ROT_90` for both flips.  For the modes
none and inline (every mode other than offline) and rotation 0, the bitmask is the initial
bitmask with the `FLIP_H` and `FLIP_V` bits of the requested flips: exactly those bits for the
initial bitmask 0. -/
theorem SetRotation_inline_rot90 (rot : DRMRotation) :
    (HWDeviceDRM.SetRotation rot
        { rotation := 90, flip_horizontal := false, flip_vertical := false }
        HWRotatorMode.kRotatorInline 0 = rot.ROT_90 ||| rot.FLIP_H ||| rot.FLIP_V ∧
      HWDeviceDRM.SetRotation rot
        { rotation := 90, flip_horizontal := true, flip_vertical := false }
        HWRotatorMode.kRotatorInline 0 = rot.ROT_90 ||| rot.FLIP_V ∧
      HWDeviceDRM.SetRotation rot
        { rotation := 90, flip_horizontal := false, flip_vertical := true }
        HWRotatorMode.kRotatorInline 0 = rot.ROT_90 ||| rot.FLIP_H ∧
      HWDeviceDRM.SetRotation rot
        { rotation := 90, flip_horizontal := true, flip_vertical := true }
        HWRotatorMode.kRotatorInline 0 = rot.ROT_90) ∧
    (∀ (flip_h flip_v : Bool) (mask : ℕ),
      HWDeviceDRM.SetRotation rot
          { rotation := 0, flip_horizontal := flip_h, flip_vertical := flip_v }
          HWRotatorMode.kRotatorNone mask =
        (mask ||| (if flip_h then rot.FLIP_H else 0)) ||| (if flip_v then rot.FLIP_V else 0) ∧
      HWDeviceDRM.SetRotation rot
          { rotation := 0, flip_horizontal := flip_h, flip_vertical := flip_v }
          HWRotatorMode.kRotatorInline mask =
        (mask ||| (if flip_h then rot.FLIP_H else 0)) ||| (if flip_v then rot.FLIP_V else 0) ∧
      HWDeviceDRM.SetRotation rot
          { rotation := 0, flip_horizontal := flip_h, flip_vertical := flip_v }
          HWRotatorMode.kRotatorNone 0 =
        (if flip_h then rot.FLIP_H else 0) ||| (if flip_v then rot.FLIP_V else 0) ∧
      HWDeviceDRM.SetRotation rot
          { rotation := 0, flip_horizontal := flip_h, flip_vertical := flip_v }
          HWRotatorMode.kRotatorInline 0 =
        (if flip_h then rot.FLIP_H else 0) ||| (if flip_v then rot.FLIP_V else 0)) ∧
    (∀ mode : HWRotatorMode, mode = HWRotatorMode.kRotatorNone ∨
      mode = HWRotatorMode.kRotatorOffline ∨ mode = HWRotatorMode.kRotatorInline) := by
  refine ⟨⟨?_, ?_, ?_, ?_⟩, ?_, ?_⟩
  · simp [HWDeviceDRM.SetRotation]
  · simp [HWDeviceDRM.SetRotation]
  · simp [HWDeviceDRM.SetRotation]
  · simp [HWDeviceDRM.SetRotation]
  · intro flip_h flip_v mask
    cases flip_h <;> cases flip_v <;> simp [HWDeviceDRM.SetRotation]
  · intro mode
    cases mode <;> simp

end sdm

namespace sdm

/-! ## The refresh-rate switch at commit -/

theorem modeMatches_iff (current : DRMModeItem) (rate : ℕ) (item : DRMModeItem) :
    modeMatches current.mode rate item = true ↔ IsModeFor current rate item := by
  simp only [modeMatches, Bool.and_eq_true, beq_iff_eq, IsModeFor]
  constructor
  · rintro ⟨⟨h1, h2⟩, h3⟩
    exact ⟨h2.symm, h1.symm, h3.symm⟩
  · rintro ⟨h1, h2, h3⟩
    exact ⟨⟨h2.symm, h1.symm⟩, h3.symm⟩

theorem modeSearch_some (current : DRMModeItem) (rate : ℕ) (modes : List DRMModeItem) :
    ∀ (start : ℕ) (found : ℕ × DRMModeItem),
      modeSearch current.mode rate modes start = some found →
      start ≤ found.1 ∧ modes[found.1 - start]? = some found.2 ∧
        IsModeFor current rate found.2 ∧
        ∀ j item, j < found.1 - start → modes[j]? = some item →
          ¬ IsModeFor current rate item := by
  induction modes with
  | nil => intro start found h; simp [modeSearch] at h
  | cons x rest ih =>
    intro start found h
    rw [modeSearch] at h
    split_ifs at h with hm
    · simp only [Option.some.injEq] at h
      subst h
      refine ⟨le_refl _, by simp, (modeMatches_iff _ _ _).mp hm, ?_⟩
      intro j item hj
      simp at hj
    · obtain ⟨h1, h2, h3, h4⟩ := ih (start + 1) found h
      refine ⟨by omega, ?_, h3, ?_⟩
      · have e : found.1 - start = (found.1 - (start + 1)) + 1 := by omega
        rw [e, List.getElem?_cons_succ]
        exact h2
      · intro j item hj hitem
        cases j with
        | zero =>
          simp only [List.getElem?_cons_zero, Option.some.injEq] at hitem
          subst hitem
          exact fun hc => hm ((modeMatches_iff _ _ _).mpr hc)
        | succ j =>
          rw [List.getElem?_cons_succ] at hitem
          exact h4 j item (by omega) hitem

theorem modeSearch_none (current : DRMModeItem) (rate : ℕ) (modes : List DRMModeItem) :
    ∀ (start : ℕ), modeSearch current.mode rate modes start = none →
      ∀ item, item ∈ modes → ¬ IsModeFor current rate item := by
  induction modes with
  | nil => intro start _ item hitem; simp at hitem
  | cons x rest ih =>
    intro start h item hitem
    rw [modeSearch] at h
    split_ifs at h with hm
    rcases List.mem_cons.mp hitem with he | he
    · subst he
      exact fun hc => hm ((modeMatches_iff _ _ _).mpr hc)
    · exact ih (start + 1) h item he

theorem IsLowestModeFor_unique (modes : List DRMModeItem) (current : DRMModeItem) (rate : ℕ)
    (i k : ℕ) (hi : IsLowestModeFor modes current rate i)
    (hk : IsLowestModeFor modes current rate k) : i = k := by
  obtain ⟨⟨mi, hmi, hfi⟩, hli⟩ := hi
  obtain ⟨⟨mk, hmk, hfk⟩, hlk⟩ := hk
  rcases Nat.lt_trichotomy i k with h | h | h
  · exact absurd hfi (hlk i mi h hmi)
  · exact h
  · exact absurd hfk (hli k mk h hmk)

end sdm

namespace sdm

theorem SetupAtomicMode_ne_none (dev : HWDeviceDRM) (current : DRMModeItem)
    (hcur : dev.connector_info_.modes[dev.current_mode_index_]? = some current) :
    ¬ dev.SetupAtomicMode = none := by
  unfold HWDeviceDRM.SetupAtomicMode
  rw [hcur]
  simp only
  split_ifs
  · cases modeSearch current.mode dev.vrefresh_ dev.connector_info_.modes 0 <;> simp
  · simp

theorem AtomicCommit_eq (dev : HWDeviceDRM) (default_mode_ : Bool) (ret : ℤ)
    (current : DRMModeItem)
    (hcur : dev.connector_info_.modes[dev.current_mode_index_]? = some current) :
    dev.AtomicCommit default_mode_ ret =
      if ret ≠ 0 then some (DisplayError.kErrorHardware, { dev with vrefresh_ := 0 })
      else if dev.vrefresh_ ≠ 0 then
        match modeSearch current.mode dev.vrefresh_ dev.connector_info_.modes 0 with
        | some found =>
          some (DisplayError.kErrorNone,
            { dev with current_mode_index_ := found.1, vrefresh_ := 0 })
        | none => some (DisplayError.kErrorNone, { dev with vrefresh_ := 0 })
      else some (DisplayError.kErrorNone, dev) := by
  unfold HWDeviceDRM.AtomicCommit
  have h := SetupAtomicMode_ne_none dev current hcur
  simp only [h, and_false, if_false, hcur]

theorem modeSearch_lowest (dev : HWDeviceDRM) (current : DRMModeItem)
    (found : ℕ × DRMModeItem)
    (h : modeSearch current.mode dev.vrefresh_ dev.connector_info_.modes 0 = some found) :
    IsLowestModeFor dev.connector_info_.modes current dev.vrefresh_ found.1 ∧
      dev.connector_info_.modes[found.1]? = some found.2 := by
  obtain ⟨_, h2, h3, h4⟩ := modeSearch_some current dev.vrefresh_ _ 0 found h
  simp only [Nat.sub_zero] at h2 h4
  exact ⟨⟨⟨found.2, h2, h3⟩, fun j item hj hitem => h4 j item hj hitem⟩, h2⟩

theorem AtomicCommit_refresh_aux (dev : HWDeviceDRM) (default_mode_ : Bool) (ret : ℤ)
    (current : DRMModeItem)
    (hcur : dev.connector_info_.modes[dev.current_mode_index_]? = some current) :
    (dev.vrefresh_ ≠ 0 → ret = 0 →
      ∃ dev1, dev.AtomicCommit default_mode_ ret = some (DisplayError.kErrorNone, dev1) ∧
        dev1.vrefresh_ = 0 ∧ dev1.connector_info_ = dev.connector_info_ ∧
        (∀ i, IsLowestModeFor dev.connector_info_.modes current dev.vrefresh_ i →
          dev1.current_mode_index_ = i) ∧
        ((∃ item, item ∈ dev.connector_info_.modes ∧ IsModeFor current dev.vrefresh_ item) →
          IsLowestModeFor dev.connector_info_.modes current dev.vrefresh_
              dev1.current_mode_index_ ∧
            dev.SetupAtomicMode =
              (dev.connector_info_.modes[dev1.current_mode_index_]?).map
                (fun item => item.mode)) ∧
        ((∀ item, item ∈ dev.connector_info_.modes →
            ¬ IsModeFor current dev.vrefresh_ item) →
          dev1.current_mode_index_ = dev.current_mode_index_)) ∧
    (ret ≠ 0 →
      dev.AtomicCommit default_mode_ ret =
        some (DisplayError.kErrorHardware, { dev with vrefresh_ := 0 })) ∧
    (dev.vrefresh_ = 0 →
      ∃ err dev1, dev.AtomicCommit default_mode_ ret = some (err, dev1) ∧
        dev1.current_mode_index_ = dev.current_mode_index_ ∧ dev1.vrefresh_ = 0) := by
  rw [AtomicCommit_eq dev default_mode_ ret current hcur]
  refine ⟨?_, ?_, ?_⟩
  · intro hv hret
    subst hret
    simp only [ne_eq, not_true_eq_false, if_false, hv, not_false_eq_true, if_true]
    cases hs : modeSearch current.mode dev.vrefresh_ dev.connector_info_.modes 0 with
    | none =>
      have hnone := modeSearch_none current dev.vrefresh_ _ 0 hs
      refine ⟨_, rfl, rfl, rfl, ?_, ?_, fun _ => rfl⟩
      · rintro i ⟨⟨item, hitem, hfor⟩, _⟩
        exact absurd hfor (hnone item (List.getElem?_mem hitem))
      · rintro ⟨item, hitem, hfor⟩
        exact absurd hfor (hnone item hitem)
    | some found =>
      obtain ⟨hlow, hget⟩ := modeSearch_lowest dev current found hs
      refine ⟨_, rfl, rfl, rfl, ?_, ?_, ?_⟩
      · intro i hi
        exact IsLowestModeFor_unique _ _ _ _ _ hlow hi
      · intro _
        refine ⟨hlow, ?_⟩
        simp only [HWDeviceDRM.SetupAtomicMode, hcur, ne_eq, hv, not_false_eq_true, if_true,
          hs, hget, Option.map_some']
      · intro hnone
        obtain ⟨⟨item, hitem, hfor⟩, _⟩ := hlow
        exact absurd hfor (hnone item (List.getElem?_mem hitem))
  · intro hret
    simp only [ne_eq, hret, not_false_eq_true, if_true]
  · intro hv
    by_cases hret : ret = 0
    · simp only [ne_eq, hret, not_true_eq_false, if_false, hv]
      exact ⟨_, _, rfl, rfl, hv⟩
    · simp only [ne_eq, hret, not_false_eq_true, if_true]
      exact ⟨_, _, rfl, rfl, rfl⟩

end sdm

namespace sdm

/-- C21: let `current_mode_index_` lie inside the mode list.  With a refresh rate pending
and a successful driver commit, `AtomicCommit` returns success, clears the pending rate and
sets `current_mode_index_` to the lowest index of a mode with the resolution of the current
mode and the pending rate (the mode that `SetupAtomic` programmed); when no mode qualifies
the index stays.  When the driver commit fails, `AtomicCommit` returns `kErrorHardware`,
`current_mode_index_` is unchanged and the pending rate is cleared.  With no rate pending
`current_mode_index_` is unchanged, whatever the driver returns. -/
theorem AtomicCommit_refresh (dev : HWDeviceDRM) (default_mode_ : Bool) (ret : ℤ)
    (current : DRMModeItem)
    (hcur : dev.connector_info_.modes[dev.current_mode_index_]? = some current) :
    (dev.vrefresh_ ≠ 0 → ret = 0 →
      ∃ dev1, dev.AtomicCommit default_mode_ ret = some (DisplayError.kErrorNone, dev1) ∧
        dev1.vrefresh_ = 0 ∧ dev1.connector_info_ = dev.connector_info_ ∧
        (∀ i, IsLowestModeFor dev.connector_info_.modes current dev.vrefresh_ i →
          dev1.current_mode_index_ = i) ∧
        ((∃ item, item ∈ dev.connector_info_.modes ∧ IsModeFor current dev.vrefresh_ item) →
          IsLowestModeFor dev.connector_info_.modes current dev.vrefresh_
              dev1.current_mode_index_ ∧
            dev.SetupAtomicMode =
              (dev.connector_info_.modes[dev1.current_mode_index_]?).map
                (fun item => item.mode)) ∧
        ((∀ item, item ∈ dev.connector_info_.modes →
            ¬ IsModeFor current dev.vrefresh_ item) →
          dev1.current_mode_index_ = dev.current_mode_index_)) ∧
    (ret ≠ 0 →
      dev.AtomicCommit default_mode_ ret =
        some (DisplayError.kErrorHardware, { dev with vrefresh_ := 0 })) ∧
    (dev.vrefresh_ = 0 →
      ∃ err dev1, dev.AtomicCommit default_mode_ ret = some (err, dev1) ∧
        dev1.current_mode_index_ = dev.current_mode_index_ ∧ dev1.vrefresh_ = 0) :=
  AtomicCommit_refresh_aux dev default_mode_ ret current hcur

/-- Witness for C21: `sampleDevice` with the rate 90 pending.  A successful commit moves the
index from 0 to 1, the mode 1080 x 2340 at 90, and clears the pending rate; a failed commit
returns `kErrorHardware`, keeps the index 0 and clears the pending rate. -/
theorem AtomicCommit_refresh_witness :
    (sampleDevicePending.connector_info_.modes[sampleDevicePending.current_mode_index_]? =
        some ⟨{ hdisplay := 1080, vdisplay := 2340, vrefresh := 60 }⟩ ∧
      sampleDevicePending.vrefresh_ ≠ 0) ∧
    sampleDevicePending.AtomicCommit false 0 =
      some (DisplayError.kErrorNone,
        { sampleDevice with current_mode_index_ := 1, vrefresh_ := 0 }) ∧
    sampleDevicePending.AtomicCommit false (-22) =
      some (DisplayError.kErrorHardware, sampleDevice) ∧
    (∃ dev1, sampleDevicePending.AtomicCommit false 0 = some (DisplayError.kErrorNone, dev1) ∧
      dev1.vrefresh_ = 0 ∧ dev1.connector_info_ = sampleDevicePending.connector_info_ ∧
      (∀ i, IsLowestModeFor sampleDevicePending.connector_info_.modes
          ⟨{ hdisplay := 1080, vdisplay := 2340, vrefresh := 60 }⟩
          sampleDevicePending.vrefresh_ i →
        dev1.current_mode_index_ = i) ∧
      ((∃ item, item ∈ sampleDevicePending.connector_info_.modes ∧
          IsModeFor ⟨{ hdisplay := 1080, vdisplay := 2340, vrefresh := 60 }⟩
            sampleDevicePending.vrefresh_ item) →
        IsLowestModeFor sampleDevicePending.connector_info_.modes
            ⟨{ hdisplay := 1080, vdisplay := 2340, vrefresh := 60 }⟩
            sampleDevicePending.vrefresh_ dev1.current_mode_index_ ∧
          sampleDevicePending.SetupAtomicMode =
            (sampleDevicePending.connector_info_.modes[dev1.current_mode_index_]?).map
              (fun item => item.mode)) ∧
      ((∀ item, item ∈ sampleDevicePending.connector_info_.modes →
          ¬ IsModeFor ⟨{ hdisplay := 1080, vdisplay := 2340, vrefresh := 60 }⟩
            sampleDevicePending.vrefresh_ item) →
        dev1.current_mode_index_ = sampleDevicePending.current_mode_index_)) :=
  ⟨⟨by decide, by decide⟩, by decide, by decide,
    (AtomicCommit_refresh sampleDevicePending false 0
      ⟨{ hdisplay := 1080, vdisplay := 2340, vrefresh := 60 }⟩ (by decide)).1
      (by decide) rfl⟩

end sdm

namespace sdm

/-! ## `SetupAtomic`: the partial-update regions -/

theorem roiLoop_ok (rois : List LayerRect) :
    ∀ (i : ℕ) (rects : List DRMRect × List DRMRect),
      i + rois.length ≤ rects.1.length → i + rois.length ≤ rects.2.length →
      ∃ out, roiLoop rois i rects = some out ∧
        out.1.length = rects.1.length ∧ out.2.length = rects.2.length ∧
        (∀ j, j < i → out.1[j]? = rects.1[j]? ∧ out.2[j]? = rects.2[j]?) ∧
        (∀ j, i + rois.length ≤ j → out.1[j]? = rects.1[j]? ∧ out.2[j]? = rects.2[j]?) ∧
        (∀ j roi, rois[j]? = some roi →
          out.1[i + j]? = some (roiRect roi) ∧ out.2[i + j]? = some (roiRect roi)) := by
  induction rois with
  | nil =>
    intro i rects _ _
    refine ⟨rects, rfl, rfl, rfl, fun j _ => ⟨rfl, rfl⟩, fun j _ => ⟨rfl, rfl⟩, ?_⟩
    intro j roi h
    simp at h
  | cons roi rest ih =>
    intro i rects h1 h2
    simp only [List.length_cons] at h1 h2
    have hi1 : i < rects.1.length := by omega
    have hi2 : i < rects.2.length := by omega
    obtain ⟨out, hout, hl1, hl2, hlow, hhigh, hmid⟩ :=
      ih (i + 1) (rects.1.set i (roiRect roi), rects.2.set i (roiRect roi))
        (by simp only [List.length_set]; omega) (by simp only [List.length_set]; omega)
    simp only [List.length_set] at hl1 hl2
    refine ⟨out, ?_, hl1, hl2, ?_, ?_, ?_⟩
    · rw [roiLoop, if_pos ⟨hi1, hi2⟩]
      exact hout
    · intro j hj
      have := hlow j (by omega)
      simp only [List.getElem?_set_ne (show i ≠ j by omega)] at this
      exact this
    · intro j hj
      simp only [List.length_cons] at hj
      have := hhigh j (by omega)
      simp only [List.getElem?_set_ne (show i ≠ j by omega)] at this
      exact this
    · intro j r hr
      cases j with
      | zero =>
        simp only [List.getElem?_cons_zero, Option.some.injEq] at hr
        subst hr
        have := hlow i (by omega)
        simp only [List.getElem?_set_self hi1, List.getElem?_set_self hi2] at this
        exact this
      | succ j =>
        rw [List.getElem?_cons_succ] at hr
        have := hmid j r hr
        have e : i + 1 + j = i + (j + 1) := by omega
        rw [e] at this
        exact this

theorem roiLoop_out_of_bounds (rois : List LayerRect) :
    ∀ (i : ℕ) (rects : List DRMRect × List DRMRect),
      i ≤ rects.1.length → rects.1.length < i + rois.length →
      roiLoop rois i rects = none := by
  induction rois with
  | nil =>
    intro i rects h1 h2
    simp only [List.length_nil, Nat.add_zero] at h2
    omega
  | cons roi rest ih =>
    intro i rects h1 h2
    simp only [List.length_cons] at h2
    rw [roiLoop]
    split_ifs with h
    · apply ih
      · simp only [List.length_set]; omega
      · simp only [List.length_set]; omega
    · rfl

end sdm

namespace sdm

theorem take_eq_map_of_getElem? (out : List DRMRect) (rois : List LayerRect)
    (h : ∀ (j : ℕ) (roi : LayerRect), rois[j]? = some roi → out[j]? = some (roiRect roi)) :
    out.take rois.length = rois.map roiRect := by
  apply List.ext_getElem?
  intro j
  rw [List.getElem?_map]
  by_cases hj : j < rois.length
  · rw [List.getElem?_take_of_lt hj, List.getElem?_eq_getElem hj, Option.map_some']
    exact h j _ (List.getElem?_eq_getElem hj)
  · rw [List.getElem?_take_eq_none (by omega), List.getElem?_eq_none (by omega)]
    rfl

theorem SetupAtomicROI_in_bounds (mixer_width mixer_height x_pixels y_pixels : ℕ)
    (rois : List LayerRect) (hlen : rois.length ≤ kNumMaxROIs) :
    ∃ p, HWDeviceDRM.SetupAtomicROI true mixer_width mixer_height x_pixels y_pixels rois =
        some (some p) ∧
      p.num_rects = max 1 rois.length ∧ p.num_rects ≤ kNumMaxROIs ∧
      p.crtc_rects.length = kNumMaxROIs ∧ p.conn_rects.length = kNumMaxROIs ∧
      (rois = [] →
        p.crtc = [{ left := 0, top := 0, right := mixer_width, bottom := mixer_height }] ∧
        p.conn = [{ left := 0, top := 0, right := x_pixels, bottom := y_pixels }]) ∧
      (rois ≠ [] → p.crtc = rois.map roiRect ∧ p.conn = rois.map roiRect) := by
  have h4 : kNumMaxROIs = 4 := rfl
  obtain ⟨out, hout, hl1, hl2, _, _, hmid⟩ := roiLoop_ok rois 0
    ({ left := 0, top := 0, right := mixer_width, bottom := mixer_height } ::
        List.replicate (kNumMaxROIs - 1) {},
      { left := 0, top := 0, right := x_pixels, bottom := y_pixels } ::
        List.replicate (kNumMaxROIs - 1) {})
    (by simp [h4]; omega) (by simp [h4]; omega)
  have hmod : rois.length % 2 ^ 32 = rois.length := Nat.mod_eq_of_lt (by omega)
  simp only [List.length_cons, List.length_replicate] at hl1 hl2
  refine ⟨{ num_rects := max 1 rois.length, crtc_rects := out.1, conn_rects := out.2 },
    ?_, rfl, ?_, by rw [hl1, h4], by rw [hl2, h4], ?_, ?_⟩
  · simp only [HWDeviceDRM.SetupAtomicROI, if_true, hout, hmod]
  · simp only
    omega
  · intro hnil
    subst hnil
    simp only [roiLoop, Option.some.injEq] at hout
    subst hout
    simp [ROIProgram.crtc, ROIProgram.conn]
  · intro hne
    have hpos : 0 < rois.length := List.length_pos.mpr hne
    have hmax : max 1 rois.length = rois.length := by omega
    simp only [ROIProgram.crtc, ROIProgram.conn, hmax]
    constructor
    · apply take_eq_map_of_getElem? _ _
      intro j roi hr
      have := (hmid j roi hr).1
      rwa [Nat.zero_add] at this
    · apply take_eq_map_of_getElem? _ _
      intro j roi hr
      have := (hmid j roi hr).2
      rwa [Nat.zero_add] at this

theorem SetupAtomicROI_out_of_bounds (mixer_width mixer_height x_pixels y_pixels : ℕ)
    (rois : List LayerRect) (hlen : kNumMaxROIs < rois.length) :
    HWDeviceDRM.SetupAtomicROI true mixer_width mixer_height x_pixels y_pixels rois = none := by
  have h4 : kNumMaxROIs = 4 := rfl
  have := roiLoop_out_of_bounds rois 0
    ({ left := 0, top := 0, right := mixer_width, bottom := mixer_height } ::
        List.replicate (kNumMaxROIs - 1) {},
      { left := 0, top := 0, right := x_pixels, bottom := y_pixels } ::
        List.replicate (kNumMaxROIs - 1) {})
    (Nat.zero_le _) (by simp [h4]; omega)
  simp only [HWDeviceDRM.SetupAtomicROI, if_true, this]

/-- C22, evaluated: on a panel with partial update, mixer and display 1080 x 1920.  A frame
with no dirty region programs the one full rectangle, a frame with two dirty regions
programs these two; in both cases the writes stay inside the arrays of 4.  A frame with five
dirty regions makes the region loop write element 4 of `crtc_rects` and `conn_rects`, outside
the arrays: the model has no result (`SetupAtomicROI_out_of_bounds` has this for every
frame with more than 4 dirty regions, `SetupAtomicROI_in_bounds` the claim for the
others). -/
theorem SetupAtomicROI_eval :
    (∃ p, HWDeviceDRM.SetupAtomicROI true 1080 1920 1080 1920 [] = some (some p) ∧
      p.num_rects = 1 ∧
      p.crtc = [{ left := 0, top := 0, right := 1080, bottom := 1920 }] ∧
      p.conn = [{ left := 0, top := 0, right := 1080, bottom := 1920 }]) ∧
    (∃ p, HWDeviceDRM.SetupAtomicROI true 1080 1920 1080 1920 sampleROIs2 = some (some p) ∧
      p.num_rects = 2 ∧
      p.crtc = [{ left := 0, top := 0, right := 1080, bottom := 100 },
        { left := 0, top := 200, right := 1080, bottom := 300 }] ∧
      p.conn = p.crtc) ∧
    sampleROIs5.length = 5 ∧
    roiLoop (sampleROIs5.take 4) 0
        ({ left := 0, top := 0, right := 1080, bottom := 1920 } :: List.replicate 3 {},
          { left := 0, top := 0, right := 1080, bottom := 1920 } :: List.replicate 3 {}) =
      some ((sampleROIs5.take 4).map roiRect, (sampleROIs5.take 4).map roiRect) ∧
    roiLoop (sampleROIs5.drop 4) 4
        ((sampleROIs5.take 4).map roiRect, (sampleROIs5.take 4).map roiRect) = none ∧
    HWDeviceDRM.SetupAtomicROI true 1080 1920 1080 1920 sampleROIs5 = none := by
  exact ⟨⟨_, rfl, by decide!, by decide!, by decide!⟩,
    ⟨_, rfl, by decide!, by decide!, by decide!⟩, by decide, by decide!, by decide!,
    by decide!⟩

end sdm

namespace sdm.atomic

/-! ## `SetupAtomic`: the security level -/

theorem SetSecureConfig_table_aux (lv : DRMSecurityLevel) (input_buffer : LayerBuffer) :
    (input_buffer.flags.secure = false →
      (HWDeviceDRM.SetSecureConfig lv input_buffer).1 = DRMSecureMode.NON_SECURE) ∧
    (input_buffer.flags.secure = true →
      (input_buffer.flags.secure_camera = true ∨ input_buffer.flags.secure_display = true) →
      (HWDeviceDRM.SetSecureConfig lv input_buffer).1 =
        DRMSecureMode.SECURE_DIR_TRANSLATION) ∧
    (input_buffer.flags.secure = true → input_buffer.flags.secure_camera = false →
      input_buffer.flags.secure_display = false →
      (HWDeviceDRM.SetSecureConfig lv input_buffer).1 = DRMSecureMode.SECURE) ∧
    (HWDeviceDRM.SetSecureConfig lv input_buffer).2 =
      (if SecureDisplayOnly input_buffer then lv.SECURE_ONLY else lv.SECURE_NON_SECURE) := by
  obtain ⟨fd, ⟨s, c, d⟩⟩ := input_buffer
  cases s <;> cases c <;> cases d <;>
    simp [HWDeviceDRM.SetSecureConfig, SecureDisplayOnly]

theorem ite_gt_eq_max (a b : ℕ) : (if b > a then b else a) = max a b := by
  by_cases h : b > a
  · rw [if_pos h, max_eq_right (le_of_lt h)]
  · rw [if_neg h, max_eq_left (not_lt.mp h)]

theorem layerStep_eq (lv : DRMSecurityLevel) (reg : Registry) (layer : Layer)
    (cfg : HWLayerConfig) (crtc : ℕ) :
    layerStep lv reg layer cfg crtc = (layerLevels lv reg layer cfg).foldl max crtc := by
  obtain ⟨⟨l⟩, ⟨r⟩, ⟨⟨⟨v0⟩, ⟨v1⟩⟩, mode, out⟩, sf⟩ := cfg
  unfold layerStep pipeStep layerLevels LeftWired RightWired
  simp only [ite_gt_eq_max]
  cases sf
  · cases v0 <;> cases v1 <;> cases l <;> cases r <;> cases mode <;>
      simp only [Bool.false_eq_true, if_false, if_true, and_true, and_false, true_and,
        false_and, or_false, false_or, or_true, true_or, List.nil_append, List.append_nil,
        List.foldl_nil, ne_eq, not_false_eq_true, reduceCtorEq] <;>
      split_ifs <;> simp
  · simp

end sdm.atomic

namespace sdm.atomic

theorem securityLoop_eq (lv : DRMSecurityLevel) (reg : Registry) (layers : List Layer) :
    ∀ (cfgs : List HWLayerConfig) (crtc : ℕ), layers.length ≤ cfgs.length →
      securityLoop lv reg layers cfgs crtc =
        some (((layers.zip cfgs).flatMap (fun p => layerLevels lv reg p.1 p.2)).foldl max
          crtc) := by
  induction layers with
  | nil =>
    intro cfgs crtc _
    simp [securityLoop]
  | cons layer rest ih =>
    intro cfgs crtc hlen
    cases cfgs with
    | nil => simp at hlen
    | cons cfg cfgs =>
      simp only [List.length_cons, Nat.add_le_add_iff_right] at hlen
      rw [securityLoop, ih cfgs _ hlen, layerStep_eq]
      simp only [List.zip_cons_cons, List.flatMap_cons, List.foldl_append]

theorem foldl_max_levels (lo hi : ℕ) (hlt : lo < hi) (levels : List ℕ) :
    ∀ base : ℕ, (∀ x, x ∈ levels → x = lo ∨ x = hi) → (base = lo ∨ base = hi) →
      (levels.foldl max base = hi ∨ levels.foldl max base = lo) ∧
        (levels.foldl max base = hi ↔ base = hi ∨ hi ∈ levels) := by
  induction levels with
  | nil =>
    intro base _ hb
    simp only [List.foldl_nil, List.not_mem_nil, or_false, and_true]
    tauto
  | cons x rest ih =>
    intro base hall hb
    have hx := hall x (List.mem_cons_self _ _)
    have hrest : ∀ y, y ∈ rest → y = lo ∨ y = hi :=
      fun y hy => hall y (List.mem_cons_of_mem _ hy)
    have hmax : max base x = lo ∨ max base x = hi := by
      rcases hb with hb | hb <;> rcases hx with hx | hx <;> subst hb <;> subst hx
      · left; exact max_self _
      · right; exact max_eq_right (le_of_lt hlt)
      · right; exact max_eq_left (le_of_lt hlt)
      · right; exact max_self _
    obtain ⟨h1, h2⟩ := ih (max base x) hrest hmax
    rw [List.foldl_cons]
    refine ⟨h1, ?_⟩
    rw [h2, List.mem_cons]
    have hne : lo ≠ hi := ne_of_lt hlt
    constructor
    · rintro (h | h)
      · rcases hb with hb | hb <;> rcases hx with hx | hx <;> subst hb <;> subst hx
        · rw [max_self] at h; exact absurd h hne
        · right; left; rfl
        · left; rfl
        · left; rfl
      · right; right; exact h
    · rintro (h | h | h)
      · left; rw [h]; exact max_eq_left (by rcases hx with hx | hx <;> omega)
      · left; rw [← h]; exact max_eq_right (by rcases hb with hb | hb <;> omega)
      · right; exact h

theorem mem_wiredLevels (lv : DRMSecurityLevel) (reg : Registry) (hw_layers : HWLayers)
    (x : ℕ) :
    x ∈ wiredLevels lv reg hw_layers ↔
      ∃ (i : ℕ) (layer : Layer) (cfg : HWLayerConfig),
        hw_layers.info.hw_layers[i]? = some layer ∧ hw_layers.config[i]? = some cfg ∧
        (LeftWired reg layer cfg ∨ RightWired reg layer cfg) ∧
        x = (HWDeviceDRM.SetSecureConfig lv layer.input_buffer).2 := by
  unfold wiredLevels
  rw [List.mem_flatMap]
  constructor
  · rintro ⟨⟨layer, cfg⟩, hp, hx⟩
    obtain ⟨i, hi⟩ := List.mem_iff_getElem?.mp hp
    rw [List.getElem?_zip_eq_some] at hi
    refine ⟨i, layer, cfg, hi.1, hi.2, ?_⟩
    simp only [layerLevels, List.mem_append] at hx
    rcases hx with hx | hx
    · split_ifs at hx with hw
      · simp only [List.mem_singleton] at hx
        exact ⟨Or.inl hw, hx⟩
      · simp at hx
    · split_ifs at hx with hw
      · simp only [List.mem_singleton] at hx
        exact ⟨Or.inr hw, hx⟩
      · simp at hx
  · rintro ⟨i, layer, cfg, h1, h2, hw, hx⟩
    refine ⟨(layer, cfg), ?_, ?_⟩
    · apply List.mem_iff_getElem?.mpr
      exact ⟨i, List.getElem?_zip_eq_some.mpr ⟨h1, h2⟩⟩
    · simp only [layerLevels, List.mem_append]
      rcases hw with hw | hw
      · left; rw [if_pos hw, hx]; simp
      · right; rw [if_pos hw, hx]; simp

theorem SetupAtomic_security_aux (lv : DRMSecurityLevel) (reg : Registry)
    (hw_layers : HWLayers) (hlt : lv.SECURE_NON_SECURE < lv.SECURE_ONLY)
    (hlen : hw_layers.info.hw_layers.length ≤ hw_layers.config.length) :
    ∃ level, HWDeviceDRM.SetupAtomicSecurityLevel lv reg hw_layers = some level ∧
      level = (wiredLevels lv reg hw_layers).foldl max lv.SECURE_NON_SECURE ∧
      (level = lv.SECURE_ONLY ∨ level = lv.SECURE_NON_SECURE) ∧
      (level = lv.SECURE_ONLY ↔
        ∃ (i : ℕ) (layer : Layer) (cfg : HWLayerConfig),
          hw_layers.info.hw_layers[i]? = some layer ∧ hw_layers.config[i]? = some cfg ∧
          (LeftWired reg layer cfg ∨ RightWired reg layer cfg) ∧
          SecureDisplayOnly layer.input_buffer) := by
  have hall : ∀ x, x ∈ wiredLevels lv reg hw_layers →
      x = lv.SECURE_NON_SECURE ∨ x = lv.SECURE_ONLY := by
    intro x hx
    obtain ⟨i, layer, cfg, _, _, _, hx⟩ := (mem_wiredLevels lv reg hw_layers x).mp hx
    rw [hx, (SetSecureConfig_table_aux lv layer.input_buffer).2.2.2]
    split_ifs <;> simp
  obtain ⟨h1, h2⟩ := foldl_max_levels lv.SECURE_NON_SECURE lv.SECURE_ONLY hlt
    (wiredLevels lv reg hw_layers) lv.SECURE_NON_SECURE hall (Or.inl rfl)
  refine ⟨_, securityLoop_eq lv reg _ _ _ hlen, rfl, h1, ?_⟩
  have hne : lv.SECURE_NON_SECURE ≠ lv.SECURE_ONLY := ne_of_lt hlt
  unfold wiredLevels at h2
  rw [h2]
  constructor
  · rintro (h | h)
    · exact absurd h hne
    · obtain ⟨i, layer, cfg, g1, g2, g3, g4⟩ :=
        (mem_wiredLevels lv reg hw_layers _).mp h
      refine ⟨i, layer, cfg, g1, g2, g3, ?_⟩
      rw [(SetSecureConfig_table_aux lv layer.input_buffer).2.2.2] at g4
      by_contra hc
      rw [if_neg hc] at g4
      exact hne g4.symm
  · rintro ⟨i, layer, cfg, g1, g2, g3, g4⟩
    right
    apply (mem_wiredLevels lv reg hw_layers _).mpr
    refine ⟨i, layer, cfg, g1, g2, g3, ?_⟩
    rw [(SetSecureConfig_table_aux lv layer.input_buffer).2.2.2, if_pos g4]

end sdm.atomic

namespace sdm.atomic

/-- C29: let `SECURE_ONLY` be the greater of the two `DRMSecurityLevel` values and let
`config` have an element for every layer.  The security level that `SetupAtomic` programs on
the CRTC is the maximum of `SECURE_NON_SECURE` and the security levels of the wired pipes (no
solid fill, valid pipe, non-zero framebuffer id): it is `SECURE_ONLY` exactly when some wired
pipe belongs to a layer whose input buffer has `secure` and `secure_display` set and
`secure_camera` clear, and `SECURE_NON_SECURE` otherwise.  Per buffer, `SetSecureConfig`
yields `NON_SECURE` when `secure` is clear, `SECURE_DIR_TRANSLATION` when `secure` is set
with `secure_camera` or `secure_display`, and `SECURE` when only `secure` is set. -/
theorem SetupAtomic_security (lv : DRMSecurityLevel) (reg : Registry)
    (hw_layers : HWLayers) (hlt : lv.SECURE_NON_SECURE < lv.SECURE_ONLY)
    (hlen : hw_layers.info.hw_layers.length ≤ hw_layers.config.length) :
    (∃ level, HWDeviceDRM.SetupAtomicSecurityLevel lv reg hw_layers = some level ∧
      level = (wiredLevels lv reg hw_layers).foldl max lv.SECURE_NON_SECURE ∧
      (level = lv.SECURE_ONLY ∨ level = lv.SECURE_NON_SECURE) ∧
      (level = lv.SECURE_ONLY ↔
        ∃ (i : ℕ) (layer : Layer) (cfg : HWLayerConfig),
          hw_layers.info.hw_layers[i]? = some layer ∧ hw_layers.config[i]? = some cfg ∧
          (LeftWired reg layer cfg ∨ RightWired reg layer cfg) ∧
          SecureDisplayOnly layer.input_buffer)) ∧
    ∀ input_buffer : LayerBuffer,
      (input_buffer.flags.secure = false →
        (HWDeviceDRM.SetSecureConfig lv input_buffer).1 = DRMSecureMode.NON_SECURE) ∧
      (input_buffer.flags.secure = true →
        (input_buffer.flags.secure_camera = true ∨
          input_buffer.flags.secure_display = true) →
        (HWDeviceDRM.SetSecureConfig lv input_buffer).1 =
          DRMSecureMode.SECURE_DIR_TRANSLATION) ∧
      (input_buffer.flags.secure = true → input_buffer.flags.secure_camera = false →
        input_buffer.flags.secure_display = false →
        (HWDeviceDRM.SetSecureConfig lv input_buffer).1 = DRMSecureMode.SECURE) ∧
      (HWDeviceDRM.SetSecureConfig lv input_buffer).2 =
        (if SecureDisplayOnly input_buffer then lv.SECURE_ONLY
          else lv.SECURE_NON_SECURE) :=
  ⟨SetupAtomic_security_aux lv reg hw_layers hlt hlen,
    fun input_buffer => SetSecureConfig_table_aux lv input_buffer⟩

/-- Witness for C29: in `sampleSecureFrame` the secure display buffer is not wired (the
registry has no id for fd 8) and the camera buffer keeps the level `SECURE_NON_SECURE`; with
the fourth layer of `sampleSecureOnlyFrame`, a wired secure display buffer, the level is
`SECURE_ONLY`. -/
theorem SetupAtomic_security_witness :
    (sampleLevels.SECURE_NON_SECURE < sampleLevels.SECURE_ONLY ∧
      sampleSecureOnlyFrame.info.hw_layers.length ≤ sampleSecureOnlyFrame.config.length) ∧
    HWDeviceDRM.SetupAtomicSecurityLevel sampleLevels sampleRegistry sampleSecureFrame =
      some sampleLevels.SECURE_NON_SECURE ∧
    HWDeviceDRM.SetupAtomicSecurityLevel sampleLevels sampleRegistry sampleSecureOnlyFrame =
      some sampleLevels.SECURE_ONLY ∧
    ∃ level, HWDeviceDRM.SetupAtomicSecurityLevel sampleLevels sampleRegistry
        sampleSecureOnlyFrame = some level ∧
      level = (wiredLevels sampleLevels sampleRegistry sampleSecureOnlyFrame).foldl max
        sampleLevels.SECURE_NON_SECURE ∧
      (level = sampleLevels.SECURE_ONLY ∨ level = sampleLevels.SECURE_NON_SECURE) ∧
      (level = sampleLevels.SECURE_ONLY ↔
        ∃ (i : ℕ) (layer : Layer) (cfg : HWLayerConfig),
          sampleSecureOnlyFrame.info.hw_layers[i]? = some layer ∧
          sampleSecureOnlyFrame.config[i]? = some cfg ∧
          (LeftWired sampleRegistry layer cfg ∨ RightWired sampleRegistry layer cfg) ∧
          SecureDisplayOnly layer.input_buffer) :=
  ⟨⟨by decide, by decide⟩, by decide, by decide,
    (SetupAtomic_security sampleLevels sampleRegistry sampleSecureOnlyFrame (by decide)
      (by decide)).1⟩

end sdm.atomic
